import Mathlib

/-!
# A verification development for the minimal Vulkan application (`src/main.c`)

The C program is embedded shallowly.  Every call into Vulkan or Win32 whose
answer the program reads is taken from an explicit platform record, every
`assert` of the source is a value of `AssertFailure` returned through `Except`,
and unsigned 32-bit quantities are natural numbers.  The main loop and the
start-up of `WinMain` are embedded as the sequence of calls they make: the loop
one iteration at a time, the start-up as a list of steps of which the first
failing assertion ends the run.
-/

namespace MinimalVulkan

/-! ## Basic types -/

/-- The C constant `UINT32_MAX`. -/
def UINT32_MAX : Nat := 4294967295

/-- The C constant `UINT64_MAX`. -/
def UINT64_MAX : Nat := 18446744073709551615

/-- A `VkResult` code. -/
abbrev VkResult := Int

def VK_SUCCESS : VkResult := 0
def VK_NOT_READY : VkResult := 1
def VK_TIMEOUT : VkResult := 2
def VK_SUBOPTIMAL_KHR : VkResult := 1000001003
def VK_ERROR_DEVICE_LOST : VkResult := -4
def VK_ERROR_OUT_OF_DATE_KHR : VkResult := -1000001004

/-- Every `assert` of `src/main.c` that the embedded functions can reach, and
the two places where the start-up goes through a pointer or a handle that a
failed call has not written, at which the run ends as well. -/
inductive AssertFailure where
  /-- The assertion `assert(!"Failed to register window class")`, line 216. -/
  | registerWindowClass
  /-- The assertion `assert(!"Failed to create window")`, line 247. -/
  | createWindow
  /-- The assertion `assert(propertyCount <= 32)`, line 259. -/
  | layerCountExceedsArray
  /-- The assertion `assert(validationLayerFound && ...)`, line 277. -/
  | validationLayerNotFound
  /-- The assertion `assert(!"Failed to create vulkan instance")`, line 323. -/
  | createInstance
  /-- The assertion `assert(!"Failed to create debug messenger!")`, line 360. -/
  | createDebugMessenger
  /-- The assertion `assert(!"Failed to create surface")`, line 379. -/
  | createSurface
  /-- The assertion `assert(deviceCount <= 8)`, line 388. -/
  | deviceCountExceedsArray
  /-- The assertion `assert(vk.physicalDevice)`, line 410. -/
  | noPhysicalDevice
  /-- The assertion `assert(queueFamilyPropertyCount <= 3)`, line 417. -/
  | queueFamilyCountExceedsArray
  /-- The assertion `assert(queueFamilyProperties[queueFamilyIndex].queueFlags & VK_QUEUE_GRAPHICS_BIT)`, line 428. -/
  | noGraphicsSupport
  /-- The assertion `assert(presentSupport)`, line 435. -/
  | noPresentSupport
  /-- The assertion `assert(!"Failed to create logical device")`, line 478. -/
  | createDevice
  /-- The assertion `assert(vk.graphicsAndPresentQueue)`, line 487. -/
  | noDeviceQueue
  /-- The assertion `assert(!"Failed to create the swapchain")`, line 527. -/
  | createSwapchain
  /-- The assertion `assert(imageCount == array_count(vk.swapchainImages))`, line 536. -/
  | swapchainImageCount
  /-- The assertion `assert(vk.swapchainImages[i])`, line 544. -/
  | nullSwapchainImage
  /-- The assertion `assert(imageView)`, line 178, and `assert(vk.swapchainImageViews[i])`, line 550. -/
  | nullImageView
  /-- The assertion `assert(memoryTypeIndex != UINT32_MAX)`, line 583. -/
  | memoryTypeNotFound
  /-- The assertion `assert(imageIndex != UINT32_MAX)`, line 1771. -/
  | imageIndexNotWritten
  /-- The assertion `assert(!"failed to submit draw command buffer!")`, line 1899. -/
  | queueSubmit
  /-- The assertion `assert(handle)`, line 63. -/
  | fileOpen
  /-- The assertions `assert(result.size > 0)`, line 69, and
  `assert(vertexShader.size > 0)`, `assert(fragmentShader.size > 0)`, lines 926 and 929. -/
  | fileEmpty
  /-- The assertion `assert(result.data)`, line 72. -/
  | fileMalloc
  /-- The assertion `assert(bytesRead == result.size)`, line 75. -/
  | fileRead
  /-- The assertion `assert(!"Failed to create buffer!")`, line 612. -/
  | createBuffer
  /-- The assertion `assert(!"Failed to allocate buffer memory!")`, line 631. -/
  | allocateBufferMemory
  /-- The assertion `assert(!"Failed to create shader module!")`, line 712. -/
  | createShaderModule
  /-- The assertion `assert(!"Failed to create render pass")`, line 841. -/
  | createRenderPass
  /-- The assertion `assert(!"Failed to create framebuffer")`, line 870. -/
  | createFramebuffer
  /-- The assertion `assert(!"Failed to create a command pool")`, line 906. -/
  | createCommandPool
  /-- The assertion `assert(!"Failed to create descriptor set layout!")`, line 1010. -/
  | createDescriptorSetLayout
  /-- The assertion `assert(!"Failed to create descriptor pool!")`, line 1048. -/
  | createDescriptorPool
  /-- The assertion `assert(!"Failed to allocate descriptor set!")`, line 1069. -/
  | allocateDescriptorSets
  /-- The assertion `assert(!"Failed to create image")`, line 1141. -/
  | createImage
  /-- The assertion `assert(!"Failed to allocate texture image memory!")`, line 1165. -/
  | allocateImageMemory
  /-- The assertion `assert(!"Failed to create texture sampler!")`, line 1323. -/
  | createSampler
  /-- The assertion `assert(!"Failed to create pipeline layout!")`, line 1689. -/
  | createPipelineLayout
  /-- The assertion `assert(!"Failed to create graphics pipeline!")`, line 1723. -/
  | createGraphicsPipeline
  /-- Not an assertion: the `memcpy` of lines 1105, 1353 and 1446 writes through
  the pointer that `vkMapMemory` was to set; after a failed `vkMapMemory` that
  pointer is null (`mappedData = 0`) or uninitialised (`void *data;`). -/
  | memcpyThroughUnmappedPointer
  /-- Not an assertion: `vk_begin_single_time_commands` hands its local
  `commandBuffer` to `vkBeginCommandBuffer` (line 667); after a failed
  `vkAllocateCommandBuffers` that local is uninitialised. -/
  | commandBufferNotAllocated
  deriving DecidableEq, Repr

/-! ## `vk_find_memory_type` (lines 560-586) -/

/-- One entry of `VkPhysicalDeviceMemoryProperties.memoryTypes`. -/
structure VkMemoryType where
  propertyFlags : Nat
  heapIndex : Nat
  deriving DecidableEq, Repr

/-- What `vkGetPhysicalDeviceMemoryProperties` writes: the count and the
`memoryTypes` array (`VK_MAX_MEMORY_TYPES = 32` slots; a slot the platform did
not write keeps the zero of the `= { 0 }` initialiser). -/
structure VkPhysicalDeviceMemoryProperties where
  memoryTypeCount : Nat
  memoryTypes : List VkMemoryType
  deriving DecidableEq, Repr

/-- The read `memProperties.memoryTypes[i].propertyFlags`. -/
def propertyFlagsAt (memProperties : VkPhysicalDeviceMemoryProperties) (i : Nat) : Nat :=
  (memProperties.memoryTypes.getD i ⟨0, 0⟩).propertyFlags

/-- The `for` loop of `vk_find_memory_type`, entered at index `i` with `n`
iterations left before `i < memoryTypeCount` turns false.  The value is that of
`memoryTypeIndex` after the loop.  `1 << i` is kept within 32 bits. -/
def vk_find_memory_type_loop (memProperties : VkPhysicalDeviceMemoryProperties)
    (typeFilter memPropFlags : Nat) : Nat → Nat → Nat
  | 0, _ => UINT32_MAX
  | n + 1, i =>
    let hasMemoryType : Bool := (typeFilter &&& ((1 <<< i) % 2 ^ 32)) != 0
    let propFlags := propertyFlagsAt memProperties i
    let propsMatch : Bool := (propFlags &&& memPropFlags) == memPropFlags
    if hasMemoryType && propsMatch then i
    else vk_find_memory_type_loop memProperties typeFilter memPropFlags n (i + 1)

/-- The function `vk_find_memory_type`; `memProperties` is the answer of
`vkGetPhysicalDeviceMemoryProperties(vk->physicalDevice, ...)`. -/
def vk_find_memory_type (memProperties : VkPhysicalDeviceMemoryProperties)
    (typeFilter memPropFlags : Nat) : Except AssertFailure Nat :=
  let memoryTypeIndex :=
    vk_find_memory_type_loop memProperties typeFilter memPropFlags
      memProperties.memoryTypeCount 0
  if memoryTypeIndex != UINT32_MAX then .ok memoryTypeIndex
  else .error .memoryTypeNotFound

/-- Index `i` passes both tests: bit `i` of the filter is set and every
requested flag bit is among the property flags of type `i`. -/
def MemoryTypeMatches (memProperties : VkPhysicalDeviceMemoryProperties)
    (typeFilter memPropFlags i : Nat) : Prop :=
  typeFilter.testBit i = true ∧
    ∀ b, memPropFlags.testBit b = true → (propertyFlagsAt memProperties i).testBit b = true

/-! ## `VulkanContext` and the platform (lines 26-43) -/

def VK_QUEUE_GRAPHICS_BIT : Nat := 1
def VK_PHYSICAL_DEVICE_TYPE_DISCRETE_GPU : Nat := 2
def VK_FORMAT_B8G8R8A8_SRGB : Nat := 50
def VK_COLOR_SPACE_SRGB_NONLINEAR_KHR : Nat := 0
def VK_IMAGE_USAGE_COLOR_ATTACHMENT_BIT : Nat := 16
def VK_SHARING_MODE_EXCLUSIVE : Nat := 0
def VK_COMPOSITE_ALPHA_OPAQUE_BIT_KHR : Nat := 1
def VK_PRESENT_MODE_FIFO_KHR : Nat := 2
def VK_IMAGE_VIEW_TYPE_2D : Nat := 1
def VK_COMPONENT_SWIZZLE_IDENTITY : Nat := 0
def VK_IMAGE_ASPECT_COLOR_BIT : Nat := 1
def VK_TRUE : Nat := 1
def VK_FALSE : Nat := 0

/-- The layer name the program asks for (line 264). -/
def validationLayerName : String := "VK_LAYER_KHRONOS_validation"

structure VkExtent2D where
  width : Nat
  height : Nat
  deriving DecidableEq, Repr

/-- The struct `VulkanContext`.  Handles are natural numbers, `0` being `NULL`
(or `VK_NULL_HANDLE`); the field `instance` of the source is `vkInstance`. -/
structure VulkanContext where
  window : Nat
  vkInstance : Nat
  surface : Nat
  physicalDevice : Nat
  device : Nat
  graphicsAndPresentQueueFamily : Nat
  graphicsAndPresentQueue : Nat
  swapchain : Nat
  swapchainImageFormat : Nat
  swapchainImages : List Nat
  swapchainImageViews : List Nat
  swapchainExtents : VkExtent2D
  graphicsCommandPool : Nat
  deriving DecidableEq, Repr

/-- The initialiser `VulkanContext vk = {NULL}`: every field zero, both arrays
of two null handles. -/
def VulkanContext.zero : VulkanContext :=
  { window := 0, vkInstance := 0, surface := 0, physicalDevice := 0, device := 0,
    graphicsAndPresentQueueFamily := 0, graphicsAndPresentQueue := 0, swapchain := 0,
    swapchainImageFormat := 0, swapchainImages := [0, 0], swapchainImageViews := [0, 0],
    swapchainExtents := ⟨0, 0⟩, graphicsCommandPool := 0 }

/-- The fields of `VkQueueFamilyProperties` the program reads. -/
structure VkQueueFamilyProperties where
  queueFlags : Nat
  queueCount : Nat
  deriving DecidableEq, Repr

/-- The fields of `VkSurfaceCapabilitiesKHR` the program reads. -/
structure VkSurfaceCapabilitiesKHR where
  currentExtent : VkExtent2D
  currentTransform : Nat
  deriving DecidableEq, Repr

/-- The struct `VkSwapchainCreateInfoKHR` without `sType` and `pNext`. -/
structure VkSwapchainCreateInfoKHR where
  flags : Nat
  surface : Nat
  minImageCount : Nat
  imageFormat : Nat
  imageColorSpace : Nat
  imageExtent : VkExtent2D
  imageArrayLayers : Nat
  imageUsage : Nat
  imageSharingMode : Nat
  queueFamilyIndexCount : Nat
  pQueueFamilyIndices : List Nat
  preTransform : Nat
  compositeAlpha : Nat
  presentMode : Nat
  clipped : Nat
  oldSwapchain : Nat
  deriving DecidableEq, Repr

structure VkImageSubresourceRange where
  aspectMask : Nat
  baseMipLevel : Nat
  levelCount : Nat
  baseArrayLayer : Nat
  layerCount : Nat
  deriving DecidableEq, Repr

/-- The struct `VkImageViewCreateInfo` without `sType` and `pNext`; `components`
lists the four swizzles. -/
structure VkImageViewCreateInfo where
  flags : Nat
  image : Nat
  viewType : Nat
  format : Nat
  components : List Nat
  subresourceRange : VkImageSubresourceRange
  deriving DecidableEq, Repr

/-- The answers of Win32 and Vulkan that `win32_init_vulkan` reads.  A field
named after an API function is what that function returns or writes; an
enumeration is given as the list of what the platform has, whose length is the
count the first call of the count-then-fetch pair reports. -/
structure Platform where
  /-- The return value of `RegisterClassEx` (`0` on failure). -/
  registerClassEx : Nat
  /-- The window handle returned by `CreateWindowEx` (`NULL` on failure). -/
  createWindowEx : Nat
  /-- The `layerName` of every instance layer of `vkEnumerateInstanceLayerProperties`. -/
  instanceLayers : List String
  /-- Result and written handle of `vkCreateInstance`. -/
  vkCreateInstance : VkResult × Nat
  /-- Result of `vkCreateDebugUtilsMessengerEXT`. -/
  vkCreateDebugUtilsMessengerEXT : VkResult
  /-- Result and written handle of `vkCreateWin32SurfaceKHR`. -/
  vkCreateWin32SurfaceKHR : VkResult × Nat
  /-- The handles `vkEnumeratePhysicalDevices` has to report. -/
  physicalDevices : List Nat
  /-- The `props.deviceType` that `vkGetPhysicalDeviceProperties` writes for a device. -/
  deviceType : Nat → Nat
  /-- The families `vkGetPhysicalDeviceQueueFamilyProperties` reports for a device. -/
  queueFamilies : Nat → List VkQueueFamilyProperties
  /-- The `VkBool32` that `vkGetPhysicalDeviceSurfaceSupportKHR` writes for
  a physical device, a queue family index and a surface. -/
  surfaceSupport : Nat → Nat → Nat → Nat
  /-- Result and written handle of `vkCreateDevice`. -/
  vkCreateDevice : VkResult × Nat
  /-- The queue handle written by `vkGetDeviceQueue`. -/
  vkGetDeviceQueue : Nat
  /-- What `vkGetPhysicalDeviceSurfaceCapabilitiesKHR` writes. -/
  surfaceCapabilities : VkSurfaceCapabilitiesKHR
  /-- Result and written handle of `vkCreateSwapchainKHR` for a device and a create info. -/
  vkCreateSwapchainKHR : Nat → VkSwapchainCreateInfoKHR → VkResult × Nat
  /-- The images of the swapchain, as `vkGetSwapchainImagesKHR` reports them. -/
  swapchainImages : List Nat
  /-- The handle `vkCreateImageView` writes for a device and a create info. -/
  vkCreateImageView : Nat → VkImageViewCreateInfo → Nat

/-! ## `vk_create_image_view` (lines 140-181) -/

/-- The `viewInfo` that `vk_create_image_view` fills in. -/
def imageViewCreateInfo (image format : Nat) : VkImageViewCreateInfo :=
  { flags := 0, image := image, viewType := VK_IMAGE_VIEW_TYPE_2D, format := format,
    components := [VK_COMPONENT_SWIZZLE_IDENTITY, VK_COMPONENT_SWIZZLE_IDENTITY,
      VK_COMPONENT_SWIZZLE_IDENTITY, VK_COMPONENT_SWIZZLE_IDENTITY],
    subresourceRange := ⟨VK_IMAGE_ASPECT_COLOR_BIT, 0, 1, 0, 1⟩ }

/-- The function `vk_create_image_view`: create the view, `assert(imageView)`,
return it. -/
def vk_create_image_view (p : Platform) (vk : VulkanContext) (image format : Nat) :
    Except AssertFailure Nat :=
  let imageView := p.vkCreateImageView vk.device (imageViewCreateInfo image format)
  if imageView == 0 then .error .nullImageView else .ok imageView

/-! ## `win32_init_vulkan` (lines 187-554)

Each definition below is one stretch of the function, in source order.  The
window geometry (`AdjustWindowRect`, lines 219-243) only feeds `CreateWindowEx`
and is left out. -/

/-- Lines 197-250: register the window class, create and show the window. -/
def init_create_window (p : Platform) (vk : VulkanContext) :
    Except AssertFailure VulkanContext :=
  if p.registerClassEx == 0 then .error .registerWindowClass
  else
    let vk := { vk with window := p.createWindowEx }
    if vk.window == 0 then .error .createWindow else .ok vk

/-- The loop of lines 268-275 over `layerProperties`, entered at index `i` with
`n` iterations left; the value is `validationLayerFound` after the loop. -/
def validation_layer_loop (layerProperties : List String) : Nat → Nat → Bool
  | 0, _ => false
  | n + 1, i =>
    if layerProperties.getD i "" == validationLayerName then true
    else validation_layer_loop layerProperties n (i + 1)

/-- Lines 256-277: enumerate the instance layers into the 32-slot array and
look for the validation layer. -/
def init_enabled_layers (p : Platform) (vk : VulkanContext) :
    Except AssertFailure VulkanContext :=
  let propertyCount := p.instanceLayers.length
  if ¬ propertyCount ≤ 32 then .error .layerCountExceedsArray
  else
    let layerProperties := p.instanceLayers
    let validationLayerFound := validation_layer_loop layerProperties propertyCount 0
    if ¬ validationLayerFound then .error .validationLayerNotFound else .ok vk

/-- Lines 294-380: create the instance, the debug messenger and the surface. -/
def init_create_instance_and_surface (p : Platform) (vk : VulkanContext) :
    Except AssertFailure VulkanContext :=
  if p.vkCreateInstance.1 != VK_SUCCESS then .error .createInstance
  else
    let vk := { vk with vkInstance := p.vkCreateInstance.2 }
    if p.vkCreateDebugUtilsMessengerEXT != VK_SUCCESS then .error .createDebugMessenger
    else if p.vkCreateWin32SurfaceKHR.1 != VK_SUCCESS then .error .createSurface
    else .ok { vk with surface := p.vkCreateWin32SurfaceKHR.2 }

/-- The loop of lines 397-409 over `devices`, entered at index `i` with `n`
iterations left and the current `vk.physicalDevice`; the value is
`vk.physicalDevice` after the loop.  `devices[i]` is the `i`-th enumerated
handle, or the `NULL` of the `= {NULL}` initialiser. -/
def discrete_gpu_loop (p : Platform) (devices : List Nat) (physicalDevice : Nat) :
    Nat → Nat → Nat
  | 0, _ => physicalDevice
  | n + 1, i =>
    if p.deviceType (devices.getD i 0) == VK_PHYSICAL_DEVICE_TYPE_DISCRETE_GPU then
      devices.getD i 0
    else discrete_gpu_loop p devices physicalDevice n (i + 1)

/-- Lines 386-410: enumerate the physical devices into the 8-slot array and
pick one. -/
def init_pick_physical_device (p : Platform) (vk : VulkanContext) :
    Except AssertFailure VulkanContext :=
  let deviceCount := p.physicalDevices.length
  if ¬ deviceCount ≤ 8 then .error .deviceCountExceedsArray
  else
    let devices := p.physicalDevices
    let vk := { vk with physicalDevice := devices.getD 0 0 }
    let vk := { vk with
      physicalDevice := discrete_gpu_loop p devices vk.physicalDevice deviceCount 0 }
    if vk.physicalDevice == 0 then .error .noPhysicalDevice else .ok vk

/-- Lines 412-438: enumerate the queue families of the chosen device into the
3-slot array (zero-initialised) and check family `0`. -/
def init_pick_queue_family (p : Platform) (vk : VulkanContext) :
    Except AssertFailure VulkanContext :=
  let queueFamilyPropertyCount := (p.queueFamilies vk.physicalDevice).length
  if ¬ queueFamilyPropertyCount ≤ 3 then .error .queueFamilyCountExceedsArray
  else
    let queueFamilyProperties := p.queueFamilies vk.physicalDevice
    let queueFamilyIndex := 0
    if (queueFamilyProperties.getD queueFamilyIndex ⟨0, 0⟩).queueFlags
        &&& VK_QUEUE_GRAPHICS_BIT == 0 then
      .error .noGraphicsSupport
    else
      let presentSupport := p.surfaceSupport vk.physicalDevice queueFamilyIndex vk.surface
      if presentSupport == 0 then .error .noPresentSupport
      else .ok { vk with graphicsAndPresentQueueFamily := queueFamilyIndex }

/-- Lines 444-487: create the logical device and fetch its queue. -/
def init_create_logical_device (p : Platform) (vk : VulkanContext) :
    Except AssertFailure VulkanContext :=
  if p.vkCreateDevice.1 != VK_SUCCESS then .error .createDevice
  else
    let vk := { vk with device := p.vkCreateDevice.2 }
    let vk := { vk with graphicsAndPresentQueue := p.vkGetDeviceQueue }
    if vk.graphicsAndPresentQueue == 0 then .error .noDeviceQueue else .ok vk

/-- The `swapchainCreateInfo` of lines 502-522; `array_count(vk.swapchainImages)`
is `2`. -/
def swapchainCreateInfo (vk : VulkanContext)
    (surfaceCapabilities : VkSurfaceCapabilitiesKHR) : VkSwapchainCreateInfoKHR :=
  { flags := 0, surface := vk.surface, minImageCount := 2,
    imageFormat := vk.swapchainImageFormat,
    imageColorSpace := VK_COLOR_SPACE_SRGB_NONLINEAR_KHR,
    imageExtent := vk.swapchainExtents, imageArrayLayers := 1,
    imageUsage := VK_IMAGE_USAGE_COLOR_ATTACHMENT_BIT,
    imageSharingMode := VK_SHARING_MODE_EXCLUSIVE,
    queueFamilyIndexCount := 0, pQueueFamilyIndices := [],
    preTransform := surfaceCapabilities.currentTransform,
    compositeAlpha := VK_COMPOSITE_ALPHA_OPAQUE_BIT_KHR,
    presentMode := VK_PRESENT_MODE_FIFO_KHR, clipped := VK_TRUE, oldSwapchain := 0 }

/-- Lines 493-528: query the surface capabilities and create the swapchain. -/
def init_create_swapchain (p : Platform) (vk : VulkanContext) :
    Except AssertFailure VulkanContext :=
  let surfaceCapabilities := p.surfaceCapabilities
  let vk := { vk with swapchainImageFormat := VK_FORMAT_B8G8R8A8_SRGB }
  let vk := { vk with swapchainExtents := surfaceCapabilities.currentExtent }
  let created := p.vkCreateSwapchainKHR vk.device (swapchainCreateInfo vk surfaceCapabilities)
  if created.1 != VK_SUCCESS then .error .createSwapchain
  else .ok { vk with swapchain := created.2 }

/-- The loop of lines 542-551 over the swapchain images, entered at index `i`
with `n` iterations left. -/
def image_view_loop (p : Platform) : Nat → Nat → VulkanContext →
    Except AssertFailure VulkanContext
  | 0, _, vk => .ok vk
  | n + 1, i, vk =>
    if vk.swapchainImages.getD i 0 == 0 then .error .nullSwapchainImage
    else
      match vk_create_image_view p vk (vk.swapchainImages.getD i 0) vk.swapchainImageFormat with
      | .error e => .error e
      | .ok imageView =>
        let vk := { vk with swapchainImageViews := vk.swapchainImageViews.set i imageView }
        if vk.swapchainImageViews.getD i 0 == 0 then .error .nullImageView
        else image_view_loop p n (i + 1) vk

/-- Lines 534-553: fetch the swapchain images into the 2-slot array and create
one view for each. -/
def init_swapchain_images (p : Platform) (vk : VulkanContext) :
    Except AssertFailure VulkanContext :=
  let imageCount := p.swapchainImages.length
  if imageCount != 2 then .error .swapchainImageCount
  else
    let vk := { vk with
      swapchainImages := [p.swapchainImages.getD 0 0, p.swapchainImages.getD 1 0] }
    image_view_loop p imageCount 0 vk

/-- The function `win32_init_vulkan`. -/
def win32_init_vulkan (p : Platform) : Except AssertFailure VulkanContext :=
  init_create_window p VulkanContext.zero >>= fun vk =>
  init_enabled_layers p vk >>= fun vk =>
  init_create_instance_and_surface p vk >>= fun vk =>
  init_pick_physical_device p vk >>= fun vk =>
  init_pick_queue_family p vk >>= fun vk =>
  init_create_logical_device p vk >>= fun vk =>
  init_create_swapchain p vk >>= fun vk =>
  init_swapchain_images p vk

/-- The reading of the specification for device selection: prefer a discrete
GPU, fall back to the first enumerated device. -/
def preferDiscreteGpu (deviceType : Nat → Nat) (devices : List Nat) : Option Nat :=
  match devices.find? (fun d => deviceType d == VK_PHYSICAL_DEVICE_TYPE_DISCRETE_GPU) with
  | some d => some d
  | none => devices.head?

/-- Queue family `k` of a device supports graphics submission and presentation
to the surface. -/
def SupportsGraphicsAndPresent (p : Platform) (physicalDevice surface k : Nat) : Prop :=
  ((p.queueFamilies physicalDevice).getD k ⟨0, 0⟩).queueFlags &&& VK_QUEUE_GRAPHICS_BIT ≠ 0 ∧
    p.surfaceSupport physicalDevice k surface ≠ 0

/-- A platform on which `win32_init_vulkan` succeeds: one integrated and one
discrete GPU, one queue family with graphics and present, two swapchain images. -/
def goodPlatform : Platform :=
  { registerClassEx := 49152, createWindowEx := 1,
    instanceLayers := ["VK_LAYER_other", "VK_LAYER_KHRONOS_validation"],
    vkCreateInstance := (VK_SUCCESS, 2),
    vkCreateDebugUtilsMessengerEXT := VK_SUCCESS,
    vkCreateWin32SurfaceKHR := (VK_SUCCESS, 3),
    physicalDevices := [10, 11],
    deviceType := fun d => if d == 11 then 2 else 1,
    queueFamilies := fun _ => [⟨15, 1⟩],
    surfaceSupport := fun _ _ _ => 1,
    vkCreateDevice := (VK_SUCCESS, 4),
    vkGetDeviceQueue := 5,
    surfaceCapabilities := ⟨⟨800, 600⟩, 1⟩,
    vkCreateSwapchainKHR := fun _ _ => (VK_SUCCESS, 6),
    swapchainImages := [20, 21],
    vkCreateImageView := fun _ info => info.image + 10 }

/-- The platform `goodPlatform` with two queue families, the first
compute-only and without present support, the second with both. -/
def secondFamilyPlatform : Platform :=
  { goodPlatform with
    queueFamilies := fun _ => [⟨2, 1⟩, ⟨15, 1⟩],
    surfaceSupport := fun _ k _ => if k == 1 then 1 else 0 }

/-- The platform `goodPlatform` with no physical device. -/
def noDevicePlatform : Platform :=
  { goodPlatform with
    physicalDevices := [] }

/-- The platform `goodPlatform` with a swapchain of three images. -/
def threeImagePlatform : Platform :=
  { goodPlatform with
    swapchainImages := [20, 21, 22] }

/-- The platform `goodPlatform` on which `vkCreateSwapchainKHR` succeeds only
for a create info with a minimum image count of 2. -/
def twoImageRequestPlatform : Platform :=
  { goodPlatform with
    vkCreateSwapchainKHR := fun _ info =>
      if info.minImageCount = 2 then (VK_SUCCESS, 6) else (VK_ERROR_DEVICE_LOST, 0) }

/-- The platform `goodPlatform` on which `vkCreateSwapchainKHR` succeeds only
for a create info with a minimum image count of 3. -/
def threeImageRequestPlatform : Platform :=
  { goodPlatform with
    vkCreateSwapchainKHR := fun _ info =>
      if info.minImageCount = 3 then (VK_SUCCESS, 6) else (VK_ERROR_DEVICE_LOST, 0) }

/-! ## The window procedure (lines 86-116) -/

def WM_CREATE : Nat := 1
def WM_DESTROY : Nat := 2
def WM_SIZE : Nat := 5
def WM_CLOSE : Nat := 16

/-- The function `vulkan_window_proc` as its effect on `globalRunning`: the
`switch` writes `false` for `WM_CLOSE` and `WM_DESTROY` and leaves the flag
alone otherwise (`default` hands the message to `DefWindowProc`). -/
def vulkan_window_proc (message : Nat) (globalRunning : Bool) : Bool :=
  if message == WM_CREATE then globalRunning
  else if message == WM_SIZE then globalRunning
  else if message == WM_CLOSE || message == WM_DESTROY then false
  else globalRunning

/-! ## The main loop of `WinMain` (lines 1747-1926) -/

def VK_PIPELINE_BIND_POINT_GRAPHICS : Nat := 0
def VK_SUBPASS_CONTENTS_INLINE : Nat := 0
def VK_PIPELINE_STAGE_COLOR_ATTACHMENT_OUTPUT_BIT : Nat := 1024

structure VkOffset2D where
  x : Int
  y : Int
  deriving DecidableEq, Repr

structure VkRect2D where
  offset : VkOffset2D
  extent : VkExtent2D
  deriving DecidableEq, Repr

/-- The struct `VkSubmitInfo` without `sType` and `pNext`, arrays as lists. -/
structure VkSubmitInfo where
  waitSemaphores : List Nat
  waitDstStageMask : List Nat
  commandBuffers : List Nat
  signalSemaphores : List Nat
  deriving DecidableEq, Repr

/-- The struct `VkPresentInfoKHR` without `sType`, `pNext` and the null `pResults`. -/
structure VkPresentInfoKHR where
  waitSemaphores : List Nat
  swapchains : List Nat
  imageIndices : List Nat
  deriving DecidableEq, Repr

/-- A call the program makes, with its arguments.  The first seventeen are the
calls of the loop body; the two swapchain calls are what a recreation of the
swapchain would consist of. -/
inductive Event where
  | WaitForFences (device : Nat) (fences : List Nat) (waitAll : Nat) (timeout : Nat)
  | ResetFences (device : Nat) (fences : List Nat)
  | AcquireNextImageKHR (device swapchain timeout semaphore fence : Nat)
  | PeekMessage (found : Option Nat)
  | TranslateMessage (message : Nat)
  | DispatchMessage (message : Nat)
  | ResetCommandBuffer (commandBuffer flags : Nat)
  | BeginCommandBuffer (commandBuffer flags : Nat)
  | CmdBeginRenderPass (commandBuffer renderPass framebuffer : Nat) (renderArea : VkRect2D)
      (clearValues : List (List Nat)) (contents : Nat)
  | CmdBindPipeline (commandBuffer bindPoint pipeline : Nat)
  | CmdBindDescriptorSets (commandBuffer bindPoint layout firstSet : Nat)
      (descriptorSets : List Nat) (dynamicOffsets : List Nat)
  | CmdBindVertexBuffers (commandBuffer firstBinding : Nat) (buffers offsets : List Nat)
  | CmdDraw (commandBuffer vertexCount instanceCount firstVertex firstInstance : Nat)
  | CmdEndRenderPass (commandBuffer : Nat)
  | EndCommandBuffer (commandBuffer : Nat)
  | QueueSubmit (queue : Nat) (submits : List VkSubmitInfo) (fence : Nat)
  | QueuePresentKHR (queue : Nat) (presentInfo : VkPresentInfoKHR)
  | CreateSwapchainKHR (device : Nat) (createInfo : VkSwapchainCreateInfoKHR)
  | DestroySwapchainKHR (device swapchain : Nat)
  deriving DecidableEq, Repr

/-- The objects `WinMain` holds when it enters the main loop.
`swapchainFramebuffers` is the array `VkFramebuffer swapchainFramebuffers[2]`. -/
structure FrameObjects where
  vk : VulkanContext
  renderPass : Nat
  swapchainFramebuffers : Fin 2 → Nat
  imageAvailableSemaphore : Nat
  renderFinishedSemaphore : Nat
  pipelineLayout : Nat
  graphicsPipeline : Nat
  frameFence : Nat
  graphicsCommandBuffer : Nat
  descSet : Nat
  vertexBuffer : Nat

/-- What the platform does during one iteration of the loop, as far as the
program reads it.  The results of the other calls of the body
(`vkWaitForFences`, `vkResetFences`, `vkResetCommandBuffer`,
`vkBeginCommandBuffer`, `vkEndCommandBuffer`) are discarded by the source. -/
structure FrameInput where
  /-- The return value of `vkAcquireNextImageKHR`. -/
  acquireResult : VkResult
  /-- The value the call wrote to `imageIndex`, `none` when it wrote nothing. -/
  acquiredImageIndex : Option Nat
  /-- The messages `PeekMessage` finds, in order; `DispatchMessage` hands each
  to `vulkan_window_proc`. -/
  messages : List Nat
  /-- The return value of `vkQueueSubmit`. -/
  submitResult : VkResult
  /-- The return value of `vkQueuePresentKHR`. -/
  presentResult : VkResult
  deriving DecidableEq, Repr

/-- How one iteration of the loop body ends. -/
inductive FrameOutcome where
  /-- The body ran to its closing brace. -/
  | completed
  /-- An assertion of the body fired. -/
  | assertFailed (a : AssertFailure)
  /-- The read `swapchainFramebuffers[imageIndex]` (line 1822) was made with
  `imageIndex` outside the array: undefined behaviour. -/
  | framebufferIndexOutOfBounds
  deriving DecidableEq, Repr

/-- The calls of one iteration, in order, and how it ended. -/
structure Frame where
  events : List Event
  outcome : FrameOutcome
  deriving DecidableEq, Repr

/-- Lines 1754-1755: wait for the frame fence, then reset it. -/
def waitFenceCalls (o : FrameObjects) : List Event :=
  [.WaitForFences o.vk.device [o.frameFence] VK_TRUE UINT64_MAX,
   .ResetFences o.vk.device [o.frameFence]]

/-- Lines 1762-1766: the call of `vkAcquireNextImageKHR`. -/
def acquireCalls (o : FrameObjects) : List Event :=
  [.AcquireNextImageKHR o.vk.device o.vk.swapchain UINT64_MAX o.imageAvailableSemaphore 0]

/-- The body of `if (... == VK_ERROR_OUT_OF_DATE_KHR)` at lines 1767-1769 and
1923-1925: a `TODO` comment, no statement. -/
def outOfDateBody : List Event := []

/-- The value of `imageIndex` after lines 1761-1766: initialised to
`UINT32_MAX`, overwritten by what the acquire call wrote. -/
def imageIndexAfterAcquire (inp : FrameInput) : Nat :=
  match inp.acquiredImageIndex with
  | some i => i
  | none => UINT32_MAX

/-- Lines 1777-1782: the `while (PeekMessage(...))` loop.  The value is the
calls made and `globalRunning` afterwards. -/
def message_pump : List Nat → Bool → List Event × Bool
  | [], globalRunning => ([.PeekMessage none], globalRunning)
  | m :: rest, globalRunning =>
    let globalRunning := vulkan_window_proc m globalRunning
    let r := message_pump rest globalRunning
    (.PeekMessage (some m) :: .TranslateMessage m :: .DispatchMessage m :: r.1, r.2)

/-- Lines 1788-1798: reset and begin the command buffer. -/
def resetBeginCalls (o : FrameObjects) : List Event :=
  [.ResetCommandBuffer o.graphicsCommandBuffer 0,
   .BeginCommandBuffer o.graphicsCommandBuffer 0]

/-- Lines 1804-1866: the commands recorded for a framebuffer, up to
`vkEndCommandBuffer`.  The clear colour `{1, 1, 0, 1}` is given by its four
components. -/
def renderCalls (o : FrameObjects) (framebuffer : Nat) : List Event :=
  [.CmdBeginRenderPass o.graphicsCommandBuffer o.renderPass framebuffer
      ⟨⟨0, 0⟩, o.vk.swapchainExtents⟩ [[1, 1, 0, 1]] VK_SUBPASS_CONTENTS_INLINE,
   .CmdBindPipeline o.graphicsCommandBuffer VK_PIPELINE_BIND_POINT_GRAPHICS o.graphicsPipeline,
   .CmdBindDescriptorSets o.graphicsCommandBuffer VK_PIPELINE_BIND_POINT_GRAPHICS
      o.pipelineLayout 0 [o.descSet] [],
   .CmdBindVertexBuffers o.graphicsCommandBuffer 0 [o.vertexBuffer] [0],
   .CmdDraw o.graphicsCommandBuffer 6 1 0 0,
   .CmdEndRenderPass o.graphicsCommandBuffer,
   .EndCommandBuffer o.graphicsCommandBuffer]

/-- Lines 1872-1897: the call of `vkQueueSubmit`. -/
def submitCalls (o : FrameObjects) : List Event :=
  [.QueueSubmit o.vk.graphicsAndPresentQueue
      [{ waitSemaphores := [o.imageAvailableSemaphore],
         waitDstStageMask := [VK_PIPELINE_STAGE_COLOR_ATTACHMENT_OUTPUT_BIT],
         commandBuffers := [o.graphicsCommandBuffer],
         signalSemaphores := [o.renderFinishedSemaphore] }]
      o.frameFence]

/-- Lines 1906-1921: the call of `vkQueuePresentKHR`. -/
def presentCalls (o : FrameObjects) (imageIndex : Nat) : List Event :=
  [.QueuePresentKHR o.vk.graphicsAndPresentQueue
      { waitSemaphores := [o.renderFinishedSemaphore],
        swapchains := [o.vk.swapchain],
        imageIndices := [imageIndex] }]

/-- One iteration of the body of `while (globalRunning)` (lines 1749-1926).
The value is the frame and `globalRunning` at the end of the body. -/
def main_loop_iteration (o : FrameObjects) (inp : FrameInput) (globalRunning : Bool) :
    Frame × Bool :=
  let imageIndex := imageIndexAfterAcquire inp
  let acquired := waitFenceCalls o ++ acquireCalls o ++
    (if inp.acquireResult == VK_ERROR_OUT_OF_DATE_KHR then outOfDateBody else [])
  if imageIndex == UINT32_MAX then
    (⟨acquired, .assertFailed .imageIndexNotWritten⟩, globalRunning)
  else
    let pumped := message_pump inp.messages globalRunning
    let begun := acquired ++ pumped.1 ++ resetBeginCalls o
    if h : imageIndex < 2 then
      let framebuffer := o.swapchainFramebuffers ⟨imageIndex, h⟩
      let submitted := begun ++ renderCalls o framebuffer ++ submitCalls o
      if inp.submitResult != VK_SUCCESS then
        (⟨submitted, .assertFailed .queueSubmit⟩, pumped.2)
      else
        (⟨submitted ++ presentCalls o imageIndex ++
            (if inp.presentResult == VK_ERROR_OUT_OF_DATE_KHR then outOfDateBody else []),
          .completed⟩, pumped.2)
    else
      (⟨begun, .framebufferIndexOutOfBounds⟩, pumped.2)

/-- How a run of the loop over finitely many iterations stands at its end. -/
inductive LoopOutcome where
  /-- The test `while (globalRunning)` found the flag false. -/
  | exited
  /-- The last iteration did not run to completion. -/
  | stopped
  /-- The flag is still true: the loop goes on. -/
  | running
  deriving DecidableEq, Repr

/-- The loop `while (globalRunning)` run over the iterations for which the
platform's behaviour is given; the flag is read once per iteration, at the
head. -/
def main_loop (o : FrameObjects) : List FrameInput → Bool → List Frame × LoopOutcome
  | [], globalRunning => ([], if globalRunning then .running else .exited)
  | inp :: rest, globalRunning =>
    if globalRunning then
      let r := main_loop_iteration o inp globalRunning
      if r.1.outcome = .completed then
        let t := main_loop o rest r.2
        (r.1 :: t.1, t.2)
      else ([r.1], .stopped)
    else ([], .exited)

/-- Lines 1747-1926: `globalRunning = true;` followed by the loop. -/
def WinMain_main_loop (o : FrameObjects) (inputs : List FrameInput) :
    List Frame × LoopOutcome :=
  main_loop o inputs true

/-- All the calls of a run, in order. -/
def callTrace (frames : List Frame) : List Event :=
  (frames.map Frame.events).flatten

/-! ### Predicates on calls -/

/-- A reset, a begin or a submission of the graphics command buffer. -/
def reusesCommandBuffer (o : FrameObjects) : Event → Bool
  | .ResetCommandBuffer cb _ => cb == o.graphicsCommandBuffer
  | .BeginCommandBuffer cb _ => cb == o.graphicsCommandBuffer
  | .QueueSubmit _ submits _ => submits.any (fun s => s.commandBuffers.contains o.graphicsCommandBuffer)
  | _ => false

def isQueueSubmit : Event → Bool
  | .QueueSubmit _ _ _ => true
  | _ => false

/-- A call of the message pump. -/
def isMessageCall : Event → Bool
  | .PeekMessage _ => true
  | .TranslateMessage _ => true
  | .DispatchMessage _ => true
  | _ => false

/-- A call that creates or destroys a swapchain. -/
def isSwapchainRecreation : Event → Bool
  | .CreateSwapchainKHR _ _ => true
  | .DestroySwapchainKHR _ _ => true
  | _ => false

/-- The fence model behind "in flight": a submission adds one unit of work
whose completion the program has not observed; a wait on the frame fence that
has returned has observed the completion of everything submitted before it,
the fence being signalled by the latest submission and submissions to one queue
completing in order. -/
def inFlightStep (o : FrameObjects) (n : Nat) : Event → Nat
  | .WaitForFences _ fences _ _ => if fences.contains o.frameFence then 0 else n
  | .QueueSubmit _ _ _ => n + 1
  | _ => n

/-- The number of submissions in flight after a sequence of calls. -/
def submissionsInFlight (o : FrameObjects) (trace : List Event) : Nat :=
  trace.foldl (inFlightStep o) 0

/-- The GPU-facing phases of an iteration (specification, section 4.4). -/
inductive Phase where
  | WAIT_FENCE
  | ACQUIRE_IMAGE
  | RECORD
  | SUBMIT
  | PRESENT
  deriving DecidableEq, Repr

/-- The phase a call belongs to; the message pump belongs to none. -/
def phaseOf : Event → Option Phase
  | .WaitForFences _ _ _ _ => some .WAIT_FENCE
  | .ResetFences _ _ => some .WAIT_FENCE
  | .AcquireNextImageKHR _ _ _ _ _ => some .ACQUIRE_IMAGE
  | .ResetCommandBuffer _ _ => some .RECORD
  | .BeginCommandBuffer _ _ => some .RECORD
  | .CmdBeginRenderPass _ _ _ _ _ _ => some .RECORD
  | .CmdBindPipeline _ _ _ => some .RECORD
  | .CmdBindDescriptorSets _ _ _ _ _ _ => some .RECORD
  | .CmdBindVertexBuffers _ _ _ _ => some .RECORD
  | .CmdDraw _ _ _ _ _ => some .RECORD
  | .CmdEndRenderPass _ => some .RECORD
  | .EndCommandBuffer _ => some .RECORD
  | .QueueSubmit _ _ _ => some .SUBMIT
  | .QueuePresentKHR _ _ => some .PRESENT
  | _ => none

/-- Merge each run of equal neighbours into one element. -/
def collapseRuns : List Phase → List Phase
  | [] => []
  | [a] => [a]
  | a :: b :: rest => if a = b then collapseRuns (b :: rest) else a :: collapseRuns (b :: rest)

/-- The phases a sequence of calls goes through, each maximal run of calls of
one phase counted once. -/
def phasesOf (trace : List Event) : List Phase :=
  collapseRuns (trace.filterMap phaseOf)

/-- Objects for concrete runs: framebuffers `30` and `31`. -/
def exampleObjects : FrameObjects :=
  { vk :=
      { VulkanContext.zero with
        device := 4, graphicsAndPresentQueue := 5, swapchain := 6,
        swapchainImages := [20, 21], swapchainImageViews := [30, 31],
        swapchainExtents := ⟨800, 600⟩ },
    renderPass := 40, swapchainFramebuffers := fun i => 30 + i.val,
    imageAvailableSemaphore := 41, renderFinishedSemaphore := 42, pipelineLayout := 43,
    graphicsPipeline := 44, frameFence := 45, graphicsCommandBuffer := 46, descSet := 47,
    vertexBuffer := 48 }

/-- Scan a sequence of calls for a reuse of the graphics command buffer that
comes after a submission; `seenSubmit` tells whether a submission lies before
the sequence. -/
def noReuseAfterSubmit (o : FrameObjects) : Bool → List Event → Bool
  | _, [] => true
  | seenSubmit, e :: rest =>
    if reusesCommandBuffer o e && seenSubmit then false
    else noReuseAfterSubmit o (seenSubmit || isQueueSubmit e) rest

/-- Starting with `n` submissions in flight, no prefix of the sequence of calls
leaves more than one in flight. -/
def inFlightBounded (o : FrameObjects) : Nat → List Event → Prop
  | n, [] => n ≤ 1
  | n, e :: rest => n ≤ 1 ∧ inFlightBounded o (inFlightStep o n e) rest

/-- The messages handed to `DispatchMessage`, in order. -/
def dispatchedMessages (trace : List Event) : List Nat :=
  trace.filterMap fun e =>
    match e with
    | .DispatchMessage m => some m
    | _ => none

/-- Two iterations for concrete runs: a `WM_SIZE` message and image `0`, then a
`WM_CLOSE` message and image `1`. -/
def exampleInputs : List FrameInput :=
  [⟨VK_SUCCESS, some 0, [WM_SIZE], VK_SUCCESS, VK_SUCCESS⟩,
   ⟨VK_SUCCESS, some 1, [WM_CLOSE], VK_SUCCESS, VK_SUCCESS⟩]

/-! ### The synchronisation calls of an iteration -/

/-- A call that takes part in the synchronisation chain of an iteration: the
acquire, a submission or a present. -/
def isSyncCall : Event → Bool
  | .AcquireNextImageKHR _ _ _ _ _ => true
  | .QueueSubmit _ _ _ => true
  | .QueuePresentKHR _ _ => true
  | _ => false

/-! ## The data of `WinMain` (lines 1076-1082, 1330, 1419-1432) -/

def VK_FILTER_NEAREST : Nat := 0
def VK_SAMPLER_MIPMAP_MODE_LINEAR : Nat := 1
def VK_SAMPLER_ADDRESS_MODE_REPEAT : Nat := 0

/-- The array `texData` (lines 1076-1080). -/
def texData : List Nat := [0xCC000000, 0xFF0000FF, 0xFF0000FF, 0xCC000000]

/-- The array `vertices` (lines 1419-1430) by value, `s` being `100`: six
vertices of four floats each, position `x, y` then texture coordinate `u, v`. -/
def vertices : List Nat :=
  [0, 0, 0, 0,
   100, 0, 1, 0,
   100, 100, 1, 1,
   0, 0, 0, 0,
   100, 100, 1, 1,
   0, 100, 0, 1]

/-- Position of vertex `k` of `vertices`. -/
def vertexPosition (k : Nat) : Nat × Nat :=
  (vertices.getD (4 * k) 0, vertices.getD (4 * k + 1) 0)

/-- Texture coordinate of vertex `k` of `vertices`. -/
def vertexUV (k : Nat) : Nat × Nat :=
  (vertices.getD (4 * k + 2) 0, vertices.getD (4 * k + 3) 0)

/-- The value of `texDataSize`, `sizeof(texData)` for an array of `u32`. -/
def texDataSize : Nat := 4 * texData.length

/-- The value of `uniBufferSize`, `sizeof(f32) * 4 * 4`. -/
def uniBufferSize : Nat := 4 * 4 * 4

/-- The value of `vertBufferSize`, `sizeof(vertices)` for an array of `f32`. -/
def vertBufferSize : Nat := 4 * vertices.length

/-- The four bytes of a 32-bit word in memory, least significant byte first. -/
def bytesOfU32 (w : Nat) : List Nat :=
  [w % 256, w / 256 % 256, w / 65536 % 256, w / 16777216 % 256]

/-- The position of the leading binary digit of `v`, for `v` below `2 ^ fuel`. -/
def binaryExponent : Nat → Nat → Nat
  | 0, _ => 0
  | fuel + 1, v => if v < 2 then 0 else 1 + binaryExponent fuel (v / 2)

/-- The single-precision bit pattern of a natural number below `2 ^ 24`, which
a `float` holds exactly: biased exponent, then the digits after the leading one. -/
def f32BitsOfNat (v : Nat) : Nat :=
  if v = 0 then 0
  else (127 + binaryExponent 24 v) * 2 ^ 23 +
    (v - 2 ^ binaryExponent 24 v) * 2 ^ (23 - binaryExponent 24 v)

/-- The bytes of the array `texData`. -/
def texDataBytes : List Nat := (texData.map bytesOfU32).flatten

/-- The bytes of the array `vertices`. -/
def verticesBytes : List Nat := ((vertices.map f32BitsOfNat).map bytesOfU32).flatten

/-! ## Arguments of the calls made before the main loop -/

def VK_BUFFER_USAGE_TRANSFER_SRC_BIT : Nat := 1
def VK_BUFFER_USAGE_TRANSFER_DST_BIT : Nat := 2
def VK_BUFFER_USAGE_UNIFORM_BUFFER_BIT : Nat := 16
def VK_BUFFER_USAGE_VERTEX_BUFFER_BIT : Nat := 128
def VK_MEMORY_PROPERTY_DEVICE_LOCAL_BIT : Nat := 1
def VK_MEMORY_PROPERTY_HOST_VISIBLE_BIT : Nat := 2
def VK_MEMORY_PROPERTY_HOST_COHERENT_BIT : Nat := 4
def VK_IMAGE_TYPE_2D : Nat := 1
def VK_FORMAT_R8G8B8A8_SRGB : Nat := 43
def VK_SAMPLE_COUNT_1_BIT : Nat := 1
def VK_IMAGE_TILING_OPTIMAL : Nat := 0
def VK_IMAGE_USAGE_TRANSFER_DST_BIT : Nat := 2
def VK_IMAGE_USAGE_SAMPLED_BIT : Nat := 4
def VK_IMAGE_LAYOUT_UNDEFINED : Nat := 0
def VK_IMAGE_LAYOUT_COLOR_ATTACHMENT_OPTIMAL : Nat := 2
def VK_IMAGE_LAYOUT_SHADER_READ_ONLY_OPTIMAL : Nat := 5
def VK_IMAGE_LAYOUT_TRANSFER_DST_OPTIMAL : Nat := 7
def VK_IMAGE_LAYOUT_PRESENT_SRC_KHR : Nat := 1000001002
def VK_ACCESS_SHADER_READ_BIT : Nat := 32
def VK_ACCESS_TRANSFER_WRITE_BIT : Nat := 4096
def VK_QUEUE_FAMILY_IGNORED : Nat := 4294967295
def VK_PIPELINE_STAGE_TOP_OF_PIPE_BIT : Nat := 1
def VK_PIPELINE_STAGE_FRAGMENT_SHADER_BIT : Nat := 128
def VK_PIPELINE_STAGE_TRANSFER_BIT : Nat := 4096
def VK_COMMAND_BUFFER_LEVEL_PRIMARY : Nat := 0
def VK_COMMAND_BUFFER_USAGE_ONE_TIME_SUBMIT_BIT : Nat := 1
def VK_COMMAND_POOL_CREATE_RESET_COMMAND_BUFFER_BIT : Nat := 2
def VK_DESCRIPTOR_TYPE_COMBINED_IMAGE_SAMPLER : Nat := 1
def VK_DESCRIPTOR_TYPE_UNIFORM_BUFFER : Nat := 6
def VK_SHADER_STAGE_VERTEX_BIT : Nat := 1
def VK_SHADER_STAGE_FRAGMENT_BIT : Nat := 16
def VK_ATTACHMENT_LOAD_OP_CLEAR : Nat := 1
def VK_ATTACHMENT_LOAD_OP_DONT_CARE : Nat := 2
def VK_ATTACHMENT_STORE_OP_STORE : Nat := 0
def VK_ATTACHMENT_STORE_OP_DONT_CARE : Nat := 1
def VK_FORMAT_R32G32_SFLOAT : Nat := 103
def VK_VERTEX_INPUT_RATE_VERTEX : Nat := 0
def VK_PRIMITIVE_TOPOLOGY_TRIANGLE_LIST : Nat := 3
def VK_POLYGON_MODE_FILL : Nat := 0
def VK_CULL_MODE_BACK_BIT : Nat := 2
def VK_FRONT_FACE_CLOCKWISE : Nat := 1

/-- The fields of `samplerInfo` (lines 1298-1318) that select the texel. -/
structure VkSamplerCreateInfo where
  magFilter : Nat
  minFilter : Nat
  mipmapMode : Nat
  addressModeU : Nat
  addressModeV : Nat
  addressModeW : Nat
  unnormalizedCoordinates : Nat
  deriving DecidableEq, Repr

/-- The struct `samplerInfo` (lines 1298-1318). -/
def samplerInfo : VkSamplerCreateInfo :=
  { magFilter := VK_FILTER_NEAREST, minFilter := VK_FILTER_NEAREST,
    mipmapMode := VK_SAMPLER_MIPMAP_MODE_LINEAR,
    addressModeU := VK_SAMPLER_ADDRESS_MODE_REPEAT,
    addressModeV := VK_SAMPLER_ADDRESS_MODE_REPEAT,
    addressModeW := VK_SAMPLER_ADDRESS_MODE_REPEAT,
    unnormalizedCoordinates := VK_FALSE }

structure VkAttachmentDescription where
  flags : Nat
  format : Nat
  samples : Nat
  loadOp : Nat
  storeOp : Nat
  stencilLoadOp : Nat
  stencilStoreOp : Nat
  initialLayout : Nat
  finalLayout : Nat
  deriving DecidableEq, Repr

structure VkAttachmentReference where
  attachment : Nat
  layout : Nat
  deriving DecidableEq, Repr

/-- The struct `VkSubpassDescription`; the input, resolve, depth-stencil and
preserve attachments of the source are empty. -/
structure VkSubpassDescription where
  flags : Nat
  pipelineBindPoint : Nat
  colorAttachments : List VkAttachmentReference
  deriving DecidableEq, Repr

/-- The struct `VkRenderPassCreateInfo`; the source passes no dependency. -/
structure VkRenderPassCreateInfo where
  attachments : List VkAttachmentDescription
  subpasses : List VkSubpassDescription
  dependencyCount : Nat
  deriving DecidableEq, Repr

structure VkFramebufferCreateInfo where
  renderPass : Nat
  attachments : List Nat
  width : Nat
  height : Nat
  layers : Nat
  deriving DecidableEq, Repr

structure VkCommandBufferAllocateInfo where
  commandPool : Nat
  level : Nat
  commandBufferCount : Nat
  deriving DecidableEq, Repr

structure VkDescriptorSetLayoutBinding where
  binding : Nat
  descriptorType : Nat
  descriptorCount : Nat
  stageFlags : Nat
  deriving DecidableEq, Repr

structure VkDescriptorPoolSize where
  type : Nat
  descriptorCount : Nat
  deriving DecidableEq, Repr

structure VkDescriptorPoolCreateInfo where
  flags : Nat
  maxSets : Nat
  poolSizes : List VkDescriptorPoolSize
  deriving DecidableEq, Repr

structure VkBufferCreateInfo where
  size : Nat
  usage : Nat
  sharingMode : Nat
  deriving DecidableEq, Repr

structure VkMemoryRequirements where
  size : Nat
  alignment : Nat
  memoryTypeBits : Nat
  deriving DecidableEq, Repr

structure VkMemoryAllocateInfo where
  allocationSize : Nat
  memoryTypeIndex : Nat
  deriving DecidableEq, Repr

structure VkExtent3D where
  width : Nat
  height : Nat
  depth : Nat
  deriving DecidableEq, Repr

structure VkOffset3D where
  x : Int
  y : Int
  z : Int
  deriving DecidableEq, Repr

structure VkImageCreateInfo where
  flags : Nat
  imageType : Nat
  format : Nat
  extent : VkExtent3D
  mipLevels : Nat
  arrayLayers : Nat
  samples : Nat
  tiling : Nat
  usage : Nat
  sharingMode : Nat
  initialLayout : Nat
  deriving DecidableEq, Repr

structure VkImageMemoryBarrier where
  srcAccessMask : Nat
  dstAccessMask : Nat
  oldLayout : Nat
  newLayout : Nat
  srcQueueFamilyIndex : Nat
  dstQueueFamilyIndex : Nat
  image : Nat
  subresourceRange : VkImageSubresourceRange
  deriving DecidableEq, Repr

structure VkImageSubresourceLayers where
  aspectMask : Nat
  mipLevel : Nat
  baseArrayLayer : Nat
  layerCount : Nat
  deriving DecidableEq, Repr

structure VkBufferImageCopy where
  bufferOffset : Nat
  bufferRowLength : Nat
  bufferImageHeight : Nat
  imageSubresource : VkImageSubresourceLayers
  imageOffset : VkOffset3D
  imageExtent : VkExtent3D
  deriving DecidableEq, Repr

structure VkBufferCopy where
  srcOffset : Nat
  dstOffset : Nat
  size : Nat
  deriving DecidableEq, Repr

structure VkDescriptorImageInfo where
  sampler : Nat
  imageView : Nat
  imageLayout : Nat
  deriving DecidableEq, Repr

structure VkDescriptorBufferInfo where
  buffer : Nat
  offset : Nat
  range : Nat
  deriving DecidableEq, Repr

/-- The struct `VkWriteDescriptorSet`; a null `pImageInfo` or `pBufferInfo` is
`none`, and `pTexelBufferView` is null in the source. -/
structure VkWriteDescriptorSet where
  dstSet : Nat
  dstBinding : Nat
  dstArrayElement : Nat
  descriptorCount : Nat
  descriptorType : Nat
  pImageInfo : Option VkDescriptorImageInfo
  pBufferInfo : Option VkDescriptorBufferInfo
  deriving DecidableEq, Repr

structure VkPipelineShaderStageCreateInfo where
  stage : Nat
  module : Nat
  pName : String
  deriving DecidableEq, Repr

structure VkVertexInputBindingDescription where
  binding : Nat
  stride : Nat
  inputRate : Nat
  deriving DecidableEq, Repr

structure VkVertexInputAttributeDescription where
  location : Nat
  binding : Nat
  format : Nat
  offset : Nat
  deriving DecidableEq, Repr

/-- The fields of `rasterizationStateInfo` (lines 1604-1616) other than the
disabled depth clamp, discard and depth bias and the line width. -/
structure VkPipelineRasterizationStateCreateInfo where
  polygonMode : Nat
  cullMode : Nat
  frontFace : Nat
  deriving DecidableEq, Repr

/-- The struct `pipelineInfo` (lines 1696-1716): shader stages, vertex input,
input assembly, rasterisation, layout, render pass and subpass.  The viewport,
multisample, colour blend and dynamic state structs are not carried. -/
structure VkGraphicsPipelineCreateInfo where
  stages : List VkPipelineShaderStageCreateInfo
  vertexBindingDescriptions : List VkVertexInputBindingDescription
  vertexAttributeDescriptions : List VkVertexInputAttributeDescription
  topology : Nat
  rasterizationState : VkPipelineRasterizationStateCreateInfo
  layout : Nat
  renderPass : Nat
  subpass : Nat
  deriving DecidableEq, Repr

/-- A call `WinMain` makes before the main loop, with its arguments.  A call
that returns a `VkResult` carries it as `result`, whether or not the source
looks at it; a call that writes a handle the later calls use carries the
handle. -/
inductive StartupCall where
  | CreateRenderPass (device : Nat) (info : VkRenderPassCreateInfo) (result : VkResult)
      (renderPass : Nat)
  | CreateFramebuffer (device : Nat) (info : VkFramebufferCreateInfo) (result : VkResult)
      (framebuffer : Nat)
  | CreateSemaphore (device : Nat) (result : VkResult) (semaphore : Nat)
  | CreateCommandPool (device flags queueFamilyIndex : Nat) (result : VkResult)
      (commandPool : Nat)
  | AllocateCommandBuffers (device : Nat) (info : VkCommandBufferAllocateInfo)
      (result : VkResult) (commandBuffer : Nat)
  | LoadEntireFile (fileName : String)
  | CreateShaderModule (device codeSize : Nat) (result : VkResult) (shaderModule : Nat)
  | CreateDescriptorSetLayout (device : Nat) (bindings : List VkDescriptorSetLayoutBinding)
      (result : VkResult) (setLayout : Nat)
  | CreateDescriptorPool (device : Nat) (info : VkDescriptorPoolCreateInfo)
      (result : VkResult) (descriptorPool : Nat)
  | AllocateDescriptorSets (device descriptorPool : Nat) (setLayouts : List Nat)
      (result : VkResult) (descriptorSet : Nat)
  | CreateBuffer (device : Nat) (info : VkBufferCreateInfo) (result : VkResult) (buffer : Nat)
  | GetBufferMemoryRequirements (device buffer : Nat) (requirements : VkMemoryRequirements)
  | GetPhysicalDeviceMemoryProperties (physicalDevice : Nat)
  | AllocateMemory (device : Nat) (info : VkMemoryAllocateInfo) (result : VkResult)
      (memory : Nat)
  | BindBufferMemory (device buffer memory offset : Nat) (result : VkResult)
  | MapMemory (device memory offset size flags : Nat) (result : VkResult)
  /-- The call `memcpy(data, source, n)`, where `data` is the pointer the last
  `vkMapMemory` wrote and `bytes` are the first `n` bytes of the source. -/
  | Memcpy (bytes : List Nat)
  | UnmapMemory (device memory : Nat)
  | CreateImage (device : Nat) (info : VkImageCreateInfo) (result : VkResult) (image : Nat)
  | GetImageMemoryRequirements (device image : Nat) (requirements : VkMemoryRequirements)
  | BindImageMemory (device image memory offset : Nat) (result : VkResult)
  | BeginCommandBuffer (commandBuffer flags : Nat) (result : VkResult)
  | CmdPipelineBarrier (commandBuffer srcStageMask dstStageMask dependencyFlags : Nat)
      (imageMemoryBarriers : List VkImageMemoryBarrier)
  | CmdCopyBufferToImage (commandBuffer srcBuffer dstImage dstImageLayout : Nat)
      (regions : List VkBufferImageCopy)
  | CmdCopyBuffer (commandBuffer srcBuffer dstBuffer : Nat) (regions : List VkBufferCopy)
  | EndCommandBuffer (commandBuffer : Nat) (result : VkResult)
  | QueueSubmit (queue : Nat) (submits : List VkSubmitInfo) (fence : Nat) (result : VkResult)
  | QueueWaitIdle (queue : Nat) (result : VkResult)
  | FreeCommandBuffers (device commandPool : Nat) (commandBuffers : List Nat)
  | DestroyBuffer (device buffer : Nat)
  | FreeMemory (device memory : Nat)
  | CreateImageView (device : Nat) (info : VkImageViewCreateInfo) (result : VkResult)
      (imageView : Nat)
  | CreateSampler (device : Nat) (info : VkSamplerCreateInfo) (result : VkResult)
      (sampler : Nat)
  | UpdateDescriptorSets (device : Nat) (writes : List VkWriteDescriptorSet)
  | CreatePipelineLayout (device : Nat) (setLayouts : List Nat) (pushConstantRangeCount : Nat)
      (result : VkResult) (pipelineLayout : Nat)
  | CreateGraphicsPipelines (device : Nat) (info : VkGraphicsPipelineCreateInfo)
      (result : VkResult) (pipeline : Nat)
  | DestroyShaderModule (device shaderModule : Nat)
  | CreateFence (device flags : Nat) (result : VkResult) (fence : Nat)

/-- A stretch of straight-line code: the calls it makes, in order, and what
ends the run at its end, if anything does: an assertion that fires, or the use
of a pointer or handle that the last call of the stretch has not written. -/
structure Step where
  calls : List StartupCall
  failure : Option AssertFailure

/-- The calls made and the way the code ends when the steps are run in order
and the first step that fails ends the process. -/
def runSteps : List Step → List StartupCall × Option AssertFailure
  | [] => ([], none)
  | s :: rest =>
    match s.failure with
    | some e => (s.calls, some e)
    | none => (s.calls ++ (runSteps rest).1, (runSteps rest).2)

/-! ## The platform during start-up -/

/-- What the C library answers while `load_entire_file` reads one file. -/
structure LoadedFileAnswers where
  /-- Whether `fopen_s` left a non-null handle. -/
  opened : Bool
  /-- The value of `ftell` at the end of the file. -/
  size : Nat
  /-- Whether `malloc` returned a non-null pointer. -/
  allocated : Bool
  /-- The return value of `fread`. -/
  bytesRead : Nat
  deriving DecidableEq, Repr

/-- What Vulkan answers during one call of `vk_create_buffer`. -/
structure BufferAnswers where
  /-- The result of `vkCreateBuffer`. -/
  createResult : VkResult
  /-- The handle `vkCreateBuffer` writes. -/
  buffer : Nat
  /-- What `vkGetBufferMemoryRequirements` writes. -/
  memRequirements : VkMemoryRequirements
  /-- The result of `vkAllocateMemory`. -/
  allocateResult : VkResult
  /-- The handle `vkAllocateMemory` writes. -/
  memory : Nat
  /-- The result of `vkBindBufferMemory`. -/
  bindResult : VkResult
  deriving DecidableEq, Repr

/-- What Vulkan answers during one pair of calls of `vk_begin_single_time_commands`
and `vk_end_single_time_commands`. -/
structure SingleTimeAnswers where
  /-- The result of `vkAllocateCommandBuffers`. -/
  allocateResult : VkResult
  /-- The handle `vkAllocateCommandBuffers` writes. -/
  commandBuffer : Nat
  /-- The result of `vkBeginCommandBuffer`. -/
  beginResult : VkResult
  /-- The result of `vkEndCommandBuffer`. -/
  endResult : VkResult
  /-- The result of `vkQueueSubmit`. -/
  submitResult : VkResult
  /-- The result of `vkQueueWaitIdle`. -/
  waitIdleResult : VkResult
  deriving DecidableEq, Repr

/-- The answers of Vulkan and of the C library that `WinMain` reads between
`win32_init_vulkan` and the main loop.  Where one call site runs more than once
the answers are indexed by the run. -/
structure StartupPlatform where
  vkCreateRenderPass : VkResult × Nat
  /-- Indexed by the loop variable `i` of lines 848-872. -/
  vkCreateFramebuffer : Nat → VkResult × Nat
  /-- Result and handle of the two calls of lines 885-889, in order. -/
  vkCreateSemaphore : Nat → VkResult × Nat
  vkCreateCommandPool : VkResult × Nat
  /-- Result and handle of the `vkAllocateCommandBuffers` of line 918. -/
  vkAllocateCommandBuffers : VkResult × Nat
  vertexShaderFile : LoadedFileAnswers
  fragmentShaderFile : LoadedFileAnswers
  /-- Indexed by the call: vertex shader, then fragment shader. -/
  vkCreateShaderModule : Nat → VkResult × Nat
  vkCreateDescriptorSetLayout : VkResult × Nat
  vkCreateDescriptorPool : VkResult × Nat
  vkAllocateDescriptorSets : VkResult × Nat
  /-- What `vkGetPhysicalDeviceMemoryProperties` writes. -/
  memoryProperties : VkPhysicalDeviceMemoryProperties
  texStagingBuffer : BufferAnswers
  /-- The results of the three calls of `vkMapMemory`, in order: texture
  staging, uniform buffer, vertex staging. -/
  vkMapMemory : Nat → VkResult
  vkCreateImage : VkResult × Nat
  /-- What `vkGetImageMemoryRequirements` writes for the texture image. -/
  imageMemoryRequirements : VkMemoryRequirements
  /-- Result and handle of the `vkAllocateMemory` of line 1162. -/
  vkAllocateImageMemory : VkResult × Nat
  vkBindImageMemory : VkResult
  /-- The one-shot command buffer of the texture upload. -/
  texUpload : SingleTimeAnswers
  /-- The result of the `vkCreateImageView` for the texture. -/
  vkCreateImageViewResult : VkResult
  vkCreateSampler : VkResult × Nat
  uniformBuffer : BufferAnswers
  /-- The 64 bytes of the array `projectionMatrix` (lines 1345-1351), whose
  entries come from single-precision divisions. -/
  projectionMatrixBytes : List Nat
  vertStagingBuffer : BufferAnswers
  vertexBuffer : BufferAnswers
  /-- The one-shot command buffer of the vertex upload. -/
  vertUpload : SingleTimeAnswers
  vkCreatePipelineLayout : VkResult × Nat
  vkCreateGraphicsPipelines : VkResult × Nat
  vkCreateFence : VkResult × Nat

/-! ## The helper functions (lines 56-80, 592-716) -/

/-- The function `load_entire_file` with its four assertions, followed by the
assertion on the size that `WinMain` makes on the returned file. -/
def load_entire_file (fileName : String) (a : LoadedFileAnswers) : List Step :=
  [⟨[.LoadEntireFile fileName],
      if !a.opened then some .fileOpen
      else if a.size == 0 then some .fileEmpty
      else if !a.allocated then some .fileMalloc
      else if a.bytesRead != a.size then some .fileRead
      else none⟩,
   ⟨[], if a.size == 0 then some .fileEmpty else none⟩]

/-- The value `vk_find_memory_type` returns, which is that of `memoryTypeIndex`
after the loop. -/
def memoryTypeIndexOf (memProperties : VkPhysicalDeviceMemoryProperties)
    (typeFilter memPropFlags : Nat) : Nat :=
  vk_find_memory_type_loop memProperties typeFilter memPropFlags
    memProperties.memoryTypeCount 0

/-- The assertion of `vk_find_memory_type`, if it fires. -/
def memoryTypeFailure (memProperties : VkPhysicalDeviceMemoryProperties)
    (typeFilter memPropFlags : Nat) : Option AssertFailure :=
  match vk_find_memory_type memProperties typeFilter memPropFlags with
  | .error e => some e
  | .ok _ => none

/-- The function `vk_create_buffer` (lines 592-636): create the buffer, query
its requirements, find the memory type, allocate, bind.  The buffer and the
memory it hands back are `a.buffer` and `a.memory`. -/
def vk_create_buffer (memProperties : VkPhysicalDeviceMemoryProperties) (a : BufferAnswers)
    (vk : VulkanContext) (size usage properties : Nat) : List Step :=
  [⟨[.CreateBuffer vk.device ⟨size, usage, VK_SHARING_MODE_EXCLUSIVE⟩ a.createResult a.buffer],
      if a.createResult != VK_SUCCESS then some .createBuffer else none⟩,
   ⟨[.GetBufferMemoryRequirements vk.device a.buffer a.memRequirements,
     .GetPhysicalDeviceMemoryProperties vk.physicalDevice],
      memoryTypeFailure memProperties a.memRequirements.memoryTypeBits properties⟩,
   ⟨[.AllocateMemory vk.device
        ⟨a.memRequirements.size,
          memoryTypeIndexOf memProperties a.memRequirements.memoryTypeBits properties⟩
        a.allocateResult a.memory],
      if a.allocateResult != VK_SUCCESS then some .allocateBufferMemory else none⟩,
   ⟨[.BindBufferMemory vk.device a.buffer a.memory 0 a.bindResult], none⟩]

/-- The function `vk_begin_single_time_commands` (lines 642-670); it returns
`a.commandBuffer`, the handle the allocation writes.  The result of the
allocation is not looked at; when the allocation fails, the local
`commandBuffer` stays uninitialised and the run ends where it is handed to
`vkBeginCommandBuffer`. -/
def vk_begin_single_time_commands (vk : VulkanContext) (a : SingleTimeAnswers) : List Step :=
  [⟨[.AllocateCommandBuffers vk.device
        ⟨vk.graphicsCommandPool, VK_COMMAND_BUFFER_LEVEL_PRIMARY, 1⟩ a.allocateResult
        a.commandBuffer],
      if a.allocateResult != VK_SUCCESS then some .commandBufferNotAllocated else none⟩,
   ⟨[.BeginCommandBuffer a.commandBuffer VK_COMMAND_BUFFER_USAGE_ONE_TIME_SUBMIT_BIT
        a.beginResult], none⟩]

/-- The function `vk_end_single_time_commands` (lines 672-688), called with the
command buffer `a.commandBuffer`. -/
def vk_end_single_time_commands (vk : VulkanContext) (a : SingleTimeAnswers) : List Step :=
  [⟨[.EndCommandBuffer a.commandBuffer a.endResult,
     .QueueSubmit vk.graphicsAndPresentQueue
        [{ waitSemaphores := [], waitDstStageMask := [], commandBuffers := [a.commandBuffer],
           signalSemaphores := [] }] 0 a.submitResult,
     .QueueWaitIdle vk.graphicsAndPresentQueue a.waitIdleResult,
     .FreeCommandBuffers vk.device vk.graphicsCommandPool [a.commandBuffer]], none⟩]

/-- The function `vk_create_shader_module` (lines 695-716). -/
def vk_create_shader_module (vk : VulkanContext) (size : Nat) (answer : VkResult × Nat) :
    List Step :=
  [⟨[.CreateShaderModule vk.device size answer.1 answer.2],
      if answer.1 != VK_SUCCESS then some .createShaderModule else none⟩]

/-- The function `vk_create_image_view` as a step: the call, then
`assert(imageView)`. -/
def vk_create_image_view_step (p : Platform) (vk : VulkanContext) (image format : Nat)
    (result : VkResult) : List Step :=
  [⟨[.CreateImageView vk.device (imageViewCreateInfo image format) result
        (p.vkCreateImageView vk.device (imageViewCreateInfo image format))],
      match vk_create_image_view p vk image format with
      | .error e => some e
      | .ok _ => none⟩]

/-! ## `WinMain` before the main loop (lines 725-1741)

Each definition is one stretch of `WinMain`, in source order, as the steps it
consists of.  All of them take the context returned by `win32_init_vulkan`,
with `graphicsCommandPool` as line 903 leaves it. -/

/-- The struct `renderPassInfo` (lines 784-836). -/
def renderPassInfo (vk : VulkanContext) : VkRenderPassCreateInfo :=
  { attachments :=
      [⟨0, vk.swapchainImageFormat, VK_SAMPLE_COUNT_1_BIT, VK_ATTACHMENT_LOAD_OP_CLEAR,
        VK_ATTACHMENT_STORE_OP_STORE, VK_ATTACHMENT_LOAD_OP_DONT_CARE,
        VK_ATTACHMENT_STORE_OP_DONT_CARE, VK_IMAGE_LAYOUT_UNDEFINED,
        VK_IMAGE_LAYOUT_PRESENT_SRC_KHR⟩],
    subpasses :=
      [⟨0, VK_PIPELINE_BIND_POINT_GRAPHICS, [⟨0, VK_IMAGE_LAYOUT_COLOR_ATTACHMENT_OPTIMAL⟩]⟩],
    dependencyCount := 0 }

/-- Lines 783-842: create the render pass. -/
def create_render_pass (sp : StartupPlatform) (vk : VulkanContext) : List Step :=
  [⟨[.CreateRenderPass vk.device (renderPassInfo vk) sp.vkCreateRenderPass.1
        sp.vkCreateRenderPass.2],
      if sp.vkCreateRenderPass.1 != VK_SUCCESS then some .createRenderPass else none⟩]

/-- Lines 848-872: one framebuffer for each of the two swapchain image views. -/
def create_framebuffers (sp : StartupPlatform) (vk : VulkanContext) : List Step :=
  (List.range 2).map fun i =>
    ⟨[.CreateFramebuffer vk.device
        ⟨sp.vkCreateRenderPass.2, [vk.swapchainImageViews.getD i 0],
          vk.swapchainExtents.width, vk.swapchainExtents.height, 1⟩
        (sp.vkCreateFramebuffer i).1 (sp.vkCreateFramebuffer i).2],
      if (sp.vkCreateFramebuffer i).1 != VK_SUCCESS then some .createFramebuffer else none⟩

/-- Lines 878-889: the two semaphores. -/
def create_semaphores (sp : StartupPlatform) (vk : VulkanContext) : List Step :=
  [⟨[.CreateSemaphore vk.device (sp.vkCreateSemaphore 0).1 (sp.vkCreateSemaphore 0).2,
     .CreateSemaphore vk.device (sp.vkCreateSemaphore 1).1 (sp.vkCreateSemaphore 1).2],
      none⟩]

/-- The context after line 903 has written `vk.graphicsCommandPool`. -/
def contextWithPool (sp : StartupPlatform) (vk : VulkanContext) : VulkanContext :=
  { vk with graphicsCommandPool := sp.vkCreateCommandPool.2 }

/-- Lines 895-919: the command pool and the graphics command buffer. -/
def create_command_pool_and_buffer (sp : StartupPlatform) (vk : VulkanContext) : List Step :=
  [⟨[.CreateCommandPool vk.device VK_COMMAND_POOL_CREATE_RESET_COMMAND_BUFFER_BIT
        vk.graphicsAndPresentQueueFamily sp.vkCreateCommandPool.1 sp.vkCreateCommandPool.2],
      if sp.vkCreateCommandPool.1 != VK_SUCCESS then some .createCommandPool else none⟩,
   ⟨[.AllocateCommandBuffers vk.device
        ⟨sp.vkCreateCommandPool.2, VK_COMMAND_BUFFER_LEVEL_PRIMARY, 1⟩
        sp.vkAllocateCommandBuffers.1 sp.vkAllocateCommandBuffers.2], none⟩]

/-- Lines 925-936: load the two SPIR-V files and create the shader modules. -/
def create_shader_modules (sp : StartupPlatform) (vk : VulkanContext) : List Step :=
  load_entire_file "../shaders/vert.spv" sp.vertexShaderFile ++
  load_entire_file "../shaders/frag.spv" sp.fragmentShaderFile ++
  vk_create_shader_module vk sp.vertexShaderFile.size (sp.vkCreateShaderModule 0) ++
  vk_create_shader_module vk sp.fragmentShaderFile.size (sp.vkCreateShaderModule 1)

/-- The array `descSetLayoutBindings` (lines 974-996). -/
def descSetLayoutBindings : List VkDescriptorSetLayoutBinding :=
  [⟨0, VK_DESCRIPTOR_TYPE_COMBINED_IMAGE_SAMPLER, 1, VK_SHADER_STAGE_FRAGMENT_BIT⟩,
   ⟨1, VK_DESCRIPTOR_TYPE_UNIFORM_BUFFER, 1, VK_SHADER_STAGE_VERTEX_BIT⟩]

/-- Lines 974-1011: create the descriptor set layout. -/
def create_descriptor_set_layout (sp : StartupPlatform) (vk : VulkanContext) : List Step :=
  [⟨[.CreateDescriptorSetLayout vk.device descSetLayoutBindings
        sp.vkCreateDescriptorSetLayout.1 sp.vkCreateDescriptorSetLayout.2],
      if sp.vkCreateDescriptorSetLayout.1 != VK_SUCCESS then some .createDescriptorSetLayout
      else none⟩]

/-- The struct `descPoolInfo` (lines 1017-1043). -/
def descPoolInfo : VkDescriptorPoolCreateInfo :=
  { flags := 0, maxSets := 1,
    poolSizes := [⟨VK_DESCRIPTOR_TYPE_COMBINED_IMAGE_SAMPLER, 1⟩,
                  ⟨VK_DESCRIPTOR_TYPE_UNIFORM_BUFFER, 1⟩] }

/-- Lines 1017-1049: create the descriptor pool. -/
def create_descriptor_pool (sp : StartupPlatform) (vk : VulkanContext) : List Step :=
  [⟨[.CreateDescriptorPool vk.device descPoolInfo sp.vkCreateDescriptorPool.1
        sp.vkCreateDescriptorPool.2],
      if sp.vkCreateDescriptorPool.1 != VK_SUCCESS then some .createDescriptorPool else none⟩]

/-- Lines 1055-1070: allocate the descriptor set. -/
def allocate_descriptor_set (sp : StartupPlatform) (vk : VulkanContext) : List Step :=
  [⟨[.AllocateDescriptorSets vk.device sp.vkCreateDescriptorPool.2
        [sp.vkCreateDescriptorSetLayout.2] sp.vkAllocateDescriptorSets.1
        sp.vkAllocateDescriptorSets.2],
      if sp.vkAllocateDescriptorSets.1 != VK_SUCCESS then some .allocateDescriptorSets
      else none⟩]

/-- Lines 1088-1107: the texture staging buffer, filled through a mapping.
The result of `vkMapMemory` is not looked at; when the mapping fails,
`mappedData` is still `0` and the run ends in the `memcpy` through it. -/
def create_texture_staging (sp : StartupPlatform) (vk : VulkanContext) : List Step :=
  vk_create_buffer sp.memoryProperties sp.texStagingBuffer vk texDataSize
    VK_BUFFER_USAGE_TRANSFER_SRC_BIT
    (VK_MEMORY_PROPERTY_HOST_VISIBLE_BIT ||| VK_MEMORY_PROPERTY_HOST_COHERENT_BIT) ++
  [⟨[.MapMemory vk.device sp.texStagingBuffer.memory 0 texDataSize 0 (sp.vkMapMemory 0)],
      if sp.vkMapMemory 0 != VK_SUCCESS then some .memcpyThroughUnmappedPointer else none⟩,
   ⟨[.Memcpy (texDataBytes.take texDataSize),
     .UnmapMemory vk.device sp.texStagingBuffer.memory], none⟩]

/-- The struct `imageExtent` (lines 1113-1118). -/
def imageExtent : VkExtent3D := ⟨2, 2, 1⟩

/-- The struct `imageInfo` (lines 1120-1136). -/
def imageInfo : VkImageCreateInfo :=
  { flags := 0, imageType := VK_IMAGE_TYPE_2D, format := VK_FORMAT_R8G8B8A8_SRGB,
    extent := imageExtent, mipLevels := 1, arrayLayers := 1,
    samples := VK_SAMPLE_COUNT_1_BIT, tiling := VK_IMAGE_TILING_OPTIMAL,
    usage := VK_IMAGE_USAGE_TRANSFER_DST_BIT ||| VK_IMAGE_USAGE_SAMPLED_BIT,
    sharingMode := VK_SHARING_MODE_EXCLUSIVE, initialLayout := VK_IMAGE_LAYOUT_UNDEFINED }

/-- Lines 1113-1170: create the texture image, allocate and bind its memory. -/
def create_texture_image (sp : StartupPlatform) (vk : VulkanContext) : List Step :=
  [⟨[.CreateImage vk.device imageInfo sp.vkCreateImage.1 sp.vkCreateImage.2],
      if sp.vkCreateImage.1 != VK_SUCCESS then some .createImage else none⟩,
   ⟨[.GetImageMemoryRequirements vk.device sp.vkCreateImage.2 sp.imageMemoryRequirements,
     .GetPhysicalDeviceMemoryProperties vk.physicalDevice],
      memoryTypeFailure sp.memoryProperties sp.imageMemoryRequirements.memoryTypeBits
        VK_MEMORY_PROPERTY_DEVICE_LOCAL_BIT⟩,
   ⟨[.AllocateMemory vk.device
        ⟨sp.imageMemoryRequirements.size,
          memoryTypeIndexOf sp.memoryProperties sp.imageMemoryRequirements.memoryTypeBits
            VK_MEMORY_PROPERTY_DEVICE_LOCAL_BIT⟩
        sp.vkAllocateImageMemory.1 sp.vkAllocateImageMemory.2],
      if sp.vkAllocateImageMemory.1 != VK_SUCCESS then some .allocateImageMemory else none⟩,
   ⟨[.BindImageMemory vk.device sp.vkCreateImage.2 sp.vkAllocateImageMemory.2 0
        sp.vkBindImageMemory], none⟩]

/-- The struct `subResRange` (lines 1182-1189). -/
def subResRange : VkImageSubresourceRange := ⟨VK_IMAGE_ASPECT_COLOR_BIT, 0, 1, 0, 1⟩

/-- The three commands recorded into `texCommandBuffer` (lines 1195-1272). -/
def texture_commands (sp : StartupPlatform) (commandBuffer : Nat) : List StartupCall :=
  [.CmdPipelineBarrier commandBuffer VK_PIPELINE_STAGE_TOP_OF_PIPE_BIT
      VK_PIPELINE_STAGE_TRANSFER_BIT 0
      [⟨0, VK_ACCESS_TRANSFER_WRITE_BIT, VK_IMAGE_LAYOUT_UNDEFINED,
        VK_IMAGE_LAYOUT_TRANSFER_DST_OPTIMAL, VK_QUEUE_FAMILY_IGNORED,
        VK_QUEUE_FAMILY_IGNORED, sp.vkCreateImage.2, subResRange⟩],
   .CmdCopyBufferToImage commandBuffer sp.texStagingBuffer.buffer sp.vkCreateImage.2
      VK_IMAGE_LAYOUT_TRANSFER_DST_OPTIMAL
      [⟨0, 0, 0, ⟨VK_IMAGE_ASPECT_COLOR_BIT, 0, 0, 1⟩, ⟨0, 0, 0⟩, imageExtent⟩],
   .CmdPipelineBarrier commandBuffer VK_PIPELINE_STAGE_TRANSFER_BIT
      VK_PIPELINE_STAGE_FRAGMENT_SHADER_BIT 0
      [⟨VK_ACCESS_TRANSFER_WRITE_BIT, VK_ACCESS_SHADER_READ_BIT,
        VK_IMAGE_LAYOUT_TRANSFER_DST_OPTIMAL, VK_IMAGE_LAYOUT_SHADER_READ_ONLY_OPTIMAL,
        VK_QUEUE_FAMILY_IGNORED, VK_QUEUE_FAMILY_IGNORED, sp.vkCreateImage.2, subResRange⟩]]

/-- Lines 1176-1285: the one-shot command buffer of the texture upload, then
the destruction of the staging buffer. -/
def upload_texture (sp : StartupPlatform) (vk : VulkanContext) : List Step :=
  vk_begin_single_time_commands vk sp.texUpload ++
  [⟨texture_commands sp sp.texUpload.commandBuffer, none⟩] ++
  vk_end_single_time_commands vk sp.texUpload ++
  [⟨[.DestroyBuffer vk.device sp.texStagingBuffer.buffer,
     .FreeMemory vk.device sp.texStagingBuffer.memory], none⟩]

/-- The value of `texImageView`. -/
def texImageViewOf (p : Platform) (sp : StartupPlatform) (vk : VulkanContext) : Nat :=
  p.vkCreateImageView vk.device (imageViewCreateInfo sp.vkCreateImage.2 VK_FORMAT_R8G8B8A8_SRGB)

/-- Lines 1291-1324: the view and the sampler of the texture. -/
def create_texture_view_and_sampler (p : Platform) (sp : StartupPlatform)
    (vk : VulkanContext) : List Step :=
  vk_create_image_view_step p vk sp.vkCreateImage.2 VK_FORMAT_R8G8B8A8_SRGB
    sp.vkCreateImageViewResult ++
  [⟨[.CreateSampler vk.device samplerInfo sp.vkCreateSampler.1 sp.vkCreateSampler.2],
      if sp.vkCreateSampler.1 != VK_SUCCESS then some .createSampler else none⟩]

/-- Lines 1330-1356: the uniform buffer, filled with the projection matrix.
The result of `vkMapMemory` is not looked at; when the mapping fails, the
pointer `data` is uninitialised and the run ends in the `memcpy` through it. -/
def create_uniform_buffer (sp : StartupPlatform) (vk : VulkanContext) : List Step :=
  vk_create_buffer sp.memoryProperties sp.uniformBuffer vk uniBufferSize
    VK_BUFFER_USAGE_UNIFORM_BUFFER_BIT
    (VK_MEMORY_PROPERTY_HOST_VISIBLE_BIT ||| VK_MEMORY_PROPERTY_HOST_COHERENT_BIT) ++
  [⟨[.MapMemory vk.device sp.uniformBuffer.memory 0 uniBufferSize 0 (sp.vkMapMemory 1)],
      if sp.vkMapMemory 1 != VK_SUCCESS then some .memcpyThroughUnmappedPointer else none⟩,
   ⟨[.Memcpy (sp.projectionMatrixBytes.take uniBufferSize),
     .UnmapMemory vk.device sp.uniformBuffer.memory], none⟩]

/-- The array `writeDescSets` (lines 1362-1408). -/
def writeDescSets (p : Platform) (sp : StartupPlatform) (vk : VulkanContext) :
    List VkWriteDescriptorSet :=
  [{ dstSet := sp.vkAllocateDescriptorSets.2, dstBinding := 0, dstArrayElement := 0,
     descriptorCount := 1, descriptorType := VK_DESCRIPTOR_TYPE_COMBINED_IMAGE_SAMPLER,
     pImageInfo := some ⟨sp.vkCreateSampler.2, texImageViewOf p sp vk,
       VK_IMAGE_LAYOUT_SHADER_READ_ONLY_OPTIMAL⟩,
     pBufferInfo := none },
   { dstSet := sp.vkAllocateDescriptorSets.2, dstBinding := 1, dstArrayElement := 0,
     descriptorCount := 1, descriptorType := VK_DESCRIPTOR_TYPE_UNIFORM_BUFFER,
     pImageInfo := none,
     pBufferInfo := some ⟨sp.uniformBuffer.buffer, 0, uniBufferSize⟩ }]

/-- Lines 1362-1413: update the descriptor set. -/
def update_descriptor_set (p : Platform) (sp : StartupPlatform) (vk : VulkanContext) :
    List Step :=
  [⟨[.UpdateDescriptorSets vk.device (writeDescSets p sp vk)], none⟩]

/-- Lines 1419-1449: the vertex staging buffer, filled through a mapping.
The result of `vkMapMemory` is not looked at; when the mapping fails, the
pointer `data` is uninitialised and the run ends in the `memcpy` through it. -/
def create_vertex_staging (sp : StartupPlatform) (vk : VulkanContext) : List Step :=
  vk_create_buffer sp.memoryProperties sp.vertStagingBuffer vk vertBufferSize
    VK_BUFFER_USAGE_TRANSFER_SRC_BIT
    (VK_MEMORY_PROPERTY_HOST_VISIBLE_BIT ||| VK_MEMORY_PROPERTY_HOST_COHERENT_BIT) ++
  [⟨[.MapMemory vk.device sp.vertStagingBuffer.memory 0 vertBufferSize 0 (sp.vkMapMemory 2)],
      if sp.vkMapMemory 2 != VK_SUCCESS then some .memcpyThroughUnmappedPointer else none⟩,
   ⟨[.Memcpy (verticesBytes.take vertBufferSize),
     .UnmapMemory vk.device sp.vertStagingBuffer.memory], none⟩]

/-- Lines 1455-1459: the vertex buffer. -/
def create_vertex_buffer (sp : StartupPlatform) (vk : VulkanContext) : List Step :=
  vk_create_buffer sp.memoryProperties sp.vertexBuffer vk vertBufferSize
    (VK_BUFFER_USAGE_VERTEX_BUFFER_BIT ||| VK_BUFFER_USAGE_TRANSFER_DST_BIT)
    VK_MEMORY_PROPERTY_DEVICE_LOCAL_BIT

/-- The command recorded into `vertCommandBuffer` (lines 1467-1480). -/
def vertex_commands (sp : StartupPlatform) (commandBuffer : Nat) : List StartupCall :=
  [.CmdCopyBuffer commandBuffer sp.vertStagingBuffer.buffer sp.vertexBuffer.buffer
      [⟨0, 0, vertBufferSize⟩]]

/-- Lines 1465-1489: the one-shot command buffer of the vertex upload, then
the destruction of the staging buffer. -/
def upload_vertices (sp : StartupPlatform) (vk : VulkanContext) : List Step :=
  vk_begin_single_time_commands vk sp.vertUpload ++
  [⟨vertex_commands sp sp.vertUpload.commandBuffer, none⟩] ++
  vk_end_single_time_commands vk sp.vertUpload ++
  [⟨[.DestroyBuffer vk.device sp.vertStagingBuffer.buffer,
     .FreeMemory vk.device sp.vertStagingBuffer.memory], none⟩]

/-- Lines 1676-1690: create the pipeline layout. -/
def create_pipeline_layout (sp : StartupPlatform) (vk : VulkanContext) : List Step :=
  [⟨[.CreatePipelineLayout vk.device [sp.vkCreateDescriptorSetLayout.2] 0
        sp.vkCreatePipelineLayout.1 sp.vkCreatePipelineLayout.2],
      if sp.vkCreatePipelineLayout.1 != VK_SUCCESS then some .createPipelineLayout
      else none⟩]

/-- The struct `pipelineInfo` (lines 1696-1716) with the structs of lines
942-968 and 1495-1616 it points to. -/
def pipelineInfo (sp : StartupPlatform) : VkGraphicsPipelineCreateInfo :=
  { stages := [⟨VK_SHADER_STAGE_VERTEX_BIT, (sp.vkCreateShaderModule 0).2, "main"⟩,
               ⟨VK_SHADER_STAGE_FRAGMENT_BIT, (sp.vkCreateShaderModule 1).2, "main"⟩],
    vertexBindingDescriptions := [⟨0, 4 * 4, VK_VERTEX_INPUT_RATE_VERTEX⟩],
    vertexAttributeDescriptions := [⟨0, 0, VK_FORMAT_R32G32_SFLOAT, 0⟩,
                                    ⟨1, 0, VK_FORMAT_R32G32_SFLOAT, 4 * 2⟩],
    topology := VK_PRIMITIVE_TOPOLOGY_TRIANGLE_LIST,
    rasterizationState := ⟨VK_POLYGON_MODE_FILL, VK_CULL_MODE_BACK_BIT, VK_FRONT_FACE_CLOCKWISE⟩,
    layout := sp.vkCreatePipelineLayout.2,
    renderPass := sp.vkCreateRenderPass.2,
    subpass := 0 }

/-- Lines 1696-1724: create the graphics pipeline. -/
def create_graphics_pipeline (sp : StartupPlatform) (vk : VulkanContext) : List Step :=
  [⟨[.CreateGraphicsPipelines vk.device (pipelineInfo sp) sp.vkCreateGraphicsPipelines.1
        sp.vkCreateGraphicsPipelines.2],
      if sp.vkCreateGraphicsPipelines.1 != VK_SUCCESS then some .createGraphicsPipeline
      else none⟩]

/-- Lines 1730-1741: destroy the shader modules and create the frame fence,
with flags `0`. -/
def create_frame_fence (sp : StartupPlatform) (vk : VulkanContext) : List Step :=
  [⟨[.DestroyShaderModule vk.device (sp.vkCreateShaderModule 0).2,
     .DestroyShaderModule vk.device (sp.vkCreateShaderModule 1).2,
     .CreateFence vk.device 0 sp.vkCreateFence.1 sp.vkCreateFence.2], none⟩]

/-- The steps of `WinMain` between `win32_init_vulkan` and the main loop, for
the context `vk` that `win32_init_vulkan` returned. -/
def WinMain_startup_steps (p : Platform) (sp : StartupPlatform) (vk : VulkanContext) :
    List Step :=
  create_render_pass sp vk ++
  create_framebuffers sp vk ++
  create_semaphores sp vk ++
  create_command_pool_and_buffer sp vk ++
  create_shader_modules sp (contextWithPool sp vk) ++
  create_descriptor_set_layout sp (contextWithPool sp vk) ++
  create_descriptor_pool sp (contextWithPool sp vk) ++
  allocate_descriptor_set sp (contextWithPool sp vk) ++
  create_texture_staging sp (contextWithPool sp vk) ++
  create_texture_image sp (contextWithPool sp vk) ++
  upload_texture sp (contextWithPool sp vk) ++
  create_texture_view_and_sampler p sp (contextWithPool sp vk) ++
  create_uniform_buffer sp (contextWithPool sp vk) ++
  update_descriptor_set p sp (contextWithPool sp vk) ++
  create_vertex_staging sp (contextWithPool sp vk) ++
  create_vertex_buffer sp (contextWithPool sp vk) ++
  upload_vertices sp (contextWithPool sp vk) ++
  create_pipeline_layout sp (contextWithPool sp vk) ++
  create_graphics_pipeline sp (contextWithPool sp vk) ++
  create_frame_fence sp (contextWithPool sp vk)

/-- The calls `WinMain` makes between `win32_init_vulkan` and the main loop,
and what ends the process there, if anything does. -/
def WinMain_startup (p : Platform) (sp : StartupPlatform) (vk : VulkanContext) :
    List StartupCall × Option AssertFailure :=
  runSteps (WinMain_startup_steps p sp vk)

/-- The objects `WinMain` holds when it enters the main loop. -/
def startupObjects (sp : StartupPlatform) (vk : VulkanContext) : FrameObjects :=
  { vk := contextWithPool sp vk,
    renderPass := sp.vkCreateRenderPass.2,
    swapchainFramebuffers := fun i => (sp.vkCreateFramebuffer i.val).2,
    imageAvailableSemaphore := (sp.vkCreateSemaphore 0).2,
    renderFinishedSemaphore := (sp.vkCreateSemaphore 1).2,
    pipelineLayout := sp.vkCreatePipelineLayout.2,
    graphicsPipeline := sp.vkCreateGraphicsPipelines.2,
    frameFence := sp.vkCreateFence.2,
    graphicsCommandBuffer := sp.vkAllocateCommandBuffers.2,
    descSet := sp.vkAllocateDescriptorSets.2,
    vertexBuffer := sp.vertexBuffer.buffer }

/-- The context `win32_init_vulkan` returns on `goodPlatform`. -/
def goodContext : VulkanContext :=
  { window := 1, vkInstance := 2, surface := 3, physicalDevice := 11, device := 4,
    graphicsAndPresentQueueFamily := 0, graphicsAndPresentQueue := 5, swapchain := 6,
    swapchainImageFormat := VK_FORMAT_B8G8R8A8_SRGB, swapchainImages := [20, 21],
    swapchainImageViews := [30, 31], swapchainExtents := ⟨800, 600⟩,
    graphicsCommandPool := 0 }

/-- Answers of a `vk_create_buffer` in which every call succeeds and every
memory type is allowed. -/
def goodBuffer (buffer memory size : Nat) : BufferAnswers :=
  { createResult := VK_SUCCESS, buffer := buffer,
    memRequirements := ⟨size, 16, 3⟩,
    allocateResult := VK_SUCCESS, memory := memory, bindResult := VK_SUCCESS }

/-- A platform on which the start-up of `WinMain` runs to the main loop: every
call succeeds, memory type `0` is device-local, memory type `1` host-visible
and host-coherent, both shader files hold 1024 bytes. -/
def goodStartup : StartupPlatform :=
  { vkCreateRenderPass := (VK_SUCCESS, 40),
    vkCreateFramebuffer := fun i => (VK_SUCCESS, 50 + i),
    vkCreateSemaphore := fun i => (VK_SUCCESS, 41 + i),
    vkCreateCommandPool := (VK_SUCCESS, 60),
    vkAllocateCommandBuffers := (VK_SUCCESS, 46),
    vertexShaderFile := ⟨true, 1024, true, 1024⟩,
    fragmentShaderFile := ⟨true, 1024, true, 1024⟩,
    vkCreateShaderModule := fun i => (VK_SUCCESS, 61 + i),
    vkCreateDescriptorSetLayout := (VK_SUCCESS, 63),
    vkCreateDescriptorPool := (VK_SUCCESS, 64),
    vkAllocateDescriptorSets := (VK_SUCCESS, 47),
    memoryProperties := ⟨2, [⟨1, 0⟩, ⟨6, 1⟩]⟩,
    texStagingBuffer := goodBuffer 70 71 16,
    vkMapMemory := fun _ => VK_SUCCESS,
    vkCreateImage := (VK_SUCCESS, 72),
    imageMemoryRequirements := ⟨16, 16, 1⟩,
    vkAllocateImageMemory := (VK_SUCCESS, 73),
    vkBindImageMemory := VK_SUCCESS,
    texUpload := ⟨VK_SUCCESS, 74, VK_SUCCESS, VK_SUCCESS, VK_SUCCESS, VK_SUCCESS⟩,
    vkCreateImageViewResult := VK_SUCCESS,
    vkCreateSampler := (VK_SUCCESS, 75),
    uniformBuffer := goodBuffer 76 77 64,
    projectionMatrixBytes := List.replicate 64 0,
    vertStagingBuffer := goodBuffer 78 79 96,
    vertexBuffer := goodBuffer 48 80 96,
    vertUpload := ⟨VK_SUCCESS, 74, VK_SUCCESS, VK_SUCCESS, VK_SUCCESS, VK_SUCCESS⟩,
    vkCreatePipelineLayout := (VK_SUCCESS, 43),
    vkCreateGraphicsPipelines := (VK_SUCCESS, 44),
    vkCreateFence := (VK_SUCCESS, 45) }

/-- The platform `goodStartup` on which the device is lost during the uploads:
the `vkQueueSubmit` and the `vkQueueWaitIdle` of both one-shot command buffers
return `VK_ERROR_DEVICE_LOST`.  The source compares neither result with
anything, and neither call writes a handle or a pointer. -/
def ignoredFailuresStartup : StartupPlatform :=
  { goodStartup with
    texUpload := ⟨VK_SUCCESS, 74, VK_SUCCESS, VK_SUCCESS, VK_ERROR_DEVICE_LOST,
      VK_ERROR_DEVICE_LOST⟩,
    vertUpload := ⟨VK_SUCCESS, 74, VK_SUCCESS, VK_SUCCESS, VK_ERROR_DEVICE_LOST,
      VK_ERROR_DEVICE_LOST⟩ }

/-! ### Observations on the calls of the start-up -/

/-- The result code of a call that the source compares with `VK_SUCCESS`. -/
def checkedResult : StartupCall → Option VkResult
  | .CreateRenderPass _ _ result _ => some result
  | .CreateFramebuffer _ _ result _ => some result
  | .CreateCommandPool _ _ _ result _ => some result
  | .CreateShaderModule _ _ result _ => some result
  | .CreateDescriptorSetLayout _ _ result _ => some result
  | .CreateDescriptorPool _ _ result _ => some result
  | .AllocateDescriptorSets _ _ _ result _ => some result
  | .CreateBuffer _ _ result _ => some result
  | .AllocateMemory _ _ result _ => some result
  | .CreateImage _ _ result _ => some result
  | .CreateSampler _ _ result _ => some result
  | .CreatePipelineLayout _ _ _ result _ => some result
  | .CreateGraphicsPipelines _ _ result _ => some result
  | _ => none

/-- The result code of a call whose result the source discards. -/
def ignoredResult : StartupCall → Option VkResult
  | .CreateSemaphore _ result _ => some result
  | .AllocateCommandBuffers _ _ result _ => some result
  | .BindBufferMemory _ _ _ _ result => some result
  | .MapMemory _ _ _ _ _ result => some result
  | .BindImageMemory _ _ _ _ result => some result
  | .BeginCommandBuffer _ _ result => some result
  | .EndCommandBuffer _ result => some result
  | .QueueSubmit _ _ _ result => some result
  | .QueueWaitIdle _ result => some result
  | .CreateImageView _ _ result _ => some result
  | .CreateFence _ _ result _ => some result
  | _ => none

/-- The objects of the pipeline builder. -/
inductive BuilderObject where
  | renderPass
  | descriptorSetLayout
  | descriptorPool
  | descriptorSet
  | pipelineLayout
  | graphicsPipeline
  deriving DecidableEq, Repr

/-- The object of the pipeline builder a call creates, if it creates one. -/
def builderObjectOf : StartupCall → Option BuilderObject
  | .CreateRenderPass _ _ _ _ => some .renderPass
  | .CreateDescriptorSetLayout _ _ _ _ => some .descriptorSetLayout
  | .CreateDescriptorPool _ _ _ _ => some .descriptorPool
  | .AllocateDescriptorSets _ _ _ _ _ => some .descriptorSet
  | .CreatePipelineLayout _ _ _ _ _ => some .pipelineLayout
  | .CreateGraphicsPipelines _ _ _ _ => some .graphicsPipeline
  | _ => none

/-- The calls of a list of steps when no step fails. -/
def callsOf (steps : List Step) : List StartupCall :=
  (steps.map Step.calls).flatten

/-- The allocation request of a call of `vkAllocateMemory`. -/
def allocationOf : StartupCall → Option VkMemoryAllocateInfo
  | .AllocateMemory _ info _ _ => some info
  | _ => none

/-- The layouts a call gives `image`: the initial layout at its creation, the
new layout of every barrier that names it. -/
def layoutsGiven (image : Nat) : StartupCall → List Nat
  | .CreateImage _ info _ created => if created = image then [info.initialLayout] else []
  | .CmdPipelineBarrier _ _ _ _ barriers =>
    (barriers.filter fun b => b.image == image).map fun b => b.newLayout
  | _ => []

/-- The layouts `image` is given by the calls, in order. -/
def imageLayouts (image : Nat) (calls : List StartupCall) : List Nat :=
  calls.flatMap (layoutsGiven image)

/-- Whether the call is a command that reads or writes `image`. -/
def commandOnImage (image : Nat) : StartupCall → Bool
  | .CmdPipelineBarrier _ _ _ _ barriers => barriers.any fun b => b.image == image
  | .CmdCopyBufferToImage _ _ dstImage _ _ => dstImage == image
  | _ => false

/-! ### The device memory during the uploads

A model in which a write through a mapped pointer and an executed copy command
move bytes exactly.  A call that does not return `VK_SUCCESS` has no effect.
Commands are executed when their command buffer is submitted.  The bytes of
freed memory are kept. -/

/-- The state of the device as far as the uploads go. -/
structure GpuState where
  /-- The bytes of each memory object, by offset. -/
  memory : Nat → Nat → Nat
  /-- The memory object and the offset each buffer is bound to. -/
  bufferBinding : Nat → Option (Nat × Nat)
  /-- The bytes of each image: image, texel column, texel row, byte of the
  texel (four bytes per texel). -/
  texels : Nat → Int → Int → Nat → Nat
  /-- The pointer the last `vkMapMemory` wrote: memory object and offset;
  `none` when the call failed or the memory has been unmapped. -/
  mapped : Option (Nat × Nat)
  /-- The commands recorded in each command buffer since it was begun. -/
  recorded : Nat → List StartupCall

/-- The device before the start-up: nothing bound, mapped or recorded. -/
def GpuState.initial : GpuState :=
  { memory := fun _ _ => 0, bufferBinding := fun _ => none, texels := fun _ _ _ _ => 0,
    mapped := none, recorded := fun _ => [] }

/-- One region of `vkCmdCopyBuffer`, executed. -/
def copyBufferRegion (src dst : Nat) (s : GpuState) (r : VkBufferCopy) : GpuState :=
  match s.bufferBinding src, s.bufferBinding dst with
  | some (srcMemory, srcBase), some (dstMemory, dstBase) =>
    { s with
      memory := fun m o =>
        if m = dstMemory ∧ dstBase + r.dstOffset ≤ o ∧ o < dstBase + r.dstOffset + r.size then
          s.memory srcMemory (srcBase + r.srcOffset + (o - (dstBase + r.dstOffset)))
        else s.memory m o }
  | _, _ => s

/-- One region of `vkCmdCopyBufferToImage`, executed: texel rows are read from
the buffer one after the other, `bufferRowLength` texels apart, or tightly
packed when it is `0`. -/
def copyBufferToImageRegion (src image : Nat) (s : GpuState) (r : VkBufferImageCopy) :
    GpuState :=
  match s.bufferBinding src with
  | some (srcMemory, srcBase) =>
    let rowLength := if r.bufferRowLength = 0 then r.imageExtent.width else r.bufferRowLength
    { s with
      texels := fun i x y b =>
        if i = image ∧ r.imageOffset.x ≤ x ∧ x < r.imageOffset.x + r.imageExtent.width ∧
            r.imageOffset.y ≤ y ∧ y < r.imageOffset.y + r.imageExtent.height ∧ b < 4 then
          s.memory srcMemory (srcBase + r.bufferOffset +
            ((y - r.imageOffset.y).toNat * rowLength + (x - r.imageOffset.x).toNat) * 4 + b)
        else s.texels i x y b }
  | none => s

/-- A recorded command, executed. -/
def executeCommand (s : GpuState) : StartupCall → GpuState
  | .CmdCopyBuffer _ src dst regions => regions.foldl (copyBufferRegion src dst) s
  | .CmdCopyBufferToImage _ src image _ regions =>
    regions.foldl (copyBufferToImageRegion src image) s
  | _ => s

/-- A command appended to the commands of its command buffer. -/
def record (s : GpuState) (commandBuffer : Nat) (command : StartupCall) : GpuState :=
  { s with
    recorded := fun c =>
      if c = commandBuffer then s.recorded c ++ [command] else s.recorded c }

/-- The effect of one call of the start-up on the device. -/
def gpuStep (s : GpuState) : StartupCall → GpuState
  | .BindBufferMemory _ buffer memory offset result =>
    if result = VK_SUCCESS then
      { s with
        bufferBinding := fun b => if b = buffer then some (memory, offset)
          else s.bufferBinding b }
    else s
  | .MapMemory _ memory offset _ _ result =>
    { s with mapped := if result = VK_SUCCESS then some (memory, offset) else none }
  | .Memcpy bytes =>
    match s.mapped with
    | some (mappedMemory, base) =>
      { s with
        memory := fun m o =>
          if m = mappedMemory ∧ base ≤ o ∧ o < base + bytes.length then bytes.getD (o - base) 0
          else s.memory m o }
    | none => s
  | .UnmapMemory _ _ => { s with mapped := none }
  | .BeginCommandBuffer commandBuffer _ result =>
    if result = VK_SUCCESS then
      { s with recorded := fun c => if c = commandBuffer then [] else s.recorded c }
    else s
  | .CmdPipelineBarrier commandBuffer srcStageMask dstStageMask dependencyFlags barriers =>
    record s commandBuffer
      (.CmdPipelineBarrier commandBuffer srcStageMask dstStageMask dependencyFlags barriers)
  | .CmdCopyBufferToImage commandBuffer srcBuffer dstImage dstImageLayout regions =>
    record s commandBuffer
      (.CmdCopyBufferToImage commandBuffer srcBuffer dstImage dstImageLayout regions)
  | .CmdCopyBuffer commandBuffer srcBuffer dstBuffer regions =>
    record s commandBuffer (.CmdCopyBuffer commandBuffer srcBuffer dstBuffer regions)
  | .QueueSubmit _ submits _ result =>
    if result = VK_SUCCESS then
      (submits.flatMap fun submit => submit.commandBuffers).foldl
        (fun s commandBuffer => (s.recorded commandBuffer).foldl executeCommand s) s
    else s
  | .DestroyBuffer _ buffer =>
    { s with bufferBinding := fun b => if b = buffer then none else s.bufferBinding b }
  | _ => s

/-- The device after the calls, started from `s`. -/
def gpuRun (s : GpuState) (calls : List StartupCall) : GpuState :=
  calls.foldl gpuStep s

/-- The first `n` bytes of a buffer, read through its binding. -/
def bufferBytes (s : GpuState) (buffer n : Nat) : Option (List Nat) :=
  (s.bufferBinding buffer).map fun binding =>
    (List.range n).map fun k => s.memory binding.1 (binding.2 + k)

/-- The bytes of the texels of an image of the given width and height, row by
row, four bytes per texel. -/
def imageBytes (s : GpuState) (image width height : Nat) : List Nat :=
  (List.range height).flatMap fun y =>
    (List.range width).flatMap fun x =>
      (List.range 4).map fun b => s.texels image x y b

/-- The four assertions of `load_entire_file` and the one on the size hold. -/
def FileLoads (a : LoadedFileAnswers) : Prop :=
  a.opened = true ∧ a.size ≠ 0 ∧ a.allocated = true ∧ a.bytesRead = a.size

/-- The three checks of one call of `vk_create_buffer` pass: the creation and
the allocation return `VK_SUCCESS` and a memory type is found. -/
def BufferChecksPass (memProperties : VkPhysicalDeviceMemoryProperties) (a : BufferAnswers)
    (properties : Nat) : Prop :=
  a.createResult = VK_SUCCESS ∧
  memoryTypeIndexOf memProperties a.memRequirements.memoryTypeBits properties ≠ UINT32_MAX ∧
  a.allocateResult = VK_SUCCESS

/-- Every comparison with `VK_SUCCESS` and every assertion of the start-up
passes. -/
def StartupChecksPass (p : Platform) (sp : StartupPlatform) (vk : VulkanContext) : Prop :=
  sp.vkCreateRenderPass.1 = VK_SUCCESS ∧
  (sp.vkCreateFramebuffer 0).1 = VK_SUCCESS ∧
  (sp.vkCreateFramebuffer 1).1 = VK_SUCCESS ∧
  sp.vkCreateCommandPool.1 = VK_SUCCESS ∧
  FileLoads sp.vertexShaderFile ∧
  FileLoads sp.fragmentShaderFile ∧
  (sp.vkCreateShaderModule 0).1 = VK_SUCCESS ∧
  (sp.vkCreateShaderModule 1).1 = VK_SUCCESS ∧
  sp.vkCreateDescriptorSetLayout.1 = VK_SUCCESS ∧
  sp.vkCreateDescriptorPool.1 = VK_SUCCESS ∧
  sp.vkAllocateDescriptorSets.1 = VK_SUCCESS ∧
  BufferChecksPass sp.memoryProperties sp.texStagingBuffer
    (VK_MEMORY_PROPERTY_HOST_VISIBLE_BIT ||| VK_MEMORY_PROPERTY_HOST_COHERENT_BIT) ∧
  sp.vkCreateImage.1 = VK_SUCCESS ∧
  memoryTypeIndexOf sp.memoryProperties sp.imageMemoryRequirements.memoryTypeBits
    VK_MEMORY_PROPERTY_DEVICE_LOCAL_BIT ≠ UINT32_MAX ∧
  sp.vkAllocateImageMemory.1 = VK_SUCCESS ∧
  texImageViewOf p sp (contextWithPool sp vk) ≠ 0 ∧
  sp.vkCreateSampler.1 = VK_SUCCESS ∧
  BufferChecksPass sp.memoryProperties sp.uniformBuffer
    (VK_MEMORY_PROPERTY_HOST_VISIBLE_BIT ||| VK_MEMORY_PROPERTY_HOST_COHERENT_BIT) ∧
  BufferChecksPass sp.memoryProperties sp.vertStagingBuffer
    (VK_MEMORY_PROPERTY_HOST_VISIBLE_BIT ||| VK_MEMORY_PROPERTY_HOST_COHERENT_BIT) ∧
  BufferChecksPass sp.memoryProperties sp.vertexBuffer VK_MEMORY_PROPERTY_DEVICE_LOCAL_BIT ∧
  sp.vkCreatePipelineLayout.1 = VK_SUCCESS ∧
  sp.vkCreateGraphicsPipelines.1 = VK_SUCCESS

/-- Every pointer and every handle that the start-up goes on to use without
looking at the result of the call that writes it has been written: the three
mappings and the allocations of the two one-shot command buffers succeed. -/
def StartupOutputsWritten (sp : StartupPlatform) : Prop :=
  sp.vkMapMemory 0 = VK_SUCCESS ∧
  sp.texUpload.allocateResult = VK_SUCCESS ∧
  sp.vkMapMemory 1 = VK_SUCCESS ∧
  sp.vkMapMemory 2 = VK_SUCCESS ∧
  sp.vertUpload.allocateResult = VK_SUCCESS

/-! ## Sampling of the quad (shaders not in the source) -/

/-- Modelled from the spec: the shaders and the rasteriser are not in the
source; a fragment at quad position `(x, y)` receives the texture coordinate
`(x / 100, y / 100)`. -/
def fragmentUV {K : Type} [LinearOrderedField K] (x y : K) : K × K :=
  (x / 100, y / 100)

/-- Modelled from the spec: nearest filtering on the 2x2 texture picks the texel
in column `floor (2 u)` and row `floor (2 v)`. -/
def nearestTexel {K : Type} [LinearOrderedField K] [FloorRing K] (uv : K × K) : Int × Int :=
  (⌊2 * uv.1⌋, ⌊2 * uv.2⌋)

/-- Modelled from the spec: the texel of the row-major 2x2 texture `texData` at
a column and a row; a coordinate outside the texture is brought back by the
address mode of `samplerInfo`, repeat meaning modulo the size. -/
def texelAt (texel : Int × Int) : Nat :=
  let column := if samplerInfo.addressModeU = VK_SAMPLER_ADDRESS_MODE_REPEAT then texel.1 % 2
    else max 0 (min 1 texel.1)
  let row := if samplerInfo.addressModeV = VK_SAMPLER_ADDRESS_MODE_REPEAT then texel.2 % 2
    else max 0 (min 1 texel.2)
  texData.getD (row * 2 + column).toNat 0

/-- Modelled from the spec: the texel a fragment at quad position `(x, y)`
samples. -/
def sampledTexel {K : Type} [LinearOrderedField K] [FloorRing K] (x y : K) : Nat :=
  texelAt (nearestTexel (fragmentUV x y))

/-! ## Observations for the recording, the one-shot helpers and the descriptors -/

/-- A call that begins or ends the recording of `commandBuffer` or records a
command into it. -/
def recordsInto (commandBuffer : Nat) : Event → Bool
  | .BeginCommandBuffer cb _ => cb == commandBuffer
  | .CmdBeginRenderPass cb _ _ _ _ _ => cb == commandBuffer
  | .CmdBindPipeline cb _ _ => cb == commandBuffer
  | .CmdBindDescriptorSets cb _ _ _ _ _ => cb == commandBuffer
  | .CmdBindVertexBuffers cb _ _ _ => cb == commandBuffer
  | .CmdDraw cb _ _ _ _ => cb == commandBuffer
  | .CmdEndRenderPass cb => cb == commandBuffer
  | .EndCommandBuffer cb => cb == commandBuffer
  | _ => false

/-- A call of the start-up that only `vk_begin_single_time_commands` and
`vk_end_single_time_commands` make: begin, end, submit, wait for idle, free. -/
def isSingleTimeCall : StartupCall → Bool
  | .BeginCommandBuffer _ _ _ => true
  | .EndCommandBuffer _ _ => true
  | .QueueSubmit _ _ _ _ => true
  | .QueueWaitIdle _ _ => true
  | .FreeCommandBuffers _ _ _ => true
  | _ => false

/-- A call that creates the descriptor-set layout or the descriptor pool,
allocates descriptor sets or writes descriptors. -/
def isDescriptorCall : StartupCall → Bool
  | .CreateDescriptorSetLayout _ _ _ _ => true
  | .CreateDescriptorPool _ _ _ _ => true
  | .AllocateDescriptorSets _ _ _ _ _ => true
  | .UpdateDescriptorSets _ _ => true
  | _ => false

/-- The calls of one use of the one-shot helpers: `vk_begin_single_time_commands`,
the commands the caller records, `vk_end_single_time_commands`. -/
def single_time_calls (vk : VulkanContext) (a : SingleTimeAnswers)
    (commands : List StartupCall) : List StartupCall :=
  callsOf (vk_begin_single_time_commands vk a ++ [⟨commands, none⟩] ++
    vk_end_single_time_commands vk a)

/-! ## Vertex fetch -/

/-- The size in bytes of a value of a vertex attribute format; of the formats
of the Vulkan headers only the one the program uses is listed. -/
def formatSize (format : Nat) : Nat :=
  if format = VK_FORMAT_R32G32_SFLOAT then 8 else 0

/-- The bytes of the bound vertex buffer a draw fetches, as half-open ranges
`(first, past the last)`: for each of the `vertexCount` vertices from
`firstVertex` on and each attribute, the value of the attribute's format at
the attribute's offset in the vertex, vertices being `stride` bytes apart from
the offset at which the buffer of the attribute's binding is bound. -/
def drawReads (info : VkGraphicsPipelineCreateInfo) (bufferOffset vertexCount firstVertex : Nat) :
    List (Nat × Nat) :=
  (List.range vertexCount).flatMap fun k =>
    info.vertexAttributeDescriptions.flatMap fun a =>
      (info.vertexBindingDescriptions.filter fun b => b.binding == a.binding).map fun b =>
        (bufferOffset + (firstVertex + k) * b.stride + a.offset,
          bufferOffset + (firstVertex + k) * b.stride + a.offset + formatSize a.format)

/-! ## Indices into the scratch arrays of `win32_init_vulkan` -/

/-- The three fixed-size arrays `layerProperties[32]`, `devices[8]` and
`queueFamilyProperties[3]`. -/
inductive ScratchArray where
  | layerProperties
  | devices
  | queueFamilyProperties
  deriving DecidableEq, Repr

/-- The declared length of each scratch array. -/
def ScratchArray.length : ScratchArray → Nat
  | .layerProperties => 32
  | .devices => 8
  | .queueFamilyProperties => 3

/-- A read or a write of one element of a scratch array. -/
structure ArrayAccess where
  array : ScratchArray
  index : Nat
  isWrite : Bool
  deriving DecidableEq, Repr

/-- The writes of an enumeration call that is handed the array and the count
`count` and fills that many elements. -/
def enumerationWrites (array : ScratchArray) (count : Nat) : List ArrayAccess :=
  (List.range count).map fun i => ⟨array, i, true⟩

/-- The array accesses of the loop of lines 268-275, entered at index `i` with
`n` iterations left: each iteration reads `layerProperties[i]`. -/
def validation_layer_loop_accesses (layerProperties : List String) : Nat → Nat → List ArrayAccess
  | 0, _ => []
  | n + 1, i =>
    ⟨.layerProperties, i, false⟩ ::
      (if layerProperties.getD i "" == validationLayerName then []
       else validation_layer_loop_accesses layerProperties n (i + 1))

/-- The array accesses of lines 256-277: none if `assert(propertyCount <= 32)`
fires, else the fill of `layerProperties` and the reads of the loop. -/
def init_enabled_layers_accesses (p : Platform) : List ArrayAccess :=
  let propertyCount := p.instanceLayers.length
  if ¬ propertyCount ≤ 32 then []
  else
    enumerationWrites .layerProperties propertyCount ++
      validation_layer_loop_accesses p.instanceLayers propertyCount 0

/-- The array accesses of the loop of lines 397-409, entered at index `i` with
`n` iterations left: each iteration reads `devices[i]` for
`vkGetPhysicalDeviceProperties`, and once more when the device is discrete. -/
def discrete_gpu_loop_accesses (p : Platform) (devices : List Nat) : Nat → Nat → List ArrayAccess
  | 0, _ => []
  | n + 1, i =>
    ⟨.devices, i, false⟩ ::
      (if p.deviceType (devices.getD i 0) == VK_PHYSICAL_DEVICE_TYPE_DISCRETE_GPU then
        [⟨.devices, i, false⟩]
       else discrete_gpu_loop_accesses p devices n (i + 1))

/-- The array accesses of lines 386-410: none if `assert(deviceCount <= 8)`
fires, else the fill of `devices`, the read of `devices[0]` and the reads of
the loop. -/
def init_pick_physical_device_accesses (p : Platform) : List ArrayAccess :=
  let deviceCount := p.physicalDevices.length
  if ¬ deviceCount ≤ 8 then []
  else
    enumerationWrites .devices deviceCount ++ [⟨.devices, 0, false⟩] ++
      discrete_gpu_loop_accesses p p.physicalDevices deviceCount 0

/-- The array accesses of lines 412-428: none if
`assert(queueFamilyPropertyCount <= 3)` fires, else the fill of
`queueFamilyProperties` and the read of element `queueFamilyIndex`, which is `0`. -/
def init_pick_queue_family_accesses (p : Platform) (vk : VulkanContext) : List ArrayAccess :=
  let queueFamilyPropertyCount := (p.queueFamilies vk.physicalDevice).length
  if ¬ queueFamilyPropertyCount ≤ 3 then []
  else
    let queueFamilyIndex := 0
    enumerationWrites .queueFamilyProperties queueFamilyPropertyCount ++
      [⟨.queueFamilyProperties, queueFamilyIndex, false⟩]

/-! ## The frame fence -/

def VK_FENCE_CREATE_SIGNALED_BIT : Nat := 1

/-- What a fence can be waited for: `unsignaled` with no submission that will
signal it, `pending` when a submission naming it has been issued since it was
last unsignaled, `signaled`. -/
inductive FenceState where
  | unsignaled
  | pending
  | signaled
  deriving DecidableEq, Repr

/-- The state of `fence` after a call of the start-up: `vkCreateFence` leaves
it signaled or not as the flags say, a successful submission that names it
makes its signal pending. -/
def fenceAfterStartupCall (fence : Nat) (s : FenceState) : StartupCall → FenceState
  | .CreateFence _ flags _ created =>
    if created = fence then
      if flags &&& VK_FENCE_CREATE_SIGNALED_BIT ≠ 0 then .signaled else .unsignaled
    else s
  | .QueueSubmit _ _ submitFence result =>
    if submitFence = fence ∧ submitFence ≠ 0 ∧ result = VK_SUCCESS then .pending else s
  | _ => s

/-- The state of `fence` after the calls of the start-up. -/
def fenceAfterStartup (fence : Nat) (calls : List StartupCall) : FenceState :=
  calls.foldl (fenceAfterStartupCall fence) .unsignaled

/-- The state of `fence` after a call of the main loop, every call taken to
return: a wait for it returns with the fence signaled, a reset unsignals it, a
submission that names it makes its signal pending. -/
def fenceAfterCall (fence : Nat) (s : FenceState) : Event → FenceState
  | .WaitForFences _ fences _ _ => if fences.contains fence then .signaled else s
  | .ResetFences _ fences => if fences.contains fence then .unsignaled else s
  | .QueueSubmit _ _ submitFence => if submitFence = fence ∧ submitFence ≠ 0 then .pending else s
  | _ => s

/-- For every wait for `fence` among the calls, in order, the state the fence
is in when the wait is entered and the timeout of the wait; `s` is the state
before the calls. -/
def fenceWaits (fence : Nat) : FenceState → List Event → List (FenceState × Nat)
  | _, [] => []
  | s, e :: rest =>
    match e with
    | .WaitForFences _ fences _ timeout =>
      if fences.contains fence then
        (s, timeout) :: fenceWaits fence (fenceAfterCall fence s e) rest
      else fenceWaits fence (fenceAfterCall fence s e) rest
    | _ => fenceWaits fence (fenceAfterCall fence s e) rest

/-! ## Facing and coverage of the two triangles -/

/-- Position of vertex `k` of `vertices` as a point of the plane. -/
def vertexPoint (K : Type) [LinearOrderedField K] (k : Nat) : K × K :=
  (((vertexPosition k).1 : K), ((vertexPosition k).2 : K))

/-- The signed area of a triangle in framebuffer coordinates,
`-1/2 * sum (x_i * y_(i+1) - x_(i+1) * y_i)`. -/
def signedArea {K : Type} [LinearOrderedField K] (a b c : K × K) : K :=
  -(1 / 2) * ((a.1 * b.2 - b.1 * a.2) + (b.1 * c.2 - c.1 * b.2) + (c.1 * a.2 - a.1 * c.2))

/-- The signed area of triangle `t` of the triangle list drawn from
`vertices`: vertices `3 t`, `3 t + 1`, `3 t + 2`. -/
def triangleArea (K : Type) [LinearOrderedField K] (t : Nat) : K :=
  signedArea (vertexPoint K (3 * t)) (vertexPoint K (3 * t + 1)) (vertexPoint K (3 * t + 2))

def VK_FRONT_FACE_COUNTER_CLOCKWISE : Nat := 0
def VK_CULL_MODE_FRONT_BIT : Nat := 1

/-- Whether a triangle of the given signed area is front-facing: with a
clockwise front face the triangles of negative area, with a counter-clockwise
front face those of positive area. -/
def isFrontFacing {K : Type} [LinearOrderedField K] (frontFace : Nat) (area : K) : Bool :=
  if frontFace = VK_FRONT_FACE_CLOCKWISE then decide (area < 0) else decide (0 < area)

/-- Whether the rasterisation state discards a triangle of the given signed
area: front-facing triangles when the cull mode has the front bit, the others
when it has the back bit. -/
def isCulled {K : Type} [LinearOrderedField K] (state : VkPipelineRasterizationStateCreateInfo)
    (area : K) : Bool :=
  if isFrontFacing state.frontFace area then state.cullMode &&& VK_CULL_MODE_FRONT_BIT != 0
  else state.cullMode &&& VK_CULL_MODE_BACK_BIT != 0

/-- The edge function of the edge from `a` to `b` at the point `q`. -/
def edgeFunction {K : Type} [LinearOrderedField K] (a b q : K × K) : K :=
  (b.1 - a.1) * (q.2 - a.2) - (b.2 - a.2) * (q.1 - a.1)

/-- The point `q` lies in triangle `t`, edges included: the three edge
functions do not differ in sign. -/
def InTriangle (K : Type) [LinearOrderedField K] (t : Nat) (q : K × K) : Prop :=
  (0 ≤ edgeFunction (vertexPoint K (3 * t)) (vertexPoint K (3 * t + 1)) q ∧
    0 ≤ edgeFunction (vertexPoint K (3 * t + 1)) (vertexPoint K (3 * t + 2)) q ∧
    0 ≤ edgeFunction (vertexPoint K (3 * t + 2)) (vertexPoint K (3 * t)) q) ∨
  (edgeFunction (vertexPoint K (3 * t)) (vertexPoint K (3 * t + 1)) q ≤ 0 ∧
    edgeFunction (vertexPoint K (3 * t + 1)) (vertexPoint K (3 * t + 2)) q ≤ 0 ∧
    edgeFunction (vertexPoint K (3 * t + 2)) (vertexPoint K (3 * t)) q ≤ 0)

/-- The point `q` lies in the interior of triangle `t`: the three edge
functions are all positive or all negative. -/
def InTriangleInterior (K : Type) [LinearOrderedField K] (t : Nat) (q : K × K) : Prop :=
  (0 < edgeFunction (vertexPoint K (3 * t)) (vertexPoint K (3 * t + 1)) q ∧
    0 < edgeFunction (vertexPoint K (3 * t + 1)) (vertexPoint K (3 * t + 2)) q ∧
    0 < edgeFunction (vertexPoint K (3 * t + 2)) (vertexPoint K (3 * t)) q) ∨
  (edgeFunction (vertexPoint K (3 * t)) (vertexPoint K (3 * t + 1)) q < 0 ∧
    edgeFunction (vertexPoint K (3 * t + 1)) (vertexPoint K (3 * t + 2)) q < 0 ∧
    edgeFunction (vertexPoint K (3 * t + 2)) (vertexPoint K (3 * t)) q < 0)

/-! ## Lemmas on bit tests -/

theorem and_two_pow_bne_zero (x i : Nat) : ((x &&& 2 ^ i) != 0) = x.testBit i := by
  cases h : x.testBit i with
  | true =>
    have h1 : (x &&& 2 ^ i).testBit i = true := by
      simp [Nat.testBit_and, h, Nat.testBit_two_pow_self]
    have h2 : x &&& 2 ^ i ≠ 0 := by
      intro h0
      rw [h0] at h1
      simp at h1
    simpa using h2
  | false =>
    have h0 : x &&& 2 ^ i = 0 := by
      apply Nat.eq_of_testBit_eq
      intro j
      by_cases hij : i = j
      · subst hij
        simp [Nat.testBit_and, h]
      · simp [Nat.testBit_and, Nat.testBit_two_pow, hij]
    simp [h0]

theorem shift_bit_test (x i : Nat) (hi : i < 32) :
    ((x &&& ((1 <<< i) % 2 ^ 32)) != 0) = x.testBit i := by
  have hlt : 2 ^ i < 2 ^ 32 := Nat.pow_lt_pow_right (by decide) hi
  rw [Nat.one_shiftLeft, Nat.mod_eq_of_lt hlt]
  exact and_two_pow_bne_zero x i

theorem and_eq_iff_superset (p f : Nat) :
    ((p &&& f) == f) = true ↔ ∀ b, f.testBit b = true → p.testBit b = true := by
  constructor
  · intro h b hb
    have h1 : p &&& f = f := by simpa using h
    have h2 : (p &&& f).testBit b = true := by rw [h1]; exact hb
    simp [Nat.testBit_and] at h2
    exact h2.1
  · intro h
    have h1 : p &&& f = f := by
      apply Nat.eq_of_testBit_eq
      intro b
      rw [Nat.testBit_and]
      cases hb : f.testBit b with
      | true => simp [h b hb]
      | false => simp
    simpa using h1

/-! ## Memory type selection -/

theorem loop_test_iff (memProperties : VkPhysicalDeviceMemoryProperties)
    (typeFilter memPropFlags i : Nat) (hi : i < 32) :
    (((typeFilter &&& ((1 <<< i) % 2 ^ 32)) != 0) &&
      ((propertyFlagsAt memProperties i &&& memPropFlags) == memPropFlags)) = true ↔
    MemoryTypeMatches memProperties typeFilter memPropFlags i := by
  rw [shift_bit_test typeFilter i hi, Bool.and_eq_true, and_eq_iff_superset]
  rfl

theorem vk_find_memory_type_loop_spec (memProperties : VkPhysicalDeviceMemoryProperties)
    (typeFilter memPropFlags : Nat) :
    ∀ n i, i + n ≤ 32 →
      (vk_find_memory_type_loop memProperties typeFilter memPropFlags n i = UINT32_MAX ∧
        ∀ j, i ≤ j → j < i + n → ¬ MemoryTypeMatches memProperties typeFilter memPropFlags j) ∨
      (i ≤ vk_find_memory_type_loop memProperties typeFilter memPropFlags n i ∧
        vk_find_memory_type_loop memProperties typeFilter memPropFlags n i < i + n ∧
        MemoryTypeMatches memProperties typeFilter memPropFlags
          (vk_find_memory_type_loop memProperties typeFilter memPropFlags n i) ∧
        ∀ j, i ≤ j →
          j < vk_find_memory_type_loop memProperties typeFilter memPropFlags n i →
          ¬ MemoryTypeMatches memProperties typeFilter memPropFlags j) := by
  intro n
  induction n with
  | zero =>
    intro i _
    left
    refine ⟨rfl, ?_⟩
    intro j h1 h2
    omega
  | succ n ih =>
    intro i hin
    have hi : i < 32 := by omega
    have htest := loop_test_iff memProperties typeFilter memPropFlags i hi
    by_cases hm : MemoryTypeMatches memProperties typeFilter memPropFlags i
    · right
      have hval : vk_find_memory_type_loop memProperties typeFilter memPropFlags (n + 1) i = i := by
        simp only [vk_find_memory_type_loop]
        rw [if_pos (htest.mpr hm)]
      rw [hval]
      refine ⟨Nat.le_refl i, by omega, hm, ?_⟩
      intro j h1 h2
      omega
    · have hval : vk_find_memory_type_loop memProperties typeFilter memPropFlags (n + 1) i =
          vk_find_memory_type_loop memProperties typeFilter memPropFlags n (i + 1) := by
        simp only [vk_find_memory_type_loop]
        rw [if_neg (fun h => hm (htest.mp h))]
      rw [hval]
      rcases ih (i + 1) (by omega) with ⟨h1, h2⟩ | ⟨h1, h2, h3, h4⟩
      · left
        refine ⟨h1, ?_⟩
        intro j hj1 hj2
        by_cases hji : j = i
        · rw [hji]; exact hm
        · exact h2 j (by omega) (by omega)
      · right
        refine ⟨by omega, by omega, h3, ?_⟩
        intro j hj1 hj2
        by_cases hji : j = i
        · rw [hji]; exact hm
        · exact h4 j (by omega) hj2

/-- C1: whenever `vk_find_memory_type` returns an index `i` for a table of at
most 32 memory types, `i` is below the memory type count, bit `i` of the type
filter is set, the property flags of type `i` contain every requested flag, and
no smaller index passes both tests. -/
theorem vk_find_memory_type_returns_smallest_match
    (memProperties : VkPhysicalDeviceMemoryProperties) (typeFilter memPropFlags i : Nat)
    (hcount : memProperties.memoryTypeCount ≤ 32)
    (hret : vk_find_memory_type memProperties typeFilter memPropFlags = .ok i) :
    i < memProperties.memoryTypeCount ∧
    typeFilter.testBit i = true ∧
    (∀ b, memPropFlags.testBit b = true →
      (propertyFlagsAt memProperties i).testBit b = true) ∧
    ∀ j, j < i → ¬ MemoryTypeMatches memProperties typeFilter memPropFlags j := by
  unfold vk_find_memory_type at hret
  simp only at hret
  split at hret
  · rename_i hne
    have hne2 : vk_find_memory_type_loop memProperties typeFilter memPropFlags
        memProperties.memoryTypeCount 0 ≠ UINT32_MAX := by simpa using hne
    injection hret with hret
    rcases vk_find_memory_type_loop_spec memProperties typeFilter memPropFlags
        memProperties.memoryTypeCount 0 (by omega) with ⟨h1, _⟩ | ⟨_, h2, h3, h4⟩
    · exact absurd h1 hne2
    · rw [hret] at h2 h3 h4
      exact ⟨by omega, h3.1, h3.2, fun j hj => h4 j (Nat.zero_le j) hj⟩
  · cases hret

/-- C1, a concrete instance: three memory types, filter `0b110`, request `0b010`. -/
theorem vk_find_memory_type_returns_smallest_match_witness :
    1 < 3 ∧ (6 : Nat).testBit 1 = true ∧
    (∀ b, (2 : Nat).testBit b = true →
      (propertyFlagsAt ⟨3, [⟨1, 0⟩, ⟨6, 0⟩, ⟨7, 1⟩]⟩ 1).testBit b = true) ∧
    ∀ j, j < 1 → ¬ MemoryTypeMatches ⟨3, [⟨1, 0⟩, ⟨6, 0⟩, ⟨7, 1⟩]⟩ 6 2 j :=
  vk_find_memory_type_returns_smallest_match ⟨3, [⟨1, 0⟩, ⟨6, 0⟩, ⟨7, 1⟩]⟩ 6 2 1
    (by decide) rfl

/-- C2: for a table of at most 32 memory types the assertion of
`vk_find_memory_type` fires exactly when no index below the memory type count
passes both tests; a returned value is never `UINT32_MAX` and is always a
matching index below the count. -/
theorem vk_find_memory_type_fails_iff_no_match
    (memProperties : VkPhysicalDeviceMemoryProperties) (typeFilter memPropFlags : Nat)
    (hcount : memProperties.memoryTypeCount ≤ 32) :
    (vk_find_memory_type memProperties typeFilter memPropFlags = .error .memoryTypeNotFound ↔
      ¬ ∃ j, j < memProperties.memoryTypeCount ∧
        MemoryTypeMatches memProperties typeFilter memPropFlags j) ∧
    ((∃ i, vk_find_memory_type memProperties typeFilter memPropFlags = .ok i) ↔
      ∃ j, j < memProperties.memoryTypeCount ∧
        MemoryTypeMatches memProperties typeFilter memPropFlags j) ∧
    (∀ i, vk_find_memory_type memProperties typeFilter memPropFlags = .ok i →
      i ≠ UINT32_MAX ∧ i < memProperties.memoryTypeCount ∧
        MemoryTypeMatches memProperties typeFilter memPropFlags i) := by
  have hspec := vk_find_memory_type_loop_spec memProperties typeFilter memPropFlags
    memProperties.memoryTypeCount 0 (by omega)
  rcases hspec with ⟨h1, h2⟩ | ⟨_, h2, h3, _⟩
  · have herr : vk_find_memory_type memProperties typeFilter memPropFlags =
        .error .memoryTypeNotFound := by
      simp [vk_find_memory_type, h1]
    have hnone : ¬ ∃ j, j < memProperties.memoryTypeCount ∧
        MemoryTypeMatches memProperties typeFilter memPropFlags j := by
      rintro ⟨j, hj, hm⟩
      exact h2 j (Nat.zero_le j) (by omega) hm
    rw [herr]
    refine ⟨⟨fun _ => hnone, fun _ => rfl⟩, ⟨?_, fun h => absurd h hnone⟩, ?_⟩
    · rintro ⟨i, hi⟩
      cases hi
    · intro i hi
      cases hi
  · have hlt : vk_find_memory_type_loop memProperties typeFilter memPropFlags
        memProperties.memoryTypeCount 0 < memProperties.memoryTypeCount := by omega
    have hne : vk_find_memory_type_loop memProperties typeFilter memPropFlags
        memProperties.memoryTypeCount 0 ≠ UINT32_MAX := by
      unfold UINT32_MAX
      omega
    have hok : vk_find_memory_type memProperties typeFilter memPropFlags =
        .ok (vk_find_memory_type_loop memProperties typeFilter memPropFlags
          memProperties.memoryTypeCount 0) := by
      simp [vk_find_memory_type, hne]
    have hex : ∃ j, j < memProperties.memoryTypeCount ∧
        MemoryTypeMatches memProperties typeFilter memPropFlags j := ⟨_, hlt, h3⟩
    rw [hok]
    refine ⟨⟨fun h => (by cases h), fun h => absurd hex h⟩, ⟨fun _ => hex, fun _ => ⟨_, rfl⟩⟩, ?_⟩
    intro i hi
    injection hi with hi
    rw [← hi]
    exact ⟨hne, hlt, h3⟩

/-- C2, a concrete instance: type 0 lacks the requested flag and type 1 is not
in the filter, so the assertion fires and no index matches. -/
theorem vk_find_memory_type_fails_iff_no_match_witness :
    (2 ≤ 32) ∧
    vk_find_memory_type ⟨2, [⟨1, 0⟩, ⟨6, 0⟩]⟩ 1 2 = .error .memoryTypeNotFound ∧
    ¬ ∃ j, j < 2 ∧ MemoryTypeMatches ⟨2, [⟨1, 0⟩, ⟨6, 0⟩]⟩ 1 2 j :=
  ⟨by decide, rfl,
    (vk_find_memory_type_fails_iff_no_match ⟨2, [⟨1, 0⟩, ⟨6, 0⟩]⟩ 1 2 (by decide)).1.mp rfl⟩

/-! ## Context initialisation -/

theorem bind_eq_ok {α β : Type} (x : Except AssertFailure α)
    (f : α → Except AssertFailure β) (b : β) :
    (x >>= f) = .ok b ↔ ∃ a, x = .ok a ∧ f a = .ok b := by
  cases x with
  | error e => simp [bind, Except.bind]
  | ok a => simp [bind, Except.bind]

theorem init_create_window_ok {p : Platform} {vk vk' : VulkanContext}
    (h : init_create_window p vk = .ok vk') :
    vk' = { vk with window := p.createWindowEx } := by
  simp only [init_create_window] at h
  split_ifs at h
  injection h with h
  exact h.symm

theorem init_enabled_layers_ok {p : Platform} {vk vk' : VulkanContext}
    (h : init_enabled_layers p vk = .ok vk') : vk' = vk := by
  simp only [init_enabled_layers] at h
  split_ifs at h
  injection h with h
  exact h.symm

theorem init_create_instance_and_surface_ok {p : Platform} {vk vk' : VulkanContext}
    (h : init_create_instance_and_surface p vk = .ok vk') :
    vk' = { vk with vkInstance := p.vkCreateInstance.2,
                    surface := p.vkCreateWin32SurfaceKHR.2 } := by
  simp only [init_create_instance_and_surface] at h
  split_ifs at h
  injection h with h
  exact h.symm

theorem init_pick_physical_device_ok {p : Platform} {vk vk' : VulkanContext}
    (h : init_pick_physical_device p vk = .ok vk') :
    p.physicalDevices.length ≤ 8 ∧
    discrete_gpu_loop p p.physicalDevices (p.physicalDevices.getD 0 0)
      p.physicalDevices.length 0 ≠ 0 ∧
    vk' = { vk with physicalDevice :=
      (discrete_gpu_loop p p.physicalDevices (p.physicalDevices.getD 0 0)
        p.physicalDevices.length 0) } := by
  simp only [init_pick_physical_device] at h
  split_ifs at h with h1 h2
  injection h with h
  refine ⟨by simpa using h1, by simpa using h2, h.symm⟩

theorem init_pick_queue_family_ok {p : Platform} {vk vk' : VulkanContext}
    (h : init_pick_queue_family p vk = .ok vk') :
    (p.queueFamilies vk.physicalDevice).length ≤ 3 ∧
    SupportsGraphicsAndPresent p vk.physicalDevice vk.surface 0 ∧
    vk' = { vk with graphicsAndPresentQueueFamily := 0 } := by
  simp only [init_pick_queue_family] at h
  split_ifs at h with h1 h2 h3
  injection h with h
  refine ⟨by simpa using h1, ⟨by simpa using h2, by simpa using h3⟩, h.symm⟩

theorem init_create_logical_device_ok {p : Platform} {vk vk' : VulkanContext}
    (h : init_create_logical_device p vk = .ok vk') :
    vk' = { vk with device := p.vkCreateDevice.2,
                    graphicsAndPresentQueue := p.vkGetDeviceQueue } := by
  simp only [init_create_logical_device] at h
  split_ifs at h
  injection h with h
  exact h.symm

theorem init_create_swapchain_ok {p : Platform} {vk vk' : VulkanContext}
    (h : init_create_swapchain p vk = .ok vk') :
    ∃ sc, vk' = { vk with swapchainImageFormat := VK_FORMAT_B8G8R8A8_SRGB,
                          swapchainExtents := p.surfaceCapabilities.currentExtent,
                          swapchain := sc } := by
  simp only [init_create_swapchain] at h
  split_ifs at h
  injection h with h
  exact ⟨_, h.symm⟩

theorem init_swapchain_images_ok {p : Platform} {vk vk' : VulkanContext}
    (hviews : vk.swapchainImageViews = [0, 0])
    (h : init_swapchain_images p vk = .ok vk') :
    p.swapchainImages.length = 2 ∧
    p.swapchainImages.getD 0 0 ≠ 0 ∧ p.swapchainImages.getD 1 0 ≠ 0 ∧
    p.vkCreateImageView vk.device
      (imageViewCreateInfo (p.swapchainImages.getD 0 0) vk.swapchainImageFormat) ≠ 0 ∧
    p.vkCreateImageView vk.device
      (imageViewCreateInfo (p.swapchainImages.getD 1 0) vk.swapchainImageFormat) ≠ 0 ∧
    vk' = { vk with
      swapchainImages := [p.swapchainImages.getD 0 0, p.swapchainImages.getD 1 0],
      swapchainImageViews :=
        [p.vkCreateImageView vk.device
           (imageViewCreateInfo (p.swapchainImages.getD 0 0) vk.swapchainImageFormat),
         p.vkCreateImageView vk.device
           (imageViewCreateInfo (p.swapchainImages.getD 1 0) vk.swapchainImageFormat)] } := by
  simp only [init_swapchain_images] at h
  split_ifs at h with hlen
  have hlen2 : p.swapchainImages.length = 2 := by simpa using hlen
  rw [hlen2] at h
  simp only [image_view_loop, vk_create_image_view, hviews, List.getD_cons_zero,
    List.getD_cons_succ, List.set_cons_zero, List.set_cons_succ] at h
  generalize p.swapchainImages.getD 0 0 = a0 at h ⊢
  generalize p.swapchainImages.getD 1 0 = a1 at h ⊢
  generalize p.vkCreateImageView vk.device (imageViewCreateInfo a0 vk.swapchainImageFormat)
    = v0 at h ⊢
  generalize p.vkCreateImageView vk.device (imageViewCreateInfo a1 vk.swapchainImageFormat)
    = v1 at h ⊢
  by_cases c0 : a0 = 0
  · simp [c0] at h
  by_cases c1 : v0 = 0
  · simp [c0, c1] at h
  by_cases c2 : a1 = 0
  · simp [c0, c1, c2] at h
  by_cases c3 : v1 = 0
  · simp [c0, c1, c2, c3] at h
  simp [c0, c1, c2, c3] at h
  exact ⟨hlen2, c0, c2, c1, c3, h.symm⟩

/-- What a successful `win32_init_vulkan` has read from the platform and what
it returns. -/
theorem win32_init_vulkan_ok {p : Platform} {vk' : VulkanContext}
    (h : win32_init_vulkan p = .ok vk') :
    p.physicalDevices.length ≤ 8 ∧
    vk'.physicalDevice ≠ 0 ∧
    vk'.physicalDevice = discrete_gpu_loop p p.physicalDevices (p.physicalDevices.getD 0 0)
      p.physicalDevices.length 0 ∧
    (p.queueFamilies vk'.physicalDevice).length ≤ 3 ∧
    SupportsGraphicsAndPresent p vk'.physicalDevice vk'.surface 0 ∧
    vk'.graphicsAndPresentQueueFamily = 0 ∧
    p.swapchainImages.length = 2 ∧
    vk'.swapchainImageFormat = VK_FORMAT_B8G8R8A8_SRGB ∧
    vk'.swapchainExtents = p.surfaceCapabilities.currentExtent ∧
    vk'.swapchainImages = [p.swapchainImages.getD 0 0, p.swapchainImages.getD 1 0] ∧
    p.swapchainImages.getD 0 0 ≠ 0 ∧ p.swapchainImages.getD 1 0 ≠ 0 ∧
    vk'.swapchainImageViews =
      [p.vkCreateImageView vk'.device
         (imageViewCreateInfo (p.swapchainImages.getD 0 0) vk'.swapchainImageFormat),
       p.vkCreateImageView vk'.device
         (imageViewCreateInfo (p.swapchainImages.getD 1 0) vk'.swapchainImageFormat)] ∧
    p.vkCreateImageView vk'.device
      (imageViewCreateInfo (p.swapchainImages.getD 0 0) vk'.swapchainImageFormat) ≠ 0 ∧
    p.vkCreateImageView vk'.device
      (imageViewCreateInfo (p.swapchainImages.getD 1 0) vk'.swapchainImageFormat) ≠ 0 := by
  unfold win32_init_vulkan at h
  obtain ⟨vk1, h1, h⟩ := (bind_eq_ok _ _ _).mp h
  obtain ⟨vk2, h2, h⟩ := (bind_eq_ok _ _ _).mp h
  obtain ⟨vk3, h3, h⟩ := (bind_eq_ok _ _ _).mp h
  obtain ⟨vk4, h4, h⟩ := (bind_eq_ok _ _ _).mp h
  obtain ⟨vk5, h5, h⟩ := (bind_eq_ok _ _ _).mp h
  obtain ⟨vk6, h6, h⟩ := (bind_eq_ok _ _ _).mp h
  obtain ⟨vk7, h7, h8⟩ := (bind_eq_ok _ _ _).mp h
  have e1 := init_create_window_ok h1
  have e2 := init_enabled_layers_ok h2
  have e3 := init_create_instance_and_surface_ok h3
  obtain ⟨d1, d2, e4⟩ := init_pick_physical_device_ok h4
  obtain ⟨q1, q2, e5⟩ := init_pick_queue_family_ok h5
  have e6 := init_create_logical_device_ok h6
  obtain ⟨sc, e7⟩ := init_create_swapchain_ok h7
  subst e1 e2 e3 e4 e5 e6 e7
  obtain ⟨i1, i2, i3, i4, i5, e8⟩ := init_swapchain_images_ok rfl h8
  subst e8
  exact ⟨d1, d2, rfl, q1, q2, rfl, i1, rfl, rfl, rfl, i2, i3, rfl, i4, i5⟩

theorem init_error_of_not_ok {p : Platform}
    (h : ∀ vk', win32_init_vulkan p ≠ .ok vk') : ∃ e, win32_init_vulkan p = .error e := by
  cases hr : win32_init_vulkan p with
  | error e => exact ⟨e, rfl⟩
  | ok vk' => exact absurd hr (h vk')

theorem discrete_gpu_loop_spec (p : Platform) (devices : List Nat) (fallback : Nat) :
    ∀ n i, i + n = devices.length →
      discrete_gpu_loop p devices fallback n i =
        ((devices.drop i).find?
          (fun d => p.deviceType d == VK_PHYSICAL_DEVICE_TYPE_DISCRETE_GPU)).getD fallback := by
  intro n
  induction n with
  | zero =>
    intro i hi
    have hnil : devices.drop i = [] := List.drop_eq_nil_of_le (by omega)
    rw [hnil]
    rfl
  | succ n ih =>
    intro i hi
    have hlt : i < devices.length := by omega
    have hget : devices.getD i 0 = devices[i] := by
      rw [List.getD_eq_getElem?_getD, List.getElem?_eq_getElem hlt]
      rfl
    rw [List.drop_eq_getElem_cons hlt, List.find?_cons]
    simp only [discrete_gpu_loop]
    rw [hget]
    by_cases hd : (p.deviceType devices[i] == VK_PHYSICAL_DEVICE_TYPE_DISCRETE_GPU) = true
    · rw [if_pos hd, hd]
      rfl
    · rw [if_neg hd]
      have hf : (p.deviceType devices[i] == VK_PHYSICAL_DEVICE_TYPE_DISCRETE_GPU) = false := by
        simpa using hd
      rw [hf]
      exact ih (i + 1) (by omega)

theorem preferDiscreteGpu_cons (deviceType : Nat → Nat) (d : Nat) (ds : List Nat) :
    preferDiscreteGpu deviceType (d :: ds) =
      some (((d :: ds).find?
        (fun x => deviceType x == VK_PHYSICAL_DEVICE_TYPE_DISCRETE_GPU)).getD d) := by
  unfold preferDiscreteGpu
  cases hf : (d :: ds).find? (fun x => deviceType x == VK_PHYSICAL_DEVICE_TYPE_DISCRETE_GPU) with
  | none => rfl
  | some x => rfl

theorem preferDiscreteGpu_mem {deviceType : Nat → Nat} {devices : List Nat} {d : Nat}
    (h : preferDiscreteGpu deviceType devices = some d) : d ∈ devices := by
  unfold preferDiscreteGpu at h
  cases hf : devices.find? (fun x => deviceType x == VK_PHYSICAL_DEVICE_TYPE_DISCRETE_GPU) with
  | none =>
    rw [hf] at h
    exact List.mem_of_mem_head? h
  | some x =>
    rw [hf] at h
    injection h with h
    rw [← h]
    exact List.mem_of_find?_eq_some hf

theorem discrete_gpu_loop_eq_prefer (p : Platform) :
    p.physicalDevices ≠ [] →
      preferDiscreteGpu p.deviceType p.physicalDevices =
        some (discrete_gpu_loop p p.physicalDevices (p.physicalDevices.getD 0 0)
          p.physicalDevices.length 0) := by
  intro hne
  rw [discrete_gpu_loop_spec p p.physicalDevices _ p.physicalDevices.length 0 (by omega)]
  cases hd : p.physicalDevices with
  | nil => exact absurd hd hne
  | cons d ds =>
    rw [preferDiscreteGpu_cons]
    rfl

/-- C6: for a non-empty list of at most 8 enumerated (non-null) physical
devices the device stage of `win32_init_vulkan` stores the first device whose
type is discrete GPU, or the first enumerated device when none is discrete; a
successful initialisation returns that device; for an empty device list the
stage stops at `assert(vk.physicalDevice)` and initialisation fails. -/
theorem init_selects_discrete_gpu_or_first (p : Platform) :
    (∀ vk, p.physicalDevices ≠ [] → p.physicalDevices.length ≤ 8 →
      (∀ d ∈ p.physicalDevices, d ≠ 0) →
      ∃ d, preferDiscreteGpu p.deviceType p.physicalDevices = some d ∧
        init_pick_physical_device p vk = .ok { vk with physicalDevice := d }) ∧
    (∀ vk', win32_init_vulkan p = .ok vk' →
      preferDiscreteGpu p.deviceType p.physicalDevices = some vk'.physicalDevice) ∧
    (p.physicalDevices = [] →
      (∀ vk, init_pick_physical_device p vk = .error .noPhysicalDevice) ∧
      ∃ e, win32_init_vulkan p = .error e) := by
  have hok : ∀ vk', win32_init_vulkan p = .ok vk' →
      preferDiscreteGpu p.deviceType p.physicalDevices = some vk'.physicalDevice := by
    intro vk' h
    obtain ⟨_, hnz, hdev, _⟩ := win32_init_vulkan_ok h
    have hne : p.physicalDevices ≠ [] := by
      intro hnil
      apply hnz
      rw [hdev, hnil]
      rfl
    rw [hdev]
    exact discrete_gpu_loop_eq_prefer p hne
  refine ⟨?_, hok, ?_⟩
  · intro vk hne hle hvalid
    have hpref := discrete_gpu_loop_eq_prefer p hne
    refine ⟨_, hpref, ?_⟩
    have hnz := hvalid _ (preferDiscreteGpu_mem hpref)
    simp only [init_pick_physical_device]
    rw [if_neg (by simpa using hle), if_neg (by simpa using hnz)]
  · intro hnil
    refine ⟨?_, ?_⟩
    · intro vk
      simp only [init_pick_physical_device]
      rw [hnil]
      rfl
    · apply init_error_of_not_ok
      intro vk' h
      have := hok vk' h
      rw [hnil] at this
      cases this

/-- C6, concrete instances: on `goodPlatform` the integrated GPU `10` comes
first and the discrete GPU `11` is chosen; on `noDevicePlatform` initialisation
fails. -/
theorem init_selects_discrete_gpu_or_first_witness :
    preferDiscreteGpu goodPlatform.deviceType goodPlatform.physicalDevices = some 11 ∧
    (∃ vk', win32_init_vulkan goodPlatform = .ok vk' ∧ vk'.physicalDevice = 11) ∧
    (∃ d, preferDiscreteGpu goodPlatform.deviceType goodPlatform.physicalDevices = some d ∧
      init_pick_physical_device goodPlatform VulkanContext.zero =
        .ok { VulkanContext.zero with physicalDevice := d }) ∧
    (∃ e, win32_init_vulkan noDevicePlatform = .error e) :=
  ⟨rfl,
    ⟨_, rfl, Option.some.inj
      (((init_selects_discrete_gpu_or_first goodPlatform).2.1 _ rfl).symm.trans rfl)⟩,
    (init_selects_discrete_gpu_or_first goodPlatform).1 VulkanContext.zero
      (by decide) (by decide) (by decide),
    ((init_selects_discrete_gpu_or_first noDevicePlatform).2.2 rfl).2⟩

/-- C7 as stated fails: on `secondFamilyPlatform` queue family `1` of the chosen
device supports graphics and presentation, family `0` supports neither, and
`win32_init_vulkan` stops at the graphics assertion on family `0`. -/
theorem init_rejects_later_queue_family :
    (1 < (secondFamilyPlatform.queueFamilies 11).length ∧
      SupportsGraphicsAndPresent secondFamilyPlatform 11 3 1) ∧
    preferDiscreteGpu secondFamilyPlatform.deviceType secondFamilyPlatform.physicalDevices
      = some 11 ∧
    secondFamilyPlatform.vkCreateWin32SurfaceKHR.2 = 3 ∧
    win32_init_vulkan secondFamilyPlatform = .error .noGraphicsSupport :=
  ⟨⟨by decide, by decide, by decide⟩, rfl, rfl, rfl⟩

/-- C7 amended: the queue family stage looks at family `0` only.  It succeeds
exactly when the device reports at most 3 families and family `0` supports
both graphics and presentation to the surface, and then stores index `0`; a
successful initialisation therefore returns index `0`, which supports both. -/
theorem init_checks_queue_family_zero_only (p : Platform) :
    (∀ vk, (∃ vk', init_pick_queue_family p vk = .ok vk') ↔
      ((p.queueFamilies vk.physicalDevice).length ≤ 3 ∧
        SupportsGraphicsAndPresent p vk.physicalDevice vk.surface 0)) ∧
    (∀ vk vk', init_pick_queue_family p vk = .ok vk' →
      vk' = { vk with graphicsAndPresentQueueFamily := 0 }) ∧
    (∀ vk', win32_init_vulkan p = .ok vk' →
      vk'.graphicsAndPresentQueueFamily = 0 ∧
      SupportsGraphicsAndPresent p vk'.physicalDevice vk'.surface 0) := by
  refine ⟨?_, ?_, ?_⟩
  · intro vk
    constructor
    · rintro ⟨vk', h⟩
      obtain ⟨h1, h2, _⟩ := init_pick_queue_family_ok h
      exact ⟨h1, h2⟩
    · rintro ⟨h1, h2, h3⟩
      refine ⟨{ vk with graphicsAndPresentQueueFamily := 0 }, ?_⟩
      simp only [init_pick_queue_family]
      rw [if_neg (by simpa using h1), if_neg (by simpa using h2),
        if_neg (by simpa using h3)]
  · intro vk vk' h
    exact (init_pick_queue_family_ok h).2.2
  · intro vk' h
    obtain ⟨_, _, _, _, hq, hz, _⟩ := win32_init_vulkan_ok h
    exact ⟨hz, hq⟩

/-- C7 amended, a concrete instance: `goodPlatform` has one family with both
capabilities; the stage succeeds and initialisation returns family `0`. -/
theorem init_checks_queue_family_zero_only_witness :
    (∃ vk', init_pick_queue_family goodPlatform VulkanContext.zero = .ok vk') ∧
    ∃ vk', win32_init_vulkan goodPlatform = .ok vk' ∧
      vk'.graphicsAndPresentQueueFamily = 0 ∧
      SupportsGraphicsAndPresent goodPlatform vk'.physicalDevice vk'.surface 0 :=
  ⟨((init_checks_queue_family_zero_only goodPlatform).1 VulkanContext.zero).mpr
      ⟨by decide, by decide, by decide⟩,
    ⟨_, rfl, (init_checks_queue_family_zero_only goodPlatform).2.2 _ rfl⟩⟩

/-- The create info that a successful `win32_init_vulkan` has handed to
`vkCreateSwapchainKHR`, and what the call answered. -/
theorem win32_init_vulkan_swapchain_request {p : Platform} {vk' : VulkanContext}
    (h : win32_init_vulkan p = .ok vk') :
    ∃ info : VkSwapchainCreateInfoKHR,
      info.minImageCount = 2 ∧ info.surface = vk'.surface ∧
      info.imageFormat = vk'.swapchainImageFormat ∧
      info.imageExtent = vk'.swapchainExtents ∧ info.oldSwapchain = 0 ∧
      (p.vkCreateSwapchainKHR vk'.device info).1 = VK_SUCCESS ∧
      vk'.swapchain = (p.vkCreateSwapchainKHR vk'.device info).2 := by
  unfold win32_init_vulkan at h
  obtain ⟨vk1, h1, h⟩ := (bind_eq_ok _ _ _).mp h
  obtain ⟨vk2, h2, h⟩ := (bind_eq_ok _ _ _).mp h
  obtain ⟨vk3, h3, h⟩ := (bind_eq_ok _ _ _).mp h
  obtain ⟨vk4, h4, h⟩ := (bind_eq_ok _ _ _).mp h
  obtain ⟨vk5, h5, h⟩ := (bind_eq_ok _ _ _).mp h
  obtain ⟨vk6, h6, h⟩ := (bind_eq_ok _ _ _).mp h
  obtain ⟨vk7, h7, h8⟩ := (bind_eq_ok _ _ _).mp h
  have e6 := init_create_logical_device_ok h6
  obtain ⟨sc, e7⟩ := init_create_swapchain_ok h7
  obtain ⟨-, -, -, -, -, e8⟩ := @init_swapchain_images_ok p vk7 vk' (by
    subst e7 e6
    have e1 := init_create_window_ok h1
    have e2 := init_enabled_layers_ok h2
    have e3 := init_create_instance_and_surface_ok h3
    obtain ⟨-, -, e4⟩ := init_pick_physical_device_ok h4
    obtain ⟨-, -, e5⟩ := init_pick_queue_family_ok h5
    subst e1 e2 e3 e4 e5
    rfl) h8
  simp only [init_create_swapchain] at h7
  split_ifs at h7 with a
  injection h7 with h7
  subst e8
  subst h7
  exact ⟨_, rfl, rfl, rfl, rfl, rfl, by simpa using a, rfl⟩

/-- C8: a `win32_init_vulkan` that returns has handed `vkCreateSwapchainKHR` a
create info with a minimum image count of 2 (for the surface, the format and
the extent of the returned context), that call has succeeded and its handle is
the swapchain of the context; on a platform that refuses every create info with
a minimum image count of 2, initialisation fails.  A successful
`win32_init_vulkan` means the platform then reported exactly 2 swapchain
images, and the returned context holds those 2 non-null images and 2 non-null
views, view `i` being the one `vkCreateImageView` wrote for image `i` with the
swapchain format; for every other reported image count initialisation fails. -/
theorem init_requires_two_swapchain_images (p : Platform) :
    (∀ vk caps, (swapchainCreateInfo vk caps).minImageCount = 2) ∧
    (∀ vk', win32_init_vulkan p = .ok vk' →
      (∃ info : VkSwapchainCreateInfoKHR,
        info.minImageCount = 2 ∧ info.surface = vk'.surface ∧
        info.imageFormat = vk'.swapchainImageFormat ∧
        info.imageExtent = vk'.swapchainExtents ∧ info.oldSwapchain = 0 ∧
        (p.vkCreateSwapchainKHR vk'.device info).1 = VK_SUCCESS ∧
        vk'.swapchain = (p.vkCreateSwapchainKHR vk'.device info).2) ∧
      p.swapchainImages.length = 2 ∧
      vk'.swapchainImages = p.swapchainImages ∧
      vk'.swapchainImages.length = 2 ∧
      vk'.swapchainImageViews.length = 2 ∧
      ∀ i, i < 2 →
        vk'.swapchainImages.getD i 0 ≠ 0 ∧
        vk'.swapchainImageViews.getD i 0 ≠ 0 ∧
        vk'.swapchainImageViews.getD i 0 =
          p.vkCreateImageView vk'.device
            (imageViewCreateInfo (vk'.swapchainImages.getD i 0) vk'.swapchainImageFormat) ∧
        (imageViewCreateInfo (vk'.swapchainImages.getD i 0) vk'.swapchainImageFormat).format =
          VK_FORMAT_B8G8R8A8_SRGB) ∧
    ((∀ device info, info.minImageCount = 2 →
        (p.vkCreateSwapchainKHR device info).1 ≠ VK_SUCCESS) →
      ∃ e, win32_init_vulkan p = .error e) ∧
    (p.swapchainImages.length ≠ 2 → ∃ e, win32_init_vulkan p = .error e) := by
  have hok : ∀ vk', win32_init_vulkan p = .ok vk' → p.swapchainImages.length = 2 :=
    fun vk' h => (win32_init_vulkan_ok h).2.2.2.2.2.2.1
  refine ⟨fun _ _ => rfl, ?_, ?_, ?_⟩
  · intro vk' h
    obtain ⟨_, _, _, _, _, _, hlen, hfmt, _, himg, i0, i1, hviews, v0, v1⟩ :=
      win32_init_vulkan_ok h
    have hlist : p.swapchainImages =
        [p.swapchainImages.getD 0 0, p.swapchainImages.getD 1 0] := by
      match hp : p.swapchainImages, hlen with
      | [a, b], _ => rfl
    refine ⟨win32_init_vulkan_swapchain_request h, hlen, by rw [himg]; exact hlist.symm,
      by rw [himg]; rfl, by rw [hviews]; rfl, ?_⟩
    intro i hi
    have hcases : i = 0 ∨ i = 1 := by omega
    rcases hcases with rfl | rfl
    · rw [hviews, himg]
      exact ⟨i0, v0, rfl, hfmt⟩
    · rw [hviews, himg]
      exact ⟨i1, v1, rfl, hfmt⟩
  · intro hrefuse
    apply init_error_of_not_ok
    intro vk' h
    obtain ⟨info, hmin, -, -, -, -, hres, -⟩ := win32_init_vulkan_swapchain_request h
    exact hrefuse vk'.device info hmin hres
  · intro hne
    apply init_error_of_not_ok
    intro vk' h
    exact hne (hok vk' h)

/-- C8, concrete instances: `goodPlatform` reports the two images `20` and `21`;
initialisation succeeds on `twoImageRequestPlatform`, which accepts only a
minimum image count of 2, and fails on `threeImageRequestPlatform`, which
accepts only 3; `threeImagePlatform` reports three images and initialisation
fails. -/
theorem init_requires_two_swapchain_images_witness :
    (win32_init_vulkan goodPlatform = .ok goodContext ∧
      goodPlatform.swapchainImages.length = 2 ∧
      goodContext.swapchainImages = goodPlatform.swapchainImages) ∧
    (win32_init_vulkan twoImageRequestPlatform = .ok goodContext ∧
      ∃ info : VkSwapchainCreateInfoKHR, info.minImageCount = 2 ∧
        goodContext.swapchain =
          (twoImageRequestPlatform.vkCreateSwapchainKHR goodContext.device info).2) ∧
    (∃ e, win32_init_vulkan threeImageRequestPlatform = .error e) ∧
    (∃ e, win32_init_vulkan threeImagePlatform = .error e) :=
  ⟨⟨rfl, ((init_requires_two_swapchain_images goodPlatform).2.1 goodContext rfl).2.1,
      ((init_requires_two_swapchain_images goodPlatform).2.1 goodContext rfl).2.2.1⟩,
    ⟨rfl,
      (((init_requires_two_swapchain_images twoImageRequestPlatform).2.1
        goodContext rfl).1).imp (fun _ h => ⟨h.1, h.2.2.2.2.2.2⟩)⟩,
    (init_requires_two_swapchain_images threeImageRequestPlatform).2.2.1
      (fun _ info hmin => by
        simp [threeImageRequestPlatform, hmin, VK_ERROR_DEVICE_LOST, VK_SUCCESS]),
    (init_requires_two_swapchain_images threeImagePlatform).2.2.2 (by decide)⟩

/-! ## The main loop -/

/-- The four ways an iteration of the loop body can go. -/
theorem main_loop_iteration_cases (o : FrameObjects) (inp : FrameInput) (globalRunning : Bool) :
    (imageIndexAfterAcquire inp = UINT32_MAX ∧
      main_loop_iteration o inp globalRunning =
        (⟨waitFenceCalls o ++ acquireCalls o, .assertFailed .imageIndexNotWritten⟩,
          globalRunning)) ∨
    (imageIndexAfterAcquire inp ≠ UINT32_MAX ∧ ¬ imageIndexAfterAcquire inp < 2 ∧
      main_loop_iteration o inp globalRunning =
        (⟨waitFenceCalls o ++ acquireCalls o ++ (message_pump inp.messages globalRunning).1 ++
            resetBeginCalls o, .framebufferIndexOutOfBounds⟩,
          (message_pump inp.messages globalRunning).2)) ∨
    (∃ h : imageIndexAfterAcquire inp < 2, inp.submitResult ≠ VK_SUCCESS ∧
      main_loop_iteration o inp globalRunning =
        (⟨waitFenceCalls o ++ acquireCalls o ++ (message_pump inp.messages globalRunning).1 ++
            resetBeginCalls o ++
            renderCalls o (o.swapchainFramebuffers ⟨imageIndexAfterAcquire inp, h⟩) ++
            submitCalls o, .assertFailed .queueSubmit⟩,
          (message_pump inp.messages globalRunning).2)) ∨
    (∃ h : imageIndexAfterAcquire inp < 2, inp.submitResult = VK_SUCCESS ∧
      main_loop_iteration o inp globalRunning =
        (⟨waitFenceCalls o ++ acquireCalls o ++ (message_pump inp.messages globalRunning).1 ++
            resetBeginCalls o ++
            renderCalls o (o.swapchainFramebuffers ⟨imageIndexAfterAcquire inp, h⟩) ++
            submitCalls o ++ presentCalls o (imageIndexAfterAcquire inp), .completed⟩,
          (message_pump inp.messages globalRunning).2)) := by
  by_cases h1 : imageIndexAfterAcquire inp = UINT32_MAX
  · left
    refine ⟨h1, ?_⟩
    simp [main_loop_iteration, h1, outOfDateBody]
  · right
    by_cases h2 : imageIndexAfterAcquire inp < 2
    · right
      by_cases h3 : inp.submitResult = VK_SUCCESS
      · right
        refine ⟨h2, h3, ?_⟩
        simp [main_loop_iteration, h1, h2, h3, outOfDateBody]
      · left
        refine ⟨h2, h3, ?_⟩
        simp [main_loop_iteration, h1, h2, h3, outOfDateBody]
    · left
      refine ⟨h1, h2, ?_⟩
      simp [main_loop_iteration, h1, h2, outOfDateBody]

/-- Every frame of a run is an iteration of the loop body on one of the inputs. -/
theorem main_loop_frames (o : FrameObjects) :
    ∀ (inputs : List FrameInput) (globalRunning : Bool) (frame : Frame),
      frame ∈ (main_loop o inputs globalRunning).1 →
      ∃ inp, inp ∈ inputs ∧ ∃ r, frame = (main_loop_iteration o inp r).1 := by
  intro inputs
  induction inputs with
  | nil =>
    intro r frame h
    simp [main_loop] at h
  | cons inp rest ih =>
    intro r frame h
    cases r with
    | false => simp [main_loop] at h
    | true =>
      simp only [main_loop, if_true] at h
      split_ifs at h with hc
      · rcases List.mem_cons.mp h with h | h
        · exact ⟨inp, List.mem_cons_self _ _, true, h⟩
        · obtain ⟨inp', hin, r', hr⟩ := ih _ frame h
          exact ⟨inp', List.mem_cons_of_mem _ hin, r', hr⟩
      · rcases List.mem_cons.mp h with h | h
        · exact ⟨inp, List.mem_cons_self _ _, true, h⟩
        · cases h

theorem message_pump_isMessageCall :
    ∀ (messages : List Nat) (globalRunning : Bool) (e : Event),
      e ∈ (message_pump messages globalRunning).1 → isMessageCall e = true := by
  intro messages
  induction messages with
  | nil =>
    intro r e h
    simp [message_pump] at h
    rw [h]
    rfl
  | cons m rest ih =>
    intro r e h
    simp only [message_pump, List.mem_cons] at h
    rcases h with h | h | h | h
    · rw [h]; rfl
    · rw [h]; rfl
    · rw [h]; rfl
    · exact ih _ e h

theorem message_pump_dispatched :
    ∀ (messages : List Nat) (globalRunning : Bool),
      dispatchedMessages (message_pump messages globalRunning).1 = messages := by
  intro messages
  induction messages with
  | nil => intro r; rfl
  | cons m rest ih =>
    intro r
    simp only [message_pump, dispatchedMessages, List.filterMap_cons]
    exact congrArg (List.cons m) (ih _)

theorem filterMap_phaseOf_of_isMessageCall (l : List Event)
    (h : ∀ e ∈ l, isMessageCall e = true) : l.filterMap phaseOf = [] := by
  induction l with
  | nil => rfl
  | cons e rest ih =>
    have he := h e (List.mem_cons_self _ _)
    have hr := ih (fun x hx => h x (List.mem_cons_of_mem _ hx))
    cases e <;> first | exact hr | exact absurd he (by simp [isMessageCall])

theorem isMessageCall_not_reuse (o : FrameObjects) (e : Event) (h : isMessageCall e = true) :
    reusesCommandBuffer o e = false ∧ isQueueSubmit e = false := by
  cases e <;> simp_all [isMessageCall, reusesCommandBuffer, isQueueSubmit]

theorem noReuseAfterSubmit_sound (o : FrameObjects) :
    ∀ (l : List Event) (seen : Bool), noReuseAfterSubmit o seen l = true →
      ∀ pre e post, l = pre ++ e :: post → reusesCommandBuffer o e = true →
        seen = false ∧ ∀ x ∈ pre, isQueueSubmit x = false := by
  intro l
  induction l with
  | nil =>
    intro seen _ pre e post hl _
    cases pre <;> cases hl
  | cons a rest ih =>
    intro seen hscan pre e post hl hre
    simp only [noReuseAfterSubmit] at hscan
    split_ifs at hscan with hc
    cases pre with
    | nil =>
      simp only [List.nil_append, List.cons.injEq] at hl
      obtain ⟨ha, _⟩ := hl
      subst ha
      refine ⟨?_, fun x hx => by cases hx⟩
      cases seen with
      | false => rfl
      | true => simp [hre] at hc
    | cons b pre' =>
      simp only [List.cons_append, List.cons.injEq] at hl
      obtain ⟨ha, hrest⟩ := hl
      subst ha
      obtain ⟨h1, h2⟩ := ih _ hscan pre' e post hrest hre
      have hs : seen = false ∧ isQueueSubmit a = false := by
        simpa using h1
      refine ⟨hs.1, ?_⟩
      intro x hx
      rcases List.mem_cons.mp hx with hx | hx
      · rw [hx]; exact hs.2
      · exact h2 x hx

theorem noReuseAfterSubmit_pump (o : FrameObjects) (rest : List Event) (seen : Bool) :
    ∀ (pump : List Event), (∀ e ∈ pump, isMessageCall e = true) →
      noReuseAfterSubmit o seen (pump ++ rest) = noReuseAfterSubmit o seen rest := by
  intro pump
  induction pump with
  | nil => intro _; rfl
  | cons a t ih =>
    intro h
    obtain ⟨h1, h2⟩ := isMessageCall_not_reuse o a (h a (List.mem_cons_self _ _))
    simp only [List.cons_append, noReuseAfterSubmit, h1, h2, Bool.false_and, Bool.or_false]
    exact ih (fun x hx => h x (List.mem_cons_of_mem _ hx))

theorem main_loop_iteration_noReuseAfterSubmit (o : FrameObjects) (inp : FrameInput)
    (r : Bool) : noReuseAfterSubmit o false (main_loop_iteration o inp r).1.events = true := by
  have hp := message_pump_isMessageCall inp.messages r
  rcases main_loop_iteration_cases o inp r with ⟨_, h⟩ | ⟨_, _, h⟩ | ⟨_, _, h⟩ | ⟨_, _, h⟩
  · rw [h]
    rfl
  · rw [h]
    simp only [waitFenceCalls, acquireCalls, List.cons_append, List.nil_append,
      List.append_assoc]
    simp only [noReuseAfterSubmit, reusesCommandBuffer, isQueueSubmit,
      Bool.false_and, Bool.or_false, Bool.false_eq_true, if_false]
    rw [noReuseAfterSubmit_pump o _ _ _ hp]
    simp [resetBeginCalls, noReuseAfterSubmit, reusesCommandBuffer, isQueueSubmit]
  · rw [h]
    simp only [waitFenceCalls, acquireCalls, List.cons_append, List.nil_append,
      List.append_assoc]
    simp only [noReuseAfterSubmit, reusesCommandBuffer, isQueueSubmit,
      Bool.false_and, Bool.or_false, Bool.false_eq_true, if_false]
    rw [noReuseAfterSubmit_pump o _ _ _ hp]
    simp [resetBeginCalls, renderCalls, submitCalls, noReuseAfterSubmit, reusesCommandBuffer,
      isQueueSubmit]
  · rw [h]
    simp only [waitFenceCalls, acquireCalls, List.cons_append, List.nil_append,
      List.append_assoc]
    simp only [noReuseAfterSubmit, reusesCommandBuffer, isQueueSubmit,
      Bool.false_and, Bool.or_false, Bool.false_eq_true, if_false]
    rw [noReuseAfterSubmit_pump o _ _ _ hp]
    simp [resetBeginCalls, renderCalls, submitCalls, presentCalls, noReuseAfterSubmit,
      reusesCommandBuffer, isQueueSubmit]

theorem main_loop_iteration_starts_with_wait (o : FrameObjects) (inp : FrameInput) (r : Bool) :
    ∃ rest, (main_loop_iteration o inp r).1.events = waitFenceCalls o ++ rest := by
  rcases main_loop_iteration_cases o inp r with ⟨_, h⟩ | ⟨_, _, h⟩ | ⟨_, _, h⟩ | ⟨_, _, h⟩
  all_goals
    rw [h]
    simp only [List.append_assoc]
    exact ⟨_, rfl⟩

theorem inFlightBounded_le (o : FrameObjects) :
    ∀ (l : List Event) (n : Nat), inFlightBounded o n l → n ≤ 1 := by
  intro l n h
  cases l with
  | nil => exact h
  | cons e rest => exact h.1

theorem inFlightBounded_prefix (o : FrameObjects) :
    ∀ (l : List Event) (n : Nat), inFlightBounded o n l →
      ∀ pre, pre <+: l → pre.foldl (inFlightStep o) n ≤ 1 := by
  intro l
  induction l with
  | nil =>
    intro n h pre hpre
    have : pre = [] := List.prefix_nil.mp hpre
    rw [this]
    exact h
  | cons e rest ih =>
    intro n h pre hpre
    cases pre with
    | nil => exact h.1
    | cons a pre' =>
      obtain ⟨hae, hrest⟩ := List.cons_prefix_cons.mp hpre
      subst hae
      exact ih _ h.2 pre' hrest

theorem inFlightBounded_append (o : FrameObjects) :
    ∀ (a b : List Event) (n : Nat), inFlightBounded o n a →
      inFlightBounded o (a.foldl (inFlightStep o) n) b → inFlightBounded o n (a ++ b) := by
  intro a
  induction a with
  | nil =>
    intro b n _ hb
    exact hb
  | cons e rest ih =>
    intro b n ha hb
    exact ⟨ha.1, ih b _ ha.2 hb⟩

theorem inFlight_pump (o : FrameObjects) :
    ∀ (pump : List Event), (∀ e ∈ pump, isMessageCall e = true) → ∀ n,
      pump.foldl (inFlightStep o) n = n ∧ (n ≤ 1 → inFlightBounded o n pump) := by
  intro pump
  induction pump with
  | nil =>
    intro _ n
    exact ⟨rfl, fun h => h⟩
  | cons e rest ih =>
    intro h n
    have he := h e (List.mem_cons_self _ _)
    have hstep : inFlightStep o n e = n := by
      cases e <;> first | rfl | exact absurd he (by simp [isMessageCall])
    obtain ⟨h1, h2⟩ := ih (fun x hx => h x (List.mem_cons_of_mem _ hx)) n
    refine ⟨?_, ?_⟩
    · rw [List.foldl_cons, hstep]
      exact h1
    · intro hn
      refine ⟨hn, ?_⟩
      rw [hstep]
      exact h2 hn

/-- One iteration keeps the number of submissions in flight at most one,
whatever number at most one it starts from. -/
theorem main_loop_iteration_inFlight (o : FrameObjects) (inp : FrameInput) (r : Bool)
    (n : Nat) (hn : n ≤ 1) :
    inFlightBounded o n (main_loop_iteration o inp r).1.events ∧
      (main_loop_iteration o inp r).1.events.foldl (inFlightStep o) n ≤ 1 := by
  have hp := inFlight_pump o _ (message_pump_isMessageCall inp.messages r) 0
  have hp0 := hp.2 (by omega)
  have hfold : ∀ tail : List Event,
      ((message_pump inp.messages r).1 ++ tail).foldl (inFlightStep o) 0 =
        tail.foldl (inFlightStep o) 0 := by
    intro tail
    rw [List.foldl_append, hp.1]
  rcases main_loop_iteration_cases o inp r with ⟨_, h⟩ | ⟨_, _, h⟩ | ⟨_, _, h⟩ | ⟨_, _, h⟩
  · rw [h]
    simp [waitFenceCalls, acquireCalls, inFlightBounded, inFlightStep, hn]
  · rw [h]
    simp only [waitFenceCalls, acquireCalls, List.cons_append, List.nil_append,
      List.append_assoc]
    refine ⟨?_, ?_⟩
    · refine ⟨hn, ?_⟩
      simp only [inFlightBounded, inFlightStep, List.contains_cons, beq_self_eq_true,
        Bool.true_or, if_true]
      refine ⟨by omega, by omega, ?_⟩
      apply inFlightBounded_append o _ _ _ hp0
      rw [hp.1]
      simp [resetBeginCalls, inFlightBounded, inFlightStep]
    · simp only [List.foldl_cons, inFlightStep, List.contains_cons, beq_self_eq_true,
        Bool.true_or, if_true]
      rw [hfold]
      simp [resetBeginCalls, inFlightStep]
  · rw [h]
    simp only [waitFenceCalls, acquireCalls, List.cons_append, List.nil_append,
      List.append_assoc]
    refine ⟨?_, ?_⟩
    · refine ⟨hn, ?_⟩
      simp only [inFlightBounded, inFlightStep, List.contains_cons, beq_self_eq_true,
        Bool.true_or, if_true]
      refine ⟨by omega, by omega, ?_⟩
      apply inFlightBounded_append o _ _ _ hp0
      rw [hp.1]
      simp [resetBeginCalls, renderCalls, submitCalls, inFlightBounded, inFlightStep]
    · simp only [List.foldl_cons, inFlightStep, List.contains_cons, beq_self_eq_true,
        Bool.true_or, if_true]
      rw [hfold]
      simp [resetBeginCalls, renderCalls, submitCalls, inFlightStep]
  · rw [h]
    simp only [waitFenceCalls, acquireCalls, List.cons_append, List.nil_append,
      List.append_assoc]
    refine ⟨?_, ?_⟩
    · refine ⟨hn, ?_⟩
      simp only [inFlightBounded, inFlightStep, List.contains_cons, beq_self_eq_true,
        Bool.true_or, if_true]
      refine ⟨by omega, by omega, ?_⟩
      apply inFlightBounded_append o _ _ _ hp0
      rw [hp.1]
      simp [resetBeginCalls, renderCalls, submitCalls, presentCalls, inFlightBounded,
        inFlightStep]
    · simp only [List.foldl_cons, inFlightStep, List.contains_cons, beq_self_eq_true,
        Bool.true_or, if_true]
      rw [hfold]
      simp [resetBeginCalls, renderCalls, submitCalls, presentCalls, inFlightStep]

theorem callTrace_inFlight (o : FrameObjects) :
    ∀ (frames : List Frame),
      (∀ frame ∈ frames, ∃ inp r, frame = (main_loop_iteration o inp r).1) →
      ∀ n, n ≤ 1 → inFlightBounded o n (callTrace frames) ∧
        (callTrace frames).foldl (inFlightStep o) n ≤ 1 := by
  intro frames
  induction frames with
  | nil =>
    intro _ n hn
    exact ⟨hn, hn⟩
  | cons f rest ih =>
    intro h n hn
    obtain ⟨inp, r, hf⟩ := h f (List.mem_cons_self _ _)
    obtain ⟨h1, h2⟩ := main_loop_iteration_inFlight o inp r n hn
    obtain ⟨h3, h4⟩ := ih (fun x hx => h x (List.mem_cons_of_mem _ hx)) _ h2
    have hcall : callTrace (f :: rest) = f.events ++ callTrace rest := by
      simp [callTrace]
    rw [hcall, hf]
    refine ⟨inFlightBounded_append o _ _ _ h1 h3, ?_⟩
    rw [List.foldl_append]
    exact h4

/-- C3: in every run of the main loop, a reset, a begin or a submission of the
graphics command buffer has before it, in its own iteration, the wait on the
frame fence followed by the reset of that fence and, after these two, no
submission; and after every prefix of the calls of the run at most one
submission is in flight. -/
theorem frame_fence_guards_command_buffer (o : FrameObjects) (inputs : List FrameInput) :
    (∀ frame ∈ (WinMain_main_loop o inputs).1, ∀ pre e post,
      frame.events = pre ++ e :: post → reusesCommandBuffer o e = true →
      ∃ mid, pre = .WaitForFences o.vk.device [o.frameFence] VK_TRUE UINT64_MAX ::
          .ResetFences o.vk.device [o.frameFence] :: mid ∧
        ∀ x ∈ mid, isQueueSubmit x = false) ∧
    (∀ pre, pre <+: callTrace (WinMain_main_loop o inputs).1 →
      submissionsInFlight o pre ≤ 1) := by
  refine ⟨?_, ?_⟩
  · intro frame hframe pre e post hsplit hre
    obtain ⟨inp, _, r, hf⟩ := main_loop_frames o inputs true frame hframe
    have hscan := main_loop_iteration_noReuseAfterSubmit o inp r
    rw [← hf] at hscan
    obtain ⟨_, hnone⟩ := noReuseAfterSubmit_sound o _ _ hscan pre e post hsplit hre
    obtain ⟨rest, hrest⟩ := main_loop_iteration_starts_with_wait o inp r
    rw [← hf, hsplit] at hrest
    simp only [waitFenceCalls, List.cons_append, List.nil_append] at hrest
    match pre, hrest, hnone with
    | [], hrest, _ =>
      simp only [List.nil_append, List.cons.injEq] at hrest
      rw [hrest.1] at hre
      simp [reusesCommandBuffer] at hre
    | [a], hrest, _ =>
      simp only [List.cons_append, List.nil_append, List.cons.injEq] at hrest
      rw [hrest.2.1] at hre
      simp [reusesCommandBuffer] at hre
    | a :: b :: mid, hrest, hnone =>
      simp only [List.cons_append, List.cons.injEq] at hrest
      refine ⟨mid, by rw [hrest.1, hrest.2.1], ?_⟩
      intro x hx
      exact hnone x (List.mem_cons_of_mem _ (List.mem_cons_of_mem _ hx))
  · intro pre hpre
    have hall : ∀ frame ∈ (WinMain_main_loop o inputs).1,
        ∃ inp r, frame = (main_loop_iteration o inp r).1 := by
      intro frame hframe
      obtain ⟨inp, _, r, hf⟩ := main_loop_frames o inputs true frame hframe
      exact ⟨inp, r, hf⟩
    exact inFlightBounded_prefix o _ 0 (callTrace_inFlight o _ hall 0 (by omega)).1 pre hpre

/-- C3, a concrete instance: the first iteration of the run over `exampleInputs`,
split at its `vkResetCommandBuffer`, and the whole run. -/
theorem frame_fence_guards_command_buffer_witness :
    (∃ mid, [Event.WaitForFences 4 [45] 1 UINT64_MAX, .ResetFences 4 [45],
        .AcquireNextImageKHR 4 6 UINT64_MAX 41 0, .PeekMessage (some 5), .TranslateMessage 5,
        .DispatchMessage 5, .PeekMessage none] =
        .WaitForFences exampleObjects.vk.device [exampleObjects.frameFence] VK_TRUE UINT64_MAX ::
          .ResetFences exampleObjects.vk.device [exampleObjects.frameFence] :: mid ∧
        ∀ x ∈ mid, isQueueSubmit x = false) ∧
    submissionsInFlight exampleObjects
      (callTrace (WinMain_main_loop exampleObjects exampleInputs).1) ≤ 1 :=
  ⟨(frame_fence_guards_command_buffer exampleObjects exampleInputs).1
      (main_loop_iteration exampleObjects ⟨VK_SUCCESS, some 0, [WM_SIZE], VK_SUCCESS, VK_SUCCESS⟩
        true).1 (List.mem_cons_self _ _) _ (.ResetCommandBuffer 46 0) _ rfl rfl,
    (frame_fence_guards_command_buffer exampleObjects exampleInputs).2 _ (List.prefix_refl _)⟩

theorem filter_not_isMessageCall_pump (pump : List Event)
    (h : ∀ e ∈ pump, isMessageCall e = true) :
    pump.filter (fun e => !isMessageCall e) = [] := by
  rw [List.filter_eq_nil_iff]
  intro e he
  simp [h e he]

/-- C4: every iteration of a run starts with the wait on the frame fence and
its reset, and an iteration that runs to completion goes through the phases
WAIT_FENCE, ACQUIRE_IMAGE, RECORD, SUBMIT, PRESENT in this order, each once: its
calls other than those of the message pump are exactly the wait, the fence
reset, one acquire, the recording, one submit and one present. -/
theorem main_loop_phase_order (o : FrameObjects) (inputs : List FrameInput) :
    ∀ frame ∈ (WinMain_main_loop o inputs).1,
      (∃ rest, frame.events = waitFenceCalls o ++ rest) ∧
      (frame.outcome = .completed →
        phasesOf frame.events =
          [.WAIT_FENCE, .ACQUIRE_IMAGE, .RECORD, .SUBMIT, .PRESENT] ∧
        ∃ i : Fin 2, frame.events.filter (fun e => !isMessageCall e) =
          waitFenceCalls o ++ acquireCalls o ++ resetBeginCalls o ++
            renderCalls o (o.swapchainFramebuffers i) ++ submitCalls o ++
            presentCalls o i.val) := by
  intro frame hframe
  obtain ⟨inp, _, r, hf⟩ := main_loop_frames o inputs true frame hframe
  refine ⟨by rw [hf]; exact main_loop_iteration_starts_with_wait o inp r, ?_⟩
  intro hdone
  have hp := message_pump_isMessageCall inp.messages r
  rw [hf] at hdone ⊢
  rcases main_loop_iteration_cases o inp r with ⟨_, h⟩ | ⟨_, _, h⟩ | ⟨_, _, h⟩ | ⟨hi, _, h⟩
  · rw [h] at hdone
    cases hdone
  · rw [h] at hdone
    cases hdone
  · rw [h] at hdone
    cases hdone
  · rw [h]
    refine ⟨?_, ⟨⟨_, hi⟩, ?_⟩⟩
    · unfold phasesOf
      simp only [List.filterMap_append, filterMap_phaseOf_of_isMessageCall _ hp,
        List.append_nil]
      rfl
    · simp only [List.filter_append, filter_not_isMessageCall_pump _ hp, List.append_nil]
      rfl

/-- C4, a concrete instance: both iterations of the run over `exampleInputs`
run to completion. -/
theorem main_loop_phase_order_witness :
    (WinMain_main_loop exampleObjects exampleInputs).1.map
        (fun frame => (frame.outcome, phasesOf frame.events)) =
      [(.completed, [.WAIT_FENCE, .ACQUIRE_IMAGE, .RECORD, .SUBMIT, .PRESENT]),
       (.completed, [.WAIT_FENCE, .ACQUIRE_IMAGE, .RECORD, .SUBMIT, .PRESENT])] ∧
    phasesOf (main_loop_iteration exampleObjects
        ⟨VK_SUCCESS, some 1, [WM_CLOSE], VK_SUCCESS, VK_SUCCESS⟩ true).1.events =
      [.WAIT_FENCE, .ACQUIRE_IMAGE, .RECORD, .SUBMIT, .PRESENT] :=
  ⟨rfl, ((main_loop_phase_order exampleObjects exampleInputs
    (main_loop_iteration exampleObjects
      ⟨VK_SUCCESS, some 1, [WM_CLOSE], VK_SUCCESS, VK_SUCCESS⟩ true).1
    (List.mem_cons_of_mem _ (List.mem_cons_self _ _))).2 rfl).1⟩

/-- C5 as stated fails: in a one-iteration run with a pending `WM_SIZE` message
the message is dispatched after the wait on the fence and before the present
of the same iteration. -/
theorem message_dispatched_before_present :
    (WinMain_main_loop exampleObjects
        [⟨VK_SUCCESS, some 0, [WM_SIZE], VK_SUCCESS, VK_SUCCESS⟩]).1 =
      [⟨(waitFenceCalls exampleObjects ++ acquireCalls exampleObjects ++
            [.PeekMessage (some WM_SIZE), .TranslateMessage WM_SIZE]) ++
          .DispatchMessage WM_SIZE ::
          ([.PeekMessage none] ++ resetBeginCalls exampleObjects ++
            renderCalls exampleObjects 30 ++ submitCalls exampleObjects ++
            presentCalls exampleObjects 0), .completed⟩] ∧
    Event.WaitForFences 4 [45] VK_TRUE UINT64_MAX ∈
      waitFenceCalls exampleObjects ++ acquireCalls exampleObjects ++
        [.PeekMessage (some WM_SIZE), .TranslateMessage WM_SIZE] ∧
    Event.QueuePresentKHR 5 ⟨[42], [6], [0]⟩ ∈
      [Event.PeekMessage none] ++ resetBeginCalls exampleObjects ++
        renderCalls exampleObjects 30 ++ submitCalls exampleObjects ++
        presentCalls exampleObjects 0 :=
  ⟨rfl, by decide, by decide⟩

/-- C5 amended: every iteration starts with the wait on the frame fence, and in
an iteration that runs to completion the message pump runs after the acquire
and before the reset of the command buffer: the calls are the wait and fence
reset, the acquire, then the pump, which dispatches the pending messages of
that iteration in order, then the calls from `vkResetCommandBuffer` to
`vkQueuePresentKHR`, none of which is a call of the pump. -/
theorem messages_pumped_between_acquire_and_record (o : FrameObjects)
    (inputs : List FrameInput) :
    ∀ frame ∈ (WinMain_main_loop o inputs).1,
      (∃ rest, frame.events = waitFenceCalls o ++ rest) ∧
      (frame.outcome = .completed →
        ∃ pump post, frame.events = waitFenceCalls o ++ acquireCalls o ++ pump ++ post ∧
          (∀ e ∈ waitFenceCalls o ++ acquireCalls o, isMessageCall e = false) ∧
          (∀ e ∈ pump, isMessageCall e = true) ∧
          (∃ inp ∈ inputs, dispatchedMessages pump = inp.messages) ∧
          post.head? = some (.ResetCommandBuffer o.graphicsCommandBuffer 0) ∧
          (∃ q info, post.getLast? = some (.QueuePresentKHR q info)) ∧
          (∀ e ∈ post, isMessageCall e = false)) := by
  intro frame hframe
  obtain ⟨inp, hinp, r, hf⟩ := main_loop_frames o inputs true frame hframe
  refine ⟨by rw [hf]; exact main_loop_iteration_starts_with_wait o inp r, ?_⟩
  intro hdone
  have hp := message_pump_isMessageCall inp.messages r
  rw [hf] at hdone ⊢
  rcases main_loop_iteration_cases o inp r with ⟨_, h⟩ | ⟨_, _, h⟩ | ⟨_, _, h⟩ | ⟨hi, _, h⟩
  · rw [h] at hdone
    cases hdone
  · rw [h] at hdone
    cases hdone
  · rw [h] at hdone
    cases hdone
  · rw [h]
    refine ⟨(message_pump inp.messages r).1,
      resetBeginCalls o ++
        renderCalls o (o.swapchainFramebuffers ⟨imageIndexAfterAcquire inp, hi⟩) ++
        submitCalls o ++ presentCalls o (imageIndexAfterAcquire inp), ?_, ?_, hp,
      ⟨inp, hinp, message_pump_dispatched _ _⟩, rfl, ⟨_, _, rfl⟩, ?_⟩
    · simp only [List.append_assoc]
    · intro e he
      simp only [waitFenceCalls, acquireCalls, List.cons_append, List.nil_append,
        List.mem_cons, List.mem_singleton] at he
      rcases he with he | he | he | he
      · rw [he]; rfl
      · rw [he]; rfl
      · rw [he]; rfl
      · cases he
    · intro e he
      simp only [resetBeginCalls, renderCalls, submitCalls, presentCalls, List.cons_append,
        List.nil_append, List.mem_cons, List.mem_singleton] at he
      rcases he with he | he | he | he | he | he | he | he | he | he | he | he
      all_goals first
        | (rw [he]; rfl)
        | cases he

/-- C5 amended, a concrete instance: the second iteration of the run over
`exampleInputs` runs to completion with the pump in between. -/
theorem messages_pumped_between_acquire_and_record_witness :
    ∃ pump post, (main_loop_iteration exampleObjects
        ⟨VK_SUCCESS, some 1, [WM_CLOSE], VK_SUCCESS, VK_SUCCESS⟩ true).1.events =
        waitFenceCalls exampleObjects ++ acquireCalls exampleObjects ++ pump ++ post ∧
      (∀ e ∈ pump, isMessageCall e = true) ∧
      post.head? = some (.ResetCommandBuffer exampleObjects.graphicsCommandBuffer 0) :=
  match (messages_pumped_between_acquire_and_record exampleObjects exampleInputs
    (main_loop_iteration exampleObjects
      ⟨VK_SUCCESS, some 1, [WM_CLOSE], VK_SUCCESS, VK_SUCCESS⟩ true).1
    (List.mem_cons_of_mem _ (List.mem_cons_self _ _))).2 rfl with
  | ⟨pump, post, h1, _, h2, _, h3, _⟩ => ⟨pump, post, h1, h2, h3⟩

theorem acquired_of_imageIndex_lt {inp : FrameInput}
    (h : imageIndexAfterAcquire inp < 2) :
    inp.acquiredImageIndex = some (imageIndexAfterAcquire inp) := by
  unfold imageIndexAfterAcquire at h ⊢
  cases hacq : inp.acquiredImageIndex with
  | none =>
    rw [hacq] at h
    simp [UINT32_MAX] at h
  | some i => rfl

theorem acquired_of_imageIndex_ne {inp : FrameInput}
    (h : imageIndexAfterAcquire inp ≠ UINT32_MAX) :
    inp.acquiredImageIndex = some (imageIndexAfterAcquire inp) := by
  unfold imageIndexAfterAcquire at h ⊢
  cases hacq : inp.acquiredImageIndex with
  | none =>
    rw [hacq] at h
    exact absurd rfl h
  | some i => rfl

/-- The framebuffer of a render pass begun in an iteration and the image index
of a present made in it are those of `imageIndexAfterAcquire`. -/
theorem main_loop_iteration_uses_index (o : FrameObjects) (inp : FrameInput) (r : Bool)
    (h : imageIndexAfterAcquire inp < 2) :
    (∀ cb rp fb area cv c,
      Event.CmdBeginRenderPass cb rp fb area cv c ∈ (main_loop_iteration o inp r).1.events →
        fb = o.swapchainFramebuffers ⟨imageIndexAfterAcquire inp, h⟩) ∧
    (∀ q info, Event.QueuePresentKHR q info ∈ (main_loop_iteration o inp r).1.events →
        info.imageIndices = [imageIndexAfterAcquire inp]) := by
  have hp := message_pump_isMessageCall inp.messages r
  have hne : imageIndexAfterAcquire inp ≠ UINT32_MAX := by
    unfold UINT32_MAX
    omega
  rcases main_loop_iteration_cases o inp r with ⟨h1, _⟩ | ⟨_, h1, _⟩ | ⟨_, _, hc⟩ | ⟨_, _, hc⟩
  · exact absurd h1 hne
  · exact absurd h h1
  · rw [hc]
    refine ⟨?_, ?_⟩
    · intro cb rp fb area cv c he
      simp [waitFenceCalls, acquireCalls, resetBeginCalls, renderCalls, submitCalls] at he
      rcases he with he | he
      · exact absurd (hp _ he) (by simp [isMessageCall])
      · exact he.2.2.1
    · intro q info he
      simp [waitFenceCalls, acquireCalls, resetBeginCalls, renderCalls, submitCalls] at he
      exact absurd (hp _ he) (by simp [isMessageCall])
  · rw [hc]
    refine ⟨?_, ?_⟩
    · intro cb rp fb area cv c he
      simp [waitFenceCalls, acquireCalls, resetBeginCalls, renderCalls, submitCalls,
        presentCalls] at he
      rcases he with he | he
      · exact absurd (hp _ he) (by simp [isMessageCall])
      · exact he.2.2.1
    · intro q info he
      simp [waitFenceCalls, acquireCalls, resetBeginCalls, renderCalls, submitCalls,
        presentCalls] at he
      rcases he with he | he
      · exact absurd (hp _ he) (by simp [isMessageCall])
      · rw [he.2]

theorem exampleInputs_acquire_contract :
    ∀ inp ∈ exampleInputs, ∀ i, inp.acquiredImageIndex = some i → i < 2 := by
  intro inp hinp i hi
  simp only [exampleInputs, List.mem_cons, List.mem_singleton, List.not_mem_nil,
    or_false] at hinp
  rcases hinp with h | h
  · rw [h] at hi
    injection hi with hi
    omega
  · rw [h] at hi
    injection hi with hi
    omega

/-- C9: let `win32_init_vulkan` have returned, so that `assert(imageCount == 2)`
has passed, and let every image index the acquire call writes be below the
number of images the platform reported for the swapchain, whatever result code
comes with it.  Then that number is 2, the length of `swapchainFramebuffers`,
and no iteration of a run reads `swapchainFramebuffers` outside the array:
either the acquire wrote no index and the iteration stops at
`assert(imageIndex != UINT32_MAX)` right after the acquire, or there is an index
below 2, written by the acquire, that selects the framebuffer of every render
pass begun in the iteration and is the image index of every present made in it. -/
theorem acquired_image_index_in_range (p : Platform) (vk' : VulkanContext)
    (o : FrameObjects) (inputs : List FrameInput)
    (hinit : win32_init_vulkan p = .ok vk')
    (hacquire : ∀ inp ∈ inputs, ∀ i, inp.acquiredImageIndex = some i →
      i < p.swapchainImages.length) :
    p.swapchainImages.length = 2 ∧ vk'.swapchainImages.length = 2 ∧
    ∀ frame ∈ (WinMain_main_loop o inputs).1,
      frame.outcome ≠ .framebufferIndexOutOfBounds ∧
      ((frame.outcome = .assertFailed .imageIndexNotWritten ∧
          frame.events = waitFenceCalls o ++ acquireCalls o) ∨
        ∃ i : Fin 2, (∃ inp ∈ inputs, inp.acquiredImageIndex = some i.val) ∧
          (∀ cb rp fb area cv c,
            Event.CmdBeginRenderPass cb rp fb area cv c ∈ frame.events →
              fb = o.swapchainFramebuffers i) ∧
          (∀ q info, Event.QueuePresentKHR q info ∈ frame.events →
              info.imageIndices = [i.val])) := by
  obtain ⟨_, _, _, _, _, _, hlen, _, _, himg, _⟩ := win32_init_vulkan_ok hinit
  refine ⟨hlen, by rw [himg]; rfl, ?_⟩
  intro frame hframe
  obtain ⟨inp, hinp, r, hf⟩ := main_loop_frames o inputs true frame hframe
  rw [hf]
  have hlt : imageIndexAfterAcquire inp ≠ UINT32_MAX → imageIndexAfterAcquire inp < 2 :=
    fun hne => hlen ▸ hacquire inp hinp _ (acquired_of_imageIndex_ne hne)
  rcases main_loop_iteration_cases o inp r with ⟨_, h⟩ | ⟨h1, h2, _⟩ | ⟨hi, _, h⟩ | ⟨hi, _, h⟩
  · rw [h]
    exact ⟨(fun hc => by cases hc), Or.inl ⟨rfl, rfl⟩⟩
  · exact absurd (hlt h1) h2
  · refine ⟨(by rw [h]; exact fun hc => by cases hc), Or.inr ⟨⟨_, hi⟩, ?_, ?_⟩⟩
    · exact ⟨inp, hinp, acquired_of_imageIndex_lt hi⟩
    · exact main_loop_iteration_uses_index o inp r hi
  · refine ⟨(by rw [h]; exact fun hc => by cases hc), Or.inr ⟨⟨_, hi⟩, ?_, ?_⟩⟩
    · exact ⟨inp, hinp, acquired_of_imageIndex_lt hi⟩
    · exact main_loop_iteration_uses_index o inp r hi

/-- C9, a concrete instance: `win32_init_vulkan` returns on `goodPlatform`,
which reports two swapchain images, the indices written in `exampleInputs` are
below that count, and the second iteration of the run, whose acquire writes
index `1`, stays inside `swapchainFramebuffers`. -/
theorem acquired_image_index_in_range_witness :
    win32_init_vulkan goodPlatform = .ok goodContext ∧
    (∀ inp ∈ exampleInputs, ∀ i, inp.acquiredImageIndex = some i →
      i < goodPlatform.swapchainImages.length) ∧
    (main_loop_iteration exampleObjects
      ⟨VK_SUCCESS, some 1, [WM_CLOSE], VK_SUCCESS, VK_SUCCESS⟩ true).1.outcome ≠
        .framebufferIndexOutOfBounds :=
  ⟨rfl, exampleInputs_acquire_contract,
    ((acquired_image_index_in_range goodPlatform goodContext exampleObjects exampleInputs
      rfl exampleInputs_acquire_contract).2.2
    (main_loop_iteration exampleObjects
      ⟨VK_SUCCESS, some 1, [WM_CLOSE], VK_SUCCESS, VK_SUCCESS⟩ true).1
    (List.mem_cons_of_mem _ (List.mem_cons_self _ _))).1⟩

/-- C10 as stated fails: when the acquire reports out-of-date and writes no
image index, the iteration stops at `assert(imageIndex != UINT32_MAX)`; the
run ends there and no call of the RECORD phase is made. -/
theorem out_of_date_without_index_terminates :
    WinMain_main_loop exampleObjects
        [⟨VK_ERROR_OUT_OF_DATE_KHR, none, [], VK_SUCCESS, VK_SUCCESS⟩] =
      ([⟨waitFenceCalls exampleObjects ++ acquireCalls exampleObjects,
          .assertFailed .imageIndexNotWritten⟩], .stopped) ∧
    ∀ e ∈ waitFenceCalls exampleObjects ++ acquireCalls exampleObjects,
      phaseOf e ≠ some .RECORD :=
  ⟨rfl, by decide⟩

/-- C10 amended: when the acquire reports out-of-date the branch for that result
is taken and makes no call; the result code has no influence on the iteration,
and no call of the iteration creates or destroys a swapchain.  The iteration
goes on to
`vkResetCommandBuffer` if `imageIndex` differs from `UINT32_MAX` after the call,
and stops at `assert(imageIndex != UINT32_MAX)`, right after the acquire, if the
call left `imageIndex` at `UINT32_MAX`. -/
theorem out_of_date_acquire_not_acted_upon (o : FrameObjects) (inp : FrameInput) (r : Bool)
    (hresult : inp.acquireResult = VK_ERROR_OUT_OF_DATE_KHR) :
    ((if inp.acquireResult == VK_ERROR_OUT_OF_DATE_KHR then outOfDateBody else []) =
        outOfDateBody ∧ outOfDateBody = []) ∧
    (∀ res, main_loop_iteration o { inp with acquireResult := res } r =
      main_loop_iteration o inp r) ∧
    (∀ e ∈ (main_loop_iteration o inp r).1.events, isSwapchainRecreation e = false) ∧
    (imageIndexAfterAcquire inp = UINT32_MAX →
      (main_loop_iteration o inp r).1 =
        ⟨waitFenceCalls o ++ acquireCalls o, .assertFailed .imageIndexNotWritten⟩) ∧
    (imageIndexAfterAcquire inp ≠ UINT32_MAX →
      (main_loop_iteration o inp r).1.outcome ≠ .assertFailed .imageIndexNotWritten ∧
      ∃ pump post, (main_loop_iteration o inp r).1.events =
        waitFenceCalls o ++ acquireCalls o ++ pump ++
          .ResetCommandBuffer o.graphicsCommandBuffer 0 :: post) := by
  have hp := message_pump_isMessageCall inp.messages r
  have hpump : ∀ e ∈ (message_pump inp.messages r).1, isSwapchainRecreation e = false := by
    intro e he
    have := hp e he
    cases e <;> first | rfl | exact absurd this (by simp [isMessageCall])
  refine ⟨?_, ?_, ?_, ?_, ?_⟩
  · rw [hresult]
    exact ⟨rfl, rfl⟩
  · intro res
    simp [main_loop_iteration, outOfDateBody, imageIndexAfterAcquire]
  · rcases main_loop_iteration_cases o inp r with ⟨_, h⟩ | ⟨_, _, h⟩ | ⟨_, _, h⟩ | ⟨_, _, h⟩
    all_goals
      rw [h]
      simp only [List.forall_mem_append]
      simp [waitFenceCalls, acquireCalls, resetBeginCalls, renderCalls, submitCalls,
        presentCalls, isSwapchainRecreation]
      try exact hpump
  · intro hmax
    rcases main_loop_iteration_cases o inp r with ⟨_, h⟩ | ⟨h1, _, _⟩ | ⟨hi, _, _⟩ | ⟨hi, _, _⟩
    · rw [h]
    · exact absurd hmax h1
    · rw [hmax] at hi
      simp [UINT32_MAX] at hi
    · rw [hmax] at hi
      simp [UINT32_MAX] at hi
  · intro hne
    rcases main_loop_iteration_cases o inp r with ⟨h1, _⟩ | ⟨_, _, h⟩ | ⟨_, _, h⟩ | ⟨_, _, h⟩
    · exact absurd h1 hne
    all_goals
      rw [h]
      refine ⟨(fun hc => by cases hc), (message_pump inp.messages r).1, ?_⟩
      simp only [resetBeginCalls, List.append_assoc, List.cons_append, List.nil_append]
      exact ⟨_, rfl⟩

/-- C10 amended, concrete instances: out-of-date with image index `1` written,
where the iteration goes on and runs to completion, and out-of-date with no
index written, where it stops after the acquire. -/
theorem out_of_date_acquire_not_acted_upon_witness :
    (main_loop_iteration exampleObjects
      ⟨VK_ERROR_OUT_OF_DATE_KHR, some 1, [], VK_SUCCESS, VK_SUCCESS⟩ true).1.outcome ≠
        .assertFailed .imageIndexNotWritten ∧
    (main_loop_iteration exampleObjects
      ⟨VK_ERROR_OUT_OF_DATE_KHR, some 1, [], VK_SUCCESS, VK_SUCCESS⟩ true).1.outcome =
        .completed ∧
    (main_loop_iteration exampleObjects
      ⟨VK_ERROR_OUT_OF_DATE_KHR, none, [], VK_SUCCESS, VK_SUCCESS⟩ true).1 =
        ⟨waitFenceCalls exampleObjects ++ acquireCalls exampleObjects,
          .assertFailed .imageIndexNotWritten⟩ :=
  ⟨((out_of_date_acquire_not_acted_upon exampleObjects
      ⟨VK_ERROR_OUT_OF_DATE_KHR, some 1, [], VK_SUCCESS, VK_SUCCESS⟩ true rfl).2.2.2.2
      (by decide)).1, rfl,
    (out_of_date_acquire_not_acted_upon exampleObjects
      ⟨VK_ERROR_OUT_OF_DATE_KHR, none, [], VK_SUCCESS, VK_SUCCESS⟩ true rfl).2.2.2.1 rfl⟩

/-! ## Synchronisation and the present result -/

theorem main_loop_false (o : FrameObjects) (inputs : List FrameInput) :
    main_loop o inputs false = ([], .exited) := by
  cases inputs <;> simp [main_loop]

theorem main_loop_iteration_present_result (o : FrameObjects) (inp : FrameInput) (r : Bool)
    (res : VkResult) :
    main_loop_iteration o { inp with presentResult := res } r = main_loop_iteration o inp r := by
  simp [main_loop_iteration, outOfDateBody, imageIndexAfterAcquire]

/-- C11: when the present reports out-of-date the branch for that result is
taken and makes no call; the iteration leaves the same frame and the same
`globalRunning` as with a successful present, and the loop goes on from the
loop head exactly as it does after a successful present. -/
theorem out_of_date_present_not_acted_upon (o : FrameObjects) (inp : FrameInput)
    (rest : List FrameInput) (r : Bool)
    (hresult : inp.presentResult = VK_ERROR_OUT_OF_DATE_KHR) :
    ((if inp.presentResult == VK_ERROR_OUT_OF_DATE_KHR then outOfDateBody else []) =
        outOfDateBody ∧ outOfDateBody = []) ∧
    main_loop_iteration o inp r =
      main_loop_iteration o { inp with presentResult := VK_SUCCESS } r ∧
    main_loop o (inp :: rest) r =
      main_loop o ({ inp with presentResult := VK_SUCCESS } :: rest) r := by
  refine ⟨?_, ?_, ?_⟩
  · rw [hresult]
    exact ⟨rfl, rfl⟩
  · exact (main_loop_iteration_present_result o inp r VK_SUCCESS).symm
  · cases r with
    | false => rw [main_loop_false, main_loop_false]
    | true =>
      simp only [main_loop, if_true]
      rw [main_loop_iteration_present_result o inp true VK_SUCCESS]

/-- C11, a concrete instance: a first iteration whose present reports
out-of-date, followed by a second iteration. -/
theorem out_of_date_present_not_acted_upon_witness :
    (WinMain_main_loop exampleObjects
      [⟨VK_SUCCESS, some 0, [], VK_SUCCESS, VK_ERROR_OUT_OF_DATE_KHR⟩,
       ⟨VK_SUCCESS, some 1, [WM_CLOSE], VK_SUCCESS, VK_SUCCESS⟩]).1.map Frame.outcome =
      [.completed, .completed] ∧
    main_loop exampleObjects
      [⟨VK_SUCCESS, some 0, [], VK_SUCCESS, VK_ERROR_OUT_OF_DATE_KHR⟩,
       ⟨VK_SUCCESS, some 1, [WM_CLOSE], VK_SUCCESS, VK_SUCCESS⟩] true =
    main_loop exampleObjects
      [⟨VK_SUCCESS, some 0, [], VK_SUCCESS, VK_SUCCESS⟩,
       ⟨VK_SUCCESS, some 1, [WM_CLOSE], VK_SUCCESS, VK_SUCCESS⟩] true :=
  ⟨rfl, (out_of_date_present_not_acted_upon exampleObjects
    ⟨VK_SUCCESS, some 0, [], VK_SUCCESS, VK_ERROR_OUT_OF_DATE_KHR⟩
    [⟨VK_SUCCESS, some 1, [WM_CLOSE], VK_SUCCESS, VK_SUCCESS⟩] true rfl).2.2⟩

theorem filter_isSyncCall_pump (pump : List Event)
    (h : ∀ e ∈ pump, isMessageCall e = true) : pump.filter isSyncCall = [] := by
  rw [List.filter_eq_nil_iff]
  intro e he
  have := h e he
  cases e <;> first | exact Bool.false_ne_true | exact absurd this (by simp [isMessageCall])

/-- C12: in every iteration of a run the acquire, the submissions and the
presents made are, in this order, an initial part of the chain
[acquire signalling the image-available semaphore and no fence; one submit to
the graphics-and-present queue of one batch that waits on exactly the
image-available semaphore at the colour-attachment-output stage, holds the
graphics command buffer, signals exactly the render-finished semaphore, with
the frame fence; one present on the same queue waiting on exactly the
render-finished semaphore for the image index left by the acquire]; an
iteration that runs to completion makes the whole chain, and its image index is
the one the acquire wrote. -/
theorem frame_synchronisation_chain (o : FrameObjects) (inputs : List FrameInput) :
    ∀ frame ∈ (WinMain_main_loop o inputs).1, ∃ inp ∈ inputs,
      frame.events.filter isSyncCall <+:
        [.AcquireNextImageKHR o.vk.device o.vk.swapchain UINT64_MAX
            o.imageAvailableSemaphore 0,
         .QueueSubmit o.vk.graphicsAndPresentQueue
            [{ waitSemaphores := [o.imageAvailableSemaphore],
               waitDstStageMask := [VK_PIPELINE_STAGE_COLOR_ATTACHMENT_OUTPUT_BIT],
               commandBuffers := [o.graphicsCommandBuffer],
               signalSemaphores := [o.renderFinishedSemaphore] }]
            o.frameFence,
         .QueuePresentKHR o.vk.graphicsAndPresentQueue
            { waitSemaphores := [o.renderFinishedSemaphore],
              swapchains := [o.vk.swapchain],
              imageIndices := [imageIndexAfterAcquire inp] }] ∧
      (frame.outcome = .completed →
        inp.acquiredImageIndex = some (imageIndexAfterAcquire inp) ∧
        frame.events.filter isSyncCall =
          [.AcquireNextImageKHR o.vk.device o.vk.swapchain UINT64_MAX
              o.imageAvailableSemaphore 0,
           .QueueSubmit o.vk.graphicsAndPresentQueue
              [{ waitSemaphores := [o.imageAvailableSemaphore],
                 waitDstStageMask := [VK_PIPELINE_STAGE_COLOR_ATTACHMENT_OUTPUT_BIT],
                 commandBuffers := [o.graphicsCommandBuffer],
                 signalSemaphores := [o.renderFinishedSemaphore] }]
              o.frameFence,
           .QueuePresentKHR o.vk.graphicsAndPresentQueue
              { waitSemaphores := [o.renderFinishedSemaphore],
                swapchains := [o.vk.swapchain],
                imageIndices := [imageIndexAfterAcquire inp] }]) := by
  intro frame hframe
  obtain ⟨inp, hinp, r, hf⟩ := main_loop_frames o inputs true frame hframe
  refine ⟨inp, hinp, ?_⟩
  have hp := filter_isSyncCall_pump _ (message_pump_isMessageCall inp.messages r)
  rw [hf]
  rcases main_loop_iteration_cases o inp r with ⟨_, h⟩ | ⟨_, _, h⟩ | ⟨hi, _, h⟩ | ⟨hi, _, h⟩
  · rw [h]
    refine ⟨⟨_, rfl⟩, fun hc => by cases hc⟩
  · rw [h]
    simp only [List.filter_append, hp, List.append_nil]
    refine ⟨⟨_, rfl⟩, fun hc => by cases hc⟩
  · rw [h]
    simp only [List.filter_append, hp, List.append_nil]
    refine ⟨⟨_, rfl⟩, fun hc => by cases hc⟩
  · rw [h]
    simp only [List.filter_append, hp, List.append_nil]
    exact ⟨⟨[], rfl⟩, fun _ => ⟨acquired_of_imageIndex_lt hi, rfl⟩⟩

/-- C12, a concrete instance: the second iteration of the run over
`exampleInputs`. -/
theorem frame_synchronisation_chain_witness :
    (main_loop_iteration exampleObjects
        ⟨VK_SUCCESS, some 1, [WM_CLOSE], VK_SUCCESS, VK_SUCCESS⟩ true).1.events.filter
        isSyncCall =
      [.AcquireNextImageKHR 4 6 UINT64_MAX 41 0,
       .QueueSubmit 5 [⟨[41], [1024], [46], [42]⟩] 45,
       .QueuePresentKHR 5 ⟨[42], [6], [1]⟩] ∧
    ∃ inp ∈ exampleInputs,
      (main_loop_iteration exampleObjects
        ⟨VK_SUCCESS, some 1, [WM_CLOSE], VK_SUCCESS, VK_SUCCESS⟩ true).1.events.filter
        isSyncCall <+:
      [.AcquireNextImageKHR 4 6 UINT64_MAX 41 0,
       .QueueSubmit 5 [⟨[41], [1024], [46], [42]⟩] 45,
       .QueuePresentKHR 5 ⟨[42], [6], [imageIndexAfterAcquire inp]⟩] :=
  ⟨rfl,
    match frame_synchronisation_chain exampleObjects exampleInputs
      (main_loop_iteration exampleObjects
        ⟨VK_SUCCESS, some 1, [WM_CLOSE], VK_SUCCESS, VK_SUCCESS⟩ true).1
      (List.mem_cons_of_mem _ (List.mem_cons_self _ _)) with
    | ⟨inp, hinp, h, _⟩ => ⟨inp, hinp, h⟩⟩

/-! ## The start-up of `WinMain` -/

theorem runSteps_append (a b : List Step) :
    runSteps (a ++ b) =
      match (runSteps a).2 with
      | some e => ((runSteps a).1, some e)
      | none => ((runSteps a).1 ++ (runSteps b).1, (runSteps b).2) := by
  induction a with
  | nil => simp [runSteps]
  | cons s rest ih =>
    simp only [List.cons_append, runSteps]
    cases hs : s.failure with
    | some e => simp
    | none =>
      cases hr : (runSteps rest).2 with
      | some e => simp [ih, hr]
      | none => simp [ih, hr]

theorem runSteps_initial_calls (steps : List Step) : (runSteps steps).1 <+: callsOf steps := by
  induction steps with
  | nil => simp [runSteps, callsOf]
  | cons s rest ih =>
    simp only [runSteps, callsOf, List.map_cons, List.flatten_cons]
    cases hs : s.failure with
    | some e => exact List.prefix_append _ _
    | none => exact (List.prefix_append_right_inj _).mpr ih

theorem runSteps_none (steps : List Step) (h : (runSteps steps).2 = none) :
    (runSteps steps).1 = callsOf steps ∧ ∀ s ∈ steps, s.failure = none := by
  induction steps with
  | nil => simp [runSteps, callsOf]
  | cons s rest ih =>
    simp only [runSteps] at h ⊢
    cases hs : s.failure with
    | some e => simp [hs] at h
    | none =>
      simp only [hs] at h ⊢
      obtain ⟨h1, h2⟩ := ih h
      refine ⟨by simp [callsOf, h1], ?_⟩
      intro t ht
      rcases List.mem_cons.mp ht with rfl | ht
      · exact hs
      · exact h2 t ht

theorem runSteps_of_all_none (steps : List Step) (h : ∀ s ∈ steps, s.failure = none) :
    runSteps steps = (callsOf steps, none) := by
  induction steps with
  | nil => simp [runSteps, callsOf]
  | cons s rest ih =>
    have hs : s.failure = none := h s (List.mem_cons_self _ _)
    have hr := ih (fun t ht => h t (List.mem_cons_of_mem _ ht))
    simp [runSteps, hs, hr, callsOf]

theorem callsOf_append (a b : List Step) : callsOf (a ++ b) = callsOf a ++ callsOf b := by
  simp [callsOf]

theorem goodStartup_runs : (WinMain_startup goodPlatform goodStartup goodContext).2 = none := by
  rfl

theorem runSteps_none_iff (steps : List Step) :
    (runSteps steps).2 = none ↔ ∀ s ∈ steps, s.failure = none :=
  ⟨fun h => (runSteps_none steps h).2, fun h => by rw [runSteps_of_all_none steps h]⟩

theorem memoryTypeFailure_eq_none (memProperties : VkPhysicalDeviceMemoryProperties)
    (typeFilter memPropFlags : Nat) :
    memoryTypeFailure memProperties typeFilter memPropFlags = none ↔
      memoryTypeIndexOf memProperties typeFilter memPropFlags ≠ UINT32_MAX := by
  simp only [memoryTypeFailure, vk_find_memory_type, memoryTypeIndexOf]
  split_ifs with h <;> simp_all

theorem load_entire_file_none (fileName : String) (a : LoadedFileAnswers) :
    (∀ s ∈ load_entire_file fileName a, s.failure = none) ↔ FileLoads a := by
  simp only [load_entire_file, FileLoads, List.mem_cons, List.mem_singleton, List.mem_nil_iff,
    or_false, forall_eq_or_imp, forall_eq]
  cases a.opened <;> cases a.allocated <;> by_cases h1 : a.size = 0 <;>
    by_cases h2 : a.bytesRead = a.size <;> simp [h1, h2]

theorem vk_create_buffer_none (memProperties : VkPhysicalDeviceMemoryProperties)
    (a : BufferAnswers) (vk : VulkanContext) (size usage properties : Nat) :
    (∀ s ∈ vk_create_buffer memProperties a vk size usage properties, s.failure = none) ↔
      BufferChecksPass memProperties a properties := by
  simp [vk_create_buffer, BufferChecksPass, memoryTypeFailure_eq_none]

theorem vk_create_image_view_step_none (p : Platform) (vk : VulkanContext)
    (image format : Nat) (result : VkResult) :
    (∀ s ∈ vk_create_image_view_step p vk image format result, s.failure = none) ↔
      p.vkCreateImageView vk.device (imageViewCreateInfo image format) ≠ 0 := by
  simp only [vk_create_image_view_step, vk_create_image_view, List.mem_singleton, forall_eq]
  by_cases h : p.vkCreateImageView vk.device (imageViewCreateInfo image format) = 0 <;>
    simp [h]

/-- The start-up reaches the main loop exactly when every check passes and
every pointer and handle it uses unchecked has been written. -/
theorem startup_runs_iff_checks_pass (p : Platform) (sp : StartupPlatform)
    (vk : VulkanContext) :
    (WinMain_startup p sp vk).2 = none ↔
      StartupChecksPass p sp vk ∧ StartupOutputsWritten sp := by
  rw [WinMain_startup, runSteps_none_iff]
  simp only [WinMain_startup_steps, List.forall_mem_append, load_entire_file_none,
    vk_create_buffer_none, create_shader_modules, create_texture_staging,
    create_uniform_buffer, create_vertex_staging, create_vertex_buffer, StartupChecksPass,
    StartupOutputsWritten,
    create_texture_view_and_sampler, vk_create_image_view_step_none, texImageViewOf]
  simp [create_render_pass, create_framebuffers,
    create_semaphores, create_command_pool_and_buffer,
    vk_create_shader_module, create_descriptor_set_layout,
    create_descriptor_pool, allocate_descriptor_set,
    create_texture_image, upload_texture, vk_begin_single_time_commands,
    vk_end_single_time_commands, update_descriptor_set,
    upload_vertices, create_pipeline_layout, create_graphics_pipeline, create_frame_fence,
    List.range_succ, memoryTypeFailure_eq_none]
  tauto

/-- The calls of a start-up that reaches the main loop, in five stretches:
up to the descriptor set, the texture upload, up to the descriptor update, the
vertex upload, the pipeline and the fence. -/
theorem startup_calls_split (p : Platform) (sp : StartupPlatform) (vk : VulkanContext) :
    callsOf (WinMain_startup_steps p sp vk) =
      callsOf (create_render_pass sp vk ++ create_framebuffers sp vk ++
        create_semaphores sp vk ++ create_command_pool_and_buffer sp vk ++
        create_shader_modules sp (contextWithPool sp vk) ++
        create_descriptor_set_layout sp (contextWithPool sp vk) ++
        create_descriptor_pool sp (contextWithPool sp vk) ++
        allocate_descriptor_set sp (contextWithPool sp vk)) ++
      callsOf (create_texture_staging sp (contextWithPool sp vk) ++
        create_texture_image sp (contextWithPool sp vk) ++
        upload_texture sp (contextWithPool sp vk)) ++
      callsOf (create_texture_view_and_sampler p sp (contextWithPool sp vk) ++
        create_uniform_buffer sp (contextWithPool sp vk) ++
        update_descriptor_set p sp (contextWithPool sp vk)) ++
      callsOf (create_vertex_staging sp (contextWithPool sp vk) ++
        create_vertex_buffer sp (contextWithPool sp vk) ++
        upload_vertices sp (contextWithPool sp vk)) ++
      callsOf (create_pipeline_layout sp (contextWithPool sp vk) ++
        create_graphics_pipeline sp (contextWithPool sp vk) ++
        create_frame_fence sp (contextWithPool sp vk)) := by
  simp only [WinMain_startup_steps, callsOf_append, List.append_assoc]

theorem startup_trace_of_success {p : Platform} {sp : StartupPlatform} {vk : VulkanContext}
    (hrun : (WinMain_startup p sp vk).2 = none) :
    (WinMain_startup p sp vk).1 = callsOf (WinMain_startup_steps p sp vk) :=
  (runSteps_none _ hrun).1

theorem texDataBytes_take : texDataBytes.take texDataSize = texDataBytes := by decide

theorem verticesBytes_take : verticesBytes.take vertBufferSize = verticesBytes := by decide

/-! ### Result codes -/

/-- The five result codes `win32_init_vulkan` compares with `VK_SUCCESS`. -/
theorem win32_init_vulkan_results {p : Platform} {vk' : VulkanContext}
    (h : win32_init_vulkan p = .ok vk') :
    p.vkCreateInstance.1 = VK_SUCCESS ∧ p.vkCreateDebugUtilsMessengerEXT = VK_SUCCESS ∧
    p.vkCreateWin32SurfaceKHR.1 = VK_SUCCESS ∧ p.vkCreateDevice.1 = VK_SUCCESS ∧
    ∃ info, (p.vkCreateSwapchainKHR vk'.device info).1 = VK_SUCCESS ∧
      vk'.swapchain = (p.vkCreateSwapchainKHR vk'.device info).2 := by
  unfold win32_init_vulkan at h
  obtain ⟨vk1, h1, h⟩ := (bind_eq_ok _ _ _).mp h
  obtain ⟨vk2, h2, h⟩ := (bind_eq_ok _ _ _).mp h
  obtain ⟨vk3, h3, h⟩ := (bind_eq_ok _ _ _).mp h
  obtain ⟨vk4, h4, h⟩ := (bind_eq_ok _ _ _).mp h
  obtain ⟨vk5, h5, h⟩ := (bind_eq_ok _ _ _).mp h
  obtain ⟨vk6, h6, h⟩ := (bind_eq_ok _ _ _).mp h
  obtain ⟨vk7, h7, h8⟩ := (bind_eq_ok _ _ _).mp h
  have e6 := init_create_logical_device_ok h6
  obtain ⟨sc, e7⟩ := init_create_swapchain_ok h7
  obtain ⟨-, -, -, -, -, e8⟩ := @init_swapchain_images_ok p vk7 vk' (by
    subst e7 e6
    have e1 := init_create_window_ok h1
    have e2 := init_enabled_layers_ok h2
    have e3 := init_create_instance_and_surface_ok h3
    obtain ⟨-, -, e4⟩ := init_pick_physical_device_ok h4
    obtain ⟨-, -, e5⟩ := init_pick_queue_family_ok h5
    subst e1 e2 e3 e4 e5
    rfl) h8
  have r3 : p.vkCreateInstance.1 = VK_SUCCESS ∧ p.vkCreateDebugUtilsMessengerEXT = VK_SUCCESS ∧
      p.vkCreateWin32SurfaceKHR.1 = VK_SUCCESS := by
    simp only [init_create_instance_and_surface] at h3
    split_ifs at h3 with a b c
    exact ⟨by simpa using a, by simpa using b, by simpa using c⟩
  have r6 : p.vkCreateDevice.1 = VK_SUCCESS := by
    simp only [init_create_logical_device] at h6
    split_ifs at h6 with a b
    simpa using a
  refine ⟨r3.1, r3.2.1, r3.2.2, r6, ?_⟩
  simp only [init_create_swapchain] at h7
  split_ifs at h7 with a
  injection h7 with h7
  subst e8
  subst h7
  exact ⟨_, by simpa using a, rfl⟩

/-- If in every step a failing checked call is the last call of the step and
makes the step fail, then in the run a failing checked call is the last call
and the run fails. -/
theorem runSteps_checked (steps : List Step)
    (h : ∀ s ∈ steps, ∀ c ∈ s.calls, ∀ r, checkedResult c = some r → r ≠ VK_SUCCESS →
      s.failure ≠ none ∧ s.calls.getLast? = some c) :
    ∀ c ∈ (runSteps steps).1, ∀ r, checkedResult c = some r → r ≠ VK_SUCCESS →
      (runSteps steps).2 ≠ none ∧ (runSteps steps).1.getLast? = some c := by
  induction steps with
  | nil => simp [runSteps]
  | cons s rest ih =>
    intro c hc r hr hne
    have hs := h s (List.mem_cons_self _ _)
    have ih' := ih (fun t ht => h t (List.mem_cons_of_mem _ ht))
    simp only [runSteps] at hc ⊢
    cases hf : s.failure with
    | some e =>
      simp only [hf] at hc ⊢
      exact ⟨by simp, (hs c hc r hr hne).2⟩
    | none =>
      simp only [hf] at hc ⊢
      rcases List.mem_append.mp hc with hc | hc
      · exact absurd hf (hs c hc r hr hne).1
      · obtain ⟨i1, i2⟩ := ih' c hc r hr hne
        refine ⟨i1, ?_⟩
        rw [List.getLast?_append, i2]
        rfl

theorem startup_steps_checked (p : Platform) (sp : StartupPlatform) (vk : VulkanContext) :
    ∀ s ∈ WinMain_startup_steps p sp vk, ∀ c ∈ s.calls, ∀ r, checkedResult c = some r →
      r ≠ VK_SUCCESS → s.failure ≠ none ∧ s.calls.getLast? = some c := by
  simp only [WinMain_startup_steps, create_render_pass, create_framebuffers,
    create_semaphores, create_command_pool_and_buffer, create_shader_modules,
    load_entire_file, vk_create_shader_module, create_descriptor_set_layout,
    create_descriptor_pool, allocate_descriptor_set, create_texture_staging,
    vk_create_buffer, create_texture_image, upload_texture, vk_begin_single_time_commands,
    vk_end_single_time_commands, texture_commands, create_texture_view_and_sampler,
    vk_create_image_view_step, create_uniform_buffer, update_descriptor_set,
    create_vertex_staging, create_vertex_buffer, upload_vertices, vertex_commands,
    create_pipeline_layout, create_graphics_pipeline, create_frame_fence,
    List.range_succ, List.range_zero, List.map_append, List.map_cons, List.map_nil,
    List.append_nil, List.cons_append, List.nil_append, List.forall_mem_cons,
    List.forall_mem_append]
  repeat' apply And.intro
  all_goals
    first
    | (intro x hx
       cases hx
       done)
    | (intro r hr hne
       injection hr with hr
       subst hr
       exact ⟨by simp [hne], rfl⟩)

/-- C13, the code evaluated where it departs from the claim: on
`ignoredFailuresStartup` the submission and the wait for idle of both one-shot
command buffers return `VK_ERROR_DEVICE_LOST`; the start-up goes on, makes
every call it makes on `goodStartup`, frees the command buffers, destroys the
staging buffers and reaches the main loop.  In the loop, a presentation that
returns `VK_ERROR_DEVICE_LOST` is followed by a second, complete iteration. -/
theorem failing_results_without_termination :
    (WinMain_startup goodPlatform ignoredFailuresStartup goodContext).2 = none ∧
    ((WinMain_startup goodPlatform ignoredFailuresStartup goodContext).1.filterMap
        ignoredResult).count VK_ERROR_DEVICE_LOST = 4 ∧
    (WinMain_startup goodPlatform ignoredFailuresStartup goodContext).1.get? 33 =
      some (StartupCall.QueueSubmit 5 [⟨[], [], [74], []⟩] 0 VK_ERROR_DEVICE_LOST) ∧
    (WinMain_startup goodPlatform ignoredFailuresStartup goodContext).1.get? 34 =
      some (StartupCall.QueueWaitIdle 5 VK_ERROR_DEVICE_LOST) ∧
    (WinMain_startup goodPlatform ignoredFailuresStartup goodContext).1.get? 35 =
      some (StartupCall.FreeCommandBuffers 4 60 [74]) ∧
    (WinMain_startup goodPlatform ignoredFailuresStartup goodContext).1.getLast? =
      some (StartupCall.CreateFence 4 0 VK_SUCCESS 45) ∧
    (WinMain_startup goodPlatform ignoredFailuresStartup goodContext).1.length =
      (WinMain_startup goodPlatform goodStartup goodContext).1.length ∧
    ((WinMain_main_loop exampleObjects
        [⟨VK_SUCCESS, some 0, [], VK_SUCCESS, VK_ERROR_DEVICE_LOST⟩,
         ⟨VK_SUCCESS, some 1, [], VK_SUCCESS, VK_SUCCESS⟩]).1.map fun frame => frame.outcome) =
      [.completed, .completed] := by
  exact ⟨rfl, by decide, rfl, rfl, rfl, rfl, rfl, rfl⟩

/-- The result codes the program compares with `VK_SUCCESS` are those of the
creation of the instance, the debug messenger, the surface, the device and the
swapchain in `win32_init_vulkan`; of the creation of the render pass, the
framebuffers, the command pool, the shader modules, the descriptor-set layout,
the descriptor pool, the buffers, the texture image, the sampler, the pipeline
layout and the graphics pipeline and of the allocation of the descriptor set
and of buffer and image memory during the start-up; and of the queue
submission of the frame loop.  A failing result of one of these ends the
process in an assertion: `win32_init_vulkan` returns only if its five results
are `VK_SUCCESS`; in the start-up a failing checked call is the last call made;
a frame whose submission fails is the last frame.  The start-up reaches the
main loop exactly when its checked results are `VK_SUCCESS`, both files load, a
memory type is found for every allocation, the texture image view is not null
and the three mappings and the two allocations of one-shot command buffers,
whose outputs are used unchecked, succeed; the results of the other calls do
not matter.  The results of the acquisition and of the presentation are
compared with the out-of-date code only, and no result of either changes the
iteration. -/
theorem checked_results_terminate (p : Platform) (sp : StartupPlatform) (vk : VulkanContext)
    (o : FrameObjects) :
    (∀ vk', win32_init_vulkan p = .ok vk' →
      p.vkCreateInstance.1 = VK_SUCCESS ∧ p.vkCreateDebugUtilsMessengerEXT = VK_SUCCESS ∧
      p.vkCreateWin32SurfaceKHR.1 = VK_SUCCESS ∧ p.vkCreateDevice.1 = VK_SUCCESS ∧
      ∃ info, (p.vkCreateSwapchainKHR vk'.device info).1 = VK_SUCCESS ∧
        vk'.swapchain = (p.vkCreateSwapchainKHR vk'.device info).2) ∧
    (∀ c ∈ (WinMain_startup p sp vk).1, ∀ r, checkedResult c = some r → r ≠ VK_SUCCESS →
      (WinMain_startup p sp vk).2 ≠ none ∧ (WinMain_startup p sp vk).1.getLast? = some c) ∧
    ((WinMain_startup p sp vk).2 = none ↔
      StartupChecksPass p sp vk ∧ StartupOutputsWritten sp) ∧
    (∀ (inp : FrameInput) (rest : List FrameInput),
      imageIndexAfterAcquire inp < 2 → inp.submitResult ≠ VK_SUCCESS →
      (main_loop_iteration o inp true).1.outcome = .assertFailed .queueSubmit ∧
      (main_loop_iteration o inp true).1.events.getLast? = (submitCalls o).head? ∧
      main_loop o (inp :: rest) true = ([(main_loop_iteration o inp true).1], .stopped)) ∧
    (∀ (inp : FrameInput) (r : Bool) (res : VkResult),
      main_loop_iteration o { inp with acquireResult := res } r = main_loop_iteration o inp r ∧
      main_loop_iteration o { inp with presentResult := res } r =
        main_loop_iteration o inp r) := by
  refine ⟨fun vk' h => win32_init_vulkan_results h,
    runSteps_checked _ (startup_steps_checked p sp vk),
    startup_runs_iff_checks_pass p sp vk, ?_, ?_⟩
  · intro inp rest hidx hsub
    have hne : imageIndexAfterAcquire inp ≠ UINT32_MAX := by
      intro h
      rw [h] at hidx
      simp [UINT32_MAX] at hidx
    have hit : main_loop_iteration o inp true =
        (⟨waitFenceCalls o ++ acquireCalls o ++ (message_pump inp.messages true).1 ++
            resetBeginCalls o ++
            renderCalls o (o.swapchainFramebuffers ⟨imageIndexAfterAcquire inp, hidx⟩) ++
            submitCalls o, .assertFailed .queueSubmit⟩,
          (message_pump inp.messages true).2) := by
      simp [main_loop_iteration, hne, hidx, hsub, outOfDateBody]
    refine ⟨by rw [hit], ?_, ?_⟩
    · rw [hit]
      simp [submitCalls]
    · simp only [main_loop, if_true]
      rw [if_neg]
      rw [hit]
      exact fun h => by cases h
  · intro inp r res
    constructor <;> simp [main_loop_iteration, outOfDateBody, imageIndexAfterAcquire]

/-- Concrete instances of the checked results: `win32_init_vulkan` returns on
`goodPlatform`, whose instance creation succeeds; a start-up whose sampler
creation fails ends in the sampler assertion with that call as its last; a
frame whose submission fails is the last frame of the run. -/
theorem checked_results_terminate_witness :
    win32_init_vulkan goodPlatform = .ok goodContext ∧
    goodPlatform.vkCreateInstance.1 = VK_SUCCESS ∧
    (WinMain_startup goodPlatform { goodStartup with vkCreateSampler := (VK_ERROR_DEVICE_LOST, 0) }
      goodContext).2 = some .createSampler ∧
    (WinMain_startup goodPlatform { goodStartup with vkCreateSampler := (VK_ERROR_DEVICE_LOST, 0) }
      goodContext).1.getLast? =
        some (StartupCall.CreateSampler 4 samplerInfo VK_ERROR_DEVICE_LOST 0) ∧
    main_loop exampleObjects
        [⟨VK_SUCCESS, some 0, [], VK_ERROR_DEVICE_LOST, VK_SUCCESS⟩,
         ⟨VK_SUCCESS, some 1, [], VK_SUCCESS, VK_SUCCESS⟩] true =
      ([(main_loop_iteration exampleObjects
          ⟨VK_SUCCESS, some 0, [], VK_ERROR_DEVICE_LOST, VK_SUCCESS⟩ true).1], .stopped) :=
  ⟨rfl,
    ((checked_results_terminate goodPlatform goodStartup goodContext exampleObjects).1
      goodContext rfl).1,
    rfl,
    ((checked_results_terminate goodPlatform
      { goodStartup with vkCreateSampler := (VK_ERROR_DEVICE_LOST, 0) } goodContext
      exampleObjects).2.1
      (StartupCall.CreateSampler 4 samplerInfo VK_ERROR_DEVICE_LOST 0)
      (List.getElem?_mem (n := 39) rfl)
      VK_ERROR_DEVICE_LOST rfl (by decide)).2,
    ((checked_results_terminate goodPlatform goodStartup goodContext exampleObjects).2.2.2.1
      ⟨VK_SUCCESS, some 0, [], VK_ERROR_DEVICE_LOST, VK_SUCCESS⟩
      [⟨VK_SUCCESS, some 1, [], VK_SUCCESS, VK_SUCCESS⟩] (by decide) (by decide)).2.2⟩

/-! ### Allocations, layouts and the order of the uploads -/

/-- A memory type index that passed the assertion of `vk_find_memory_type` is
below the count and passes both tests of the loop. -/
theorem memoryTypeIndexOf_matches (memProperties : VkPhysicalDeviceMemoryProperties)
    (typeFilter memPropFlags : Nat) (hcount : memProperties.memoryTypeCount ≤ 32)
    (h : memoryTypeIndexOf memProperties typeFilter memPropFlags ≠ UINT32_MAX) :
    memoryTypeIndexOf memProperties typeFilter memPropFlags < memProperties.memoryTypeCount ∧
    MemoryTypeMatches memProperties typeFilter memPropFlags
      (memoryTypeIndexOf memProperties typeFilter memPropFlags) := by
  rcases vk_find_memory_type_loop_spec memProperties typeFilter memPropFlags
    memProperties.memoryTypeCount 0 (by omega) with ⟨h1, _⟩ | ⟨_, h2, h3, _⟩
  · exact absurd h1 h
  · exact ⟨by simpa [memoryTypeIndexOf] using h2, h3⟩

theorem allocations_of_all_calls (p : Platform) (sp : StartupPlatform) (vk : VulkanContext) :
    (callsOf (WinMain_startup_steps p sp vk)).filterMap allocationOf =
      [⟨sp.texStagingBuffer.memRequirements.size,
          memoryTypeIndexOf sp.memoryProperties sp.texStagingBuffer.memRequirements.memoryTypeBits
            (VK_MEMORY_PROPERTY_HOST_VISIBLE_BIT ||| VK_MEMORY_PROPERTY_HOST_COHERENT_BIT)⟩,
       ⟨sp.imageMemoryRequirements.size,
          memoryTypeIndexOf sp.memoryProperties sp.imageMemoryRequirements.memoryTypeBits
            VK_MEMORY_PROPERTY_DEVICE_LOCAL_BIT⟩,
       ⟨sp.uniformBuffer.memRequirements.size,
          memoryTypeIndexOf sp.memoryProperties sp.uniformBuffer.memRequirements.memoryTypeBits
            (VK_MEMORY_PROPERTY_HOST_VISIBLE_BIT ||| VK_MEMORY_PROPERTY_HOST_COHERENT_BIT)⟩,
       ⟨sp.vertStagingBuffer.memRequirements.size,
          memoryTypeIndexOf sp.memoryProperties
            sp.vertStagingBuffer.memRequirements.memoryTypeBits
            (VK_MEMORY_PROPERTY_HOST_VISIBLE_BIT ||| VK_MEMORY_PROPERTY_HOST_COHERENT_BIT)⟩,
       ⟨sp.vertexBuffer.memRequirements.size,
          memoryTypeIndexOf sp.memoryProperties sp.vertexBuffer.memRequirements.memoryTypeBits
            VK_MEMORY_PROPERTY_DEVICE_LOCAL_BIT⟩] := by
  simp only [WinMain_startup_steps, callsOf, create_render_pass, create_framebuffers,
    create_semaphores, create_command_pool_and_buffer, create_shader_modules,
    load_entire_file, vk_create_shader_module, create_descriptor_set_layout,
    create_descriptor_pool, allocate_descriptor_set, create_texture_staging,
    vk_create_buffer, create_texture_image, upload_texture, vk_begin_single_time_commands,
    vk_end_single_time_commands, texture_commands, create_texture_view_and_sampler,
    vk_create_image_view_step, create_uniform_buffer, update_descriptor_set,
    create_vertex_staging, create_vertex_buffer, upload_vertices, vertex_commands,
    create_pipeline_layout, create_graphics_pipeline, create_frame_fence,
    List.range_succ, List.range_zero, List.map_append, List.map_cons, List.map_nil,
    List.flatten_append, List.flatten_cons, List.flatten_nil, List.append_nil,
    List.cons_append, List.nil_append]
  simp [allocationOf]

/-- C14: with at most 32 memory types, every call of `vk_create_buffer` that
returns, and the allocation for the texture image when its four steps pass,
hands `vkAllocateMemory` a memory type index that is below the count, whose bit
is set in the reported `memoryTypeBits` and whose property flags contain every
requested flag, together with an allocation size equal to the reported
requirement size, hence at least the requested size whenever the reported size
is.  A start-up that reaches the main loop makes exactly five allocations:
texture staging, texture image, uniform buffer, vertex staging and vertex
buffer, each of this form. -/
theorem allocations_satisfy_requirements (sp : StartupPlatform)
    (hcount : sp.memoryProperties.memoryTypeCount ≤ 32) :
    (∀ (a : BufferAnswers) (vk : VulkanContext) (size usage properties : Nat),
      (runSteps (vk_create_buffer sp.memoryProperties a vk size usage properties)).2 = none →
      ∃ info : VkMemoryAllocateInfo,
        (runSteps (vk_create_buffer sp.memoryProperties a vk size usage properties)).1 =
          [.CreateBuffer vk.device ⟨size, usage, VK_SHARING_MODE_EXCLUSIVE⟩ VK_SUCCESS a.buffer,
           .GetBufferMemoryRequirements vk.device a.buffer a.memRequirements,
           .GetPhysicalDeviceMemoryProperties vk.physicalDevice,
           .AllocateMemory vk.device info VK_SUCCESS a.memory,
           .BindBufferMemory vk.device a.buffer a.memory 0 a.bindResult] ∧
        info.memoryTypeIndex < sp.memoryProperties.memoryTypeCount ∧
        MemoryTypeMatches sp.memoryProperties a.memRequirements.memoryTypeBits properties
          info.memoryTypeIndex ∧
        info.allocationSize = a.memRequirements.size ∧
        (size ≤ a.memRequirements.size → size ≤ info.allocationSize)) ∧
    (∀ vk : VulkanContext, (runSteps (create_texture_image sp vk)).2 = none →
      ∃ info : VkMemoryAllocateInfo,
        (runSteps (create_texture_image sp vk)).1 =
          [.CreateImage vk.device imageInfo VK_SUCCESS sp.vkCreateImage.2,
           .GetImageMemoryRequirements vk.device sp.vkCreateImage.2 sp.imageMemoryRequirements,
           .GetPhysicalDeviceMemoryProperties vk.physicalDevice,
           .AllocateMemory vk.device info VK_SUCCESS sp.vkAllocateImageMemory.2,
           .BindImageMemory vk.device sp.vkCreateImage.2 sp.vkAllocateImageMemory.2 0
             sp.vkBindImageMemory] ∧
        info.memoryTypeIndex < sp.memoryProperties.memoryTypeCount ∧
        MemoryTypeMatches sp.memoryProperties sp.imageMemoryRequirements.memoryTypeBits
          VK_MEMORY_PROPERTY_DEVICE_LOCAL_BIT info.memoryTypeIndex ∧
        info.allocationSize = sp.imageMemoryRequirements.size) ∧
    (∀ (p : Platform) (vk : VulkanContext), (WinMain_startup p sp vk).2 = none →
      (WinMain_startup p sp vk).1.filterMap allocationOf =
        [⟨sp.texStagingBuffer.memRequirements.size,
            memoryTypeIndexOf sp.memoryProperties
              sp.texStagingBuffer.memRequirements.memoryTypeBits
              (VK_MEMORY_PROPERTY_HOST_VISIBLE_BIT ||| VK_MEMORY_PROPERTY_HOST_COHERENT_BIT)⟩,
         ⟨sp.imageMemoryRequirements.size,
            memoryTypeIndexOf sp.memoryProperties sp.imageMemoryRequirements.memoryTypeBits
              VK_MEMORY_PROPERTY_DEVICE_LOCAL_BIT⟩,
         ⟨sp.uniformBuffer.memRequirements.size,
            memoryTypeIndexOf sp.memoryProperties sp.uniformBuffer.memRequirements.memoryTypeBits
              (VK_MEMORY_PROPERTY_HOST_VISIBLE_BIT ||| VK_MEMORY_PROPERTY_HOST_COHERENT_BIT)⟩,
         ⟨sp.vertStagingBuffer.memRequirements.size,
            memoryTypeIndexOf sp.memoryProperties
              sp.vertStagingBuffer.memRequirements.memoryTypeBits
              (VK_MEMORY_PROPERTY_HOST_VISIBLE_BIT ||| VK_MEMORY_PROPERTY_HOST_COHERENT_BIT)⟩,
         ⟨sp.vertexBuffer.memRequirements.size,
            memoryTypeIndexOf sp.memoryProperties sp.vertexBuffer.memRequirements.memoryTypeBits
              VK_MEMORY_PROPERTY_DEVICE_LOCAL_BIT⟩]) := by
  refine ⟨?_, ?_, ?_⟩
  · intro a vk size usage properties hrun
    have hsteps := (runSteps_none _ hrun).1
    obtain ⟨c1, c2, c3⟩ := (vk_create_buffer_none _ a vk size usage properties).mp
      (runSteps_none _ hrun).2
    obtain ⟨m1, m2⟩ := memoryTypeIndexOf_matches _ _ _ hcount c2
    refine ⟨⟨a.memRequirements.size,
      memoryTypeIndexOf sp.memoryProperties a.memRequirements.memoryTypeBits properties⟩,
      ?_, m1, m2, rfl, fun h => h⟩
    rw [hsteps]
    simp [callsOf, vk_create_buffer, c1, c3]
  · intro vk hrun
    have hsteps := (runSteps_none _ hrun).1
    have hnone := (runSteps_none _ hrun).2
    simp [create_texture_image, memoryTypeFailure_eq_none] at hnone
    obtain ⟨c1', c2, c3'⟩ := hnone
    obtain ⟨m1, m2⟩ := memoryTypeIndexOf_matches _ _ _ hcount c2
    refine ⟨⟨sp.imageMemoryRequirements.size,
      memoryTypeIndexOf sp.memoryProperties sp.imageMemoryRequirements.memoryTypeBits
        VK_MEMORY_PROPERTY_DEVICE_LOCAL_BIT⟩, ?_, m1, m2, rfl⟩
    rw [hsteps]
    simp [callsOf, create_texture_image, c1', c3']
  · intro p vk hrun
    rw [startup_trace_of_success hrun]
    exact allocations_of_all_calls p sp vk

/-- C14, a concrete instance: the five allocations of the start-up on
`goodStartup`, host-visible and host-coherent type `1` for the staging and
uniform buffers, device-local type `0` for the image and the vertex buffer. -/
theorem allocations_satisfy_requirements_witness :
    goodStartup.memoryProperties.memoryTypeCount ≤ 32 ∧
    (WinMain_startup goodPlatform goodStartup goodContext).2 = none ∧
    (WinMain_startup goodPlatform goodStartup goodContext).1.filterMap allocationOf =
      [⟨16, 1⟩, ⟨16, 0⟩, ⟨64, 1⟩, ⟨96, 1⟩, ⟨96, 0⟩] :=
  ⟨by decide, rfl,
    (allocations_satisfy_requirements goodStartup (by decide)).2.2 goodPlatform goodContext rfl⟩

theorem within_second {α : Type} (a c d e : List α) {b b' : List α} (h : b' = b) :
    b <:+: a ++ b' ++ c ++ d ++ e :=
  ⟨a, c ++ d ++ e, by simp [h]⟩

theorem within_fourth {α : Type} (a b c e : List α) {d d' : List α} (h : d' = d) :
    d <:+: a ++ b ++ c ++ d' ++ e :=
  ⟨a ++ b ++ c, e, by simp [h]⟩

/-- C16: both start-up uploads follow the staging order.  With at most 32
memory types, a start-up that reaches the main loop contains, as one unbroken
stretch of calls each, the texture upload and the vertex upload: the staging
buffer is created with the byte size of the source array (16 and 96) and usage
transfer-source, its memory is of a type that is host-visible and
host-coherent, it is mapped, filled with the whole array and unmapped; then the
destination is created (the image with usage transfer-destination and sampled,
the vertex buffer with usage vertex-buffer and transfer-destination) in memory
of a device-local type; then a one-shot command buffer is allocated, begun,
has the copy recorded, is ended and submitted; then `vkQueueWaitIdle` is
called; and only after it the command buffer is freed, the staging buffer
destroyed and its memory freed. -/
theorem uploads_follow_staging_order (p : Platform) (sp : StartupPlatform)
    (vk : VulkanContext) (hcount : sp.memoryProperties.memoryTypeCount ≤ 32)
    (hrun : (WinMain_startup p sp vk).2 = none) :
    ([StartupCall.CreateBuffer vk.device ⟨texDataBytes.length, VK_BUFFER_USAGE_TRANSFER_SRC_BIT,
            VK_SHARING_MODE_EXCLUSIVE⟩ sp.texStagingBuffer.createResult
            sp.texStagingBuffer.buffer,
         .GetBufferMemoryRequirements vk.device sp.texStagingBuffer.buffer
            sp.texStagingBuffer.memRequirements,
         .GetPhysicalDeviceMemoryProperties vk.physicalDevice,
         .AllocateMemory vk.device
            ⟨sp.texStagingBuffer.memRequirements.size,
              memoryTypeIndexOf sp.memoryProperties
                sp.texStagingBuffer.memRequirements.memoryTypeBits
                (VK_MEMORY_PROPERTY_HOST_VISIBLE_BIT ||| VK_MEMORY_PROPERTY_HOST_COHERENT_BIT)⟩
            sp.texStagingBuffer.allocateResult sp.texStagingBuffer.memory,
         .BindBufferMemory vk.device sp.texStagingBuffer.buffer sp.texStagingBuffer.memory 0
            sp.texStagingBuffer.bindResult,
         .MapMemory vk.device sp.texStagingBuffer.memory 0 texDataBytes.length 0
            (sp.vkMapMemory 0),
         .Memcpy texDataBytes,
         .UnmapMemory vk.device sp.texStagingBuffer.memory,
         .CreateImage vk.device
            ⟨0, VK_IMAGE_TYPE_2D, VK_FORMAT_R8G8B8A8_SRGB, ⟨2, 2, 1⟩, 1, 1, VK_SAMPLE_COUNT_1_BIT,
              VK_IMAGE_TILING_OPTIMAL,
              VK_IMAGE_USAGE_TRANSFER_DST_BIT ||| VK_IMAGE_USAGE_SAMPLED_BIT,
              VK_SHARING_MODE_EXCLUSIVE, VK_IMAGE_LAYOUT_UNDEFINED⟩
            sp.vkCreateImage.1 sp.vkCreateImage.2,
         .GetImageMemoryRequirements vk.device sp.vkCreateImage.2 sp.imageMemoryRequirements,
         .GetPhysicalDeviceMemoryProperties vk.physicalDevice,
         .AllocateMemory vk.device
            ⟨sp.imageMemoryRequirements.size,
              memoryTypeIndexOf sp.memoryProperties sp.imageMemoryRequirements.memoryTypeBits
                VK_MEMORY_PROPERTY_DEVICE_LOCAL_BIT⟩
            sp.vkAllocateImageMemory.1 sp.vkAllocateImageMemory.2,
         .BindImageMemory vk.device sp.vkCreateImage.2 sp.vkAllocateImageMemory.2 0
            sp.vkBindImageMemory,
         .AllocateCommandBuffers vk.device
            ⟨sp.vkCreateCommandPool.2, VK_COMMAND_BUFFER_LEVEL_PRIMARY, 1⟩
            sp.texUpload.allocateResult sp.texUpload.commandBuffer,
         .BeginCommandBuffer sp.texUpload.commandBuffer
            VK_COMMAND_BUFFER_USAGE_ONE_TIME_SUBMIT_BIT sp.texUpload.beginResult,
         .CmdPipelineBarrier sp.texUpload.commandBuffer VK_PIPELINE_STAGE_TOP_OF_PIPE_BIT
            VK_PIPELINE_STAGE_TRANSFER_BIT 0
            [⟨0, VK_ACCESS_TRANSFER_WRITE_BIT, VK_IMAGE_LAYOUT_UNDEFINED,
              VK_IMAGE_LAYOUT_TRANSFER_DST_OPTIMAL, VK_QUEUE_FAMILY_IGNORED,
              VK_QUEUE_FAMILY_IGNORED, sp.vkCreateImage.2, ⟨VK_IMAGE_ASPECT_COLOR_BIT, 0, 1, 0, 1⟩⟩],
         .CmdCopyBufferToImage sp.texUpload.commandBuffer sp.texStagingBuffer.buffer
            sp.vkCreateImage.2 VK_IMAGE_LAYOUT_TRANSFER_DST_OPTIMAL
            [⟨0, 0, 0, ⟨VK_IMAGE_ASPECT_COLOR_BIT, 0, 0, 1⟩, ⟨0, 0, 0⟩, ⟨2, 2, 1⟩⟩],
         .CmdPipelineBarrier sp.texUpload.commandBuffer VK_PIPELINE_STAGE_TRANSFER_BIT
            VK_PIPELINE_STAGE_FRAGMENT_SHADER_BIT 0
            [⟨VK_ACCESS_TRANSFER_WRITE_BIT, VK_ACCESS_SHADER_READ_BIT,
              VK_IMAGE_LAYOUT_TRANSFER_DST_OPTIMAL, VK_IMAGE_LAYOUT_SHADER_READ_ONLY_OPTIMAL,
              VK_QUEUE_FAMILY_IGNORED, VK_QUEUE_FAMILY_IGNORED, sp.vkCreateImage.2,
              ⟨VK_IMAGE_ASPECT_COLOR_BIT, 0, 1, 0, 1⟩⟩],
         .EndCommandBuffer sp.texUpload.commandBuffer sp.texUpload.endResult,
         .QueueSubmit vk.graphicsAndPresentQueue
            [⟨[], [], [sp.texUpload.commandBuffer], []⟩] 0 sp.texUpload.submitResult,
         .QueueWaitIdle vk.graphicsAndPresentQueue sp.texUpload.waitIdleResult,
         .FreeCommandBuffers vk.device sp.vkCreateCommandPool.2 [sp.texUpload.commandBuffer],
         .DestroyBuffer vk.device sp.texStagingBuffer.buffer,
         .FreeMemory vk.device sp.texStagingBuffer.memory] <:+: (WinMain_startup p sp vk).1) ∧
    ([StartupCall.CreateBuffer vk.device ⟨verticesBytes.length, VK_BUFFER_USAGE_TRANSFER_SRC_BIT,
            VK_SHARING_MODE_EXCLUSIVE⟩ sp.vertStagingBuffer.createResult
            sp.vertStagingBuffer.buffer,
         .GetBufferMemoryRequirements vk.device sp.vertStagingBuffer.buffer
            sp.vertStagingBuffer.memRequirements,
         .GetPhysicalDeviceMemoryProperties vk.physicalDevice,
         .AllocateMemory vk.device
            ⟨sp.vertStagingBuffer.memRequirements.size,
              memoryTypeIndexOf sp.memoryProperties
                sp.vertStagingBuffer.memRequirements.memoryTypeBits
                (VK_MEMORY_PROPERTY_HOST_VISIBLE_BIT ||| VK_MEMORY_PROPERTY_HOST_COHERENT_BIT)⟩
            sp.vertStagingBuffer.allocateResult sp.vertStagingBuffer.memory,
         .BindBufferMemory vk.device sp.vertStagingBuffer.buffer sp.vertStagingBuffer.memory 0
            sp.vertStagingBuffer.bindResult,
         .MapMemory vk.device sp.vertStagingBuffer.memory 0 verticesBytes.length 0
            (sp.vkMapMemory 2),
         .Memcpy verticesBytes,
         .UnmapMemory vk.device sp.vertStagingBuffer.memory,
         .CreateBuffer vk.device
            ⟨verticesBytes.length,
              VK_BUFFER_USAGE_VERTEX_BUFFER_BIT ||| VK_BUFFER_USAGE_TRANSFER_DST_BIT,
              VK_SHARING_MODE_EXCLUSIVE⟩ sp.vertexBuffer.createResult sp.vertexBuffer.buffer,
         .GetBufferMemoryRequirements vk.device sp.vertexBuffer.buffer
            sp.vertexBuffer.memRequirements,
         .GetPhysicalDeviceMemoryProperties vk.physicalDevice,
         .AllocateMemory vk.device
            ⟨sp.vertexBuffer.memRequirements.size,
              memoryTypeIndexOf sp.memoryProperties sp.vertexBuffer.memRequirements.memoryTypeBits
                VK_MEMORY_PROPERTY_DEVICE_LOCAL_BIT⟩
            sp.vertexBuffer.allocateResult sp.vertexBuffer.memory,
         .BindBufferMemory vk.device sp.vertexBuffer.buffer sp.vertexBuffer.memory 0
            sp.vertexBuffer.bindResult,
         .AllocateCommandBuffers vk.device
            ⟨sp.vkCreateCommandPool.2, VK_COMMAND_BUFFER_LEVEL_PRIMARY, 1⟩
            sp.vertUpload.allocateResult sp.vertUpload.commandBuffer,
         .BeginCommandBuffer sp.vertUpload.commandBuffer
            VK_COMMAND_BUFFER_USAGE_ONE_TIME_SUBMIT_BIT sp.vertUpload.beginResult,
         .CmdCopyBuffer sp.vertUpload.commandBuffer sp.vertStagingBuffer.buffer
            sp.vertexBuffer.buffer [⟨0, 0, verticesBytes.length⟩],
         .EndCommandBuffer sp.vertUpload.commandBuffer sp.vertUpload.endResult,
         .QueueSubmit vk.graphicsAndPresentQueue
            [⟨[], [], [sp.vertUpload.commandBuffer], []⟩] 0 sp.vertUpload.submitResult,
         .QueueWaitIdle vk.graphicsAndPresentQueue sp.vertUpload.waitIdleResult,
         .FreeCommandBuffers vk.device sp.vkCreateCommandPool.2 [sp.vertUpload.commandBuffer],
         .DestroyBuffer vk.device sp.vertStagingBuffer.buffer,
         .FreeMemory vk.device sp.vertStagingBuffer.memory] <:+: (WinMain_startup p sp vk).1) ∧
    texDataBytes.length = 16 ∧ verticesBytes.length = 96 ∧
    MemoryTypeMatches sp.memoryProperties sp.texStagingBuffer.memRequirements.memoryTypeBits
      (VK_MEMORY_PROPERTY_HOST_VISIBLE_BIT ||| VK_MEMORY_PROPERTY_HOST_COHERENT_BIT)
      (memoryTypeIndexOf sp.memoryProperties sp.texStagingBuffer.memRequirements.memoryTypeBits
        (VK_MEMORY_PROPERTY_HOST_VISIBLE_BIT ||| VK_MEMORY_PROPERTY_HOST_COHERENT_BIT)) ∧
    MemoryTypeMatches sp.memoryProperties sp.imageMemoryRequirements.memoryTypeBits
      VK_MEMORY_PROPERTY_DEVICE_LOCAL_BIT
      (memoryTypeIndexOf sp.memoryProperties sp.imageMemoryRequirements.memoryTypeBits
        VK_MEMORY_PROPERTY_DEVICE_LOCAL_BIT) ∧
    MemoryTypeMatches sp.memoryProperties sp.vertStagingBuffer.memRequirements.memoryTypeBits
      (VK_MEMORY_PROPERTY_HOST_VISIBLE_BIT ||| VK_MEMORY_PROPERTY_HOST_COHERENT_BIT)
      (memoryTypeIndexOf sp.memoryProperties sp.vertStagingBuffer.memRequirements.memoryTypeBits
        (VK_MEMORY_PROPERTY_HOST_VISIBLE_BIT ||| VK_MEMORY_PROPERTY_HOST_COHERENT_BIT)) ∧
    MemoryTypeMatches sp.memoryProperties sp.vertexBuffer.memRequirements.memoryTypeBits
      VK_MEMORY_PROPERTY_DEVICE_LOCAL_BIT
      (memoryTypeIndexOf sp.memoryProperties sp.vertexBuffer.memRequirements.memoryTypeBits
        VK_MEMORY_PROPERTY_DEVICE_LOCAL_BIT) := by
  have hchecks := ((startup_runs_iff_checks_pass p sp vk).mp hrun).1
  obtain ⟨-, -, -, -, -, -, -, -, -, -, -, ⟨-, c1, -⟩, -, c2, -, -, -, -, ⟨-, c3, -⟩,
    ⟨-, c4, -⟩, -, -⟩ := hchecks
  have ht : texDataBytes.length = texDataSize := by decide
  have hv : verticesBytes.length = vertBufferSize := by decide
  rw [startup_trace_of_success hrun, startup_calls_split, ht, hv]
  refine ⟨within_second _ _ _ _ ?_, within_fourth _ _ _ _ ?_, by decide, by decide,
    (memoryTypeIndexOf_matches _ _ _ hcount c1).2, (memoryTypeIndexOf_matches _ _ _ hcount c2).2,
    (memoryTypeIndexOf_matches _ _ _ hcount c3).2, (memoryTypeIndexOf_matches _ _ _ hcount c4).2⟩
  · simp [callsOf, create_texture_staging, create_texture_image, upload_texture,
      vk_create_buffer, vk_begin_single_time_commands, vk_end_single_time_commands,
      texture_commands, texDataBytes_take, imageInfo, imageExtent, subResRange,
      contextWithPool]
  · simp [callsOf, create_vertex_staging, create_vertex_buffer, upload_vertices,
      vk_create_buffer, vk_begin_single_time_commands, vk_end_single_time_commands,
      vertex_commands, verticesBytes_take, contextWithPool]

/-- C16, a concrete instance: on `goodStartup` the memory type of the texture
staging buffer and that of the texture image pass both tests. -/
theorem uploads_follow_staging_order_witness :
    goodStartup.memoryProperties.memoryTypeCount ≤ 32 ∧
    (WinMain_startup goodPlatform goodStartup goodContext).2 = none ∧
    MemoryTypeMatches goodStartup.memoryProperties 3 6 1 ∧
    MemoryTypeMatches goodStartup.memoryProperties 1 1 0 :=
  ⟨by decide, rfl,
    (uploads_follow_staging_order goodPlatform goodStartup goodContext (by decide) rfl).2.2.2.2.1,
    (uploads_follow_staging_order goodPlatform goodStartup goodContext (by decide)
      rfl).2.2.2.2.2.1⟩

theorem drop_take_within {α : Type} (l : List α) (n m : Nat) : (l.drop n).take m <:+: l :=
  List.IsInfix.trans (List.IsPrefix.isInfix (List.take_prefix m (l.drop n)))
    (List.IsSuffix.isInfix (List.drop_suffix n l))

theorem image_commands_of_all_calls (p : Platform) (sp : StartupPlatform) (vk : VulkanContext) :
    (callsOf (WinMain_startup_steps p sp vk)).filter (commandOnImage sp.vkCreateImage.2) =
      texture_commands sp sp.texUpload.commandBuffer ∧
    imageLayouts sp.vkCreateImage.2 (callsOf (WinMain_startup_steps p sp vk)) =
      [VK_IMAGE_LAYOUT_UNDEFINED, VK_IMAGE_LAYOUT_TRANSFER_DST_OPTIMAL,
        VK_IMAGE_LAYOUT_SHADER_READ_ONLY_OPTIMAL] ∧
    StartupCall.UpdateDescriptorSets vk.device (writeDescSets p sp (contextWithPool sp vk)) ∈
      callsOf (WinMain_startup_steps p sp vk) := by
  simp only [WinMain_startup_steps, callsOf, create_render_pass, create_framebuffers,
    create_semaphores, create_command_pool_and_buffer, create_shader_modules,
    load_entire_file, vk_create_shader_module, create_descriptor_set_layout,
    create_descriptor_pool, allocate_descriptor_set, create_texture_staging,
    vk_create_buffer, create_texture_image, upload_texture, vk_begin_single_time_commands,
    vk_end_single_time_commands, texture_commands, create_texture_view_and_sampler,
    vk_create_image_view_step, create_uniform_buffer, update_descriptor_set,
    create_vertex_staging, create_vertex_buffer, upload_vertices, vertex_commands,
    create_pipeline_layout, create_graphics_pipeline, create_frame_fence,
    List.range_succ, List.range_zero, List.map_append, List.map_cons, List.map_nil,
    List.flatten_append, List.flatten_cons, List.flatten_nil, List.append_nil,
    List.cons_append, List.nil_append]
  refine ⟨?_, ?_, ?_⟩
  · simp [List.filter_cons, commandOnImage]
  · simp [imageLayouts, layoutsGiven, imageInfo, List.flatMap_cons]
  · simp [contextWithPool]

/-- C15: in a start-up that reaches the main loop the texture image goes
through exactly the layouts undefined, transfer-destination-optimal,
shader-read-only-optimal.  The one-shot command buffer of the texture upload
records, between its begin and its end, exactly a barrier from undefined to
transfer-destination, the buffer-to-image copy, and a barrier from
transfer-destination to shader-read-only, in this order; these three are the
only commands of the start-up that name the image; the image is created in the
undefined layout; the copy names the new layout of the first barrier; the old
layout of the second barrier is the new layout of the first; both barriers
cover the colour aspect, one mip level and one array layer; and the only image
layout the descriptor write declares is the new layout of the second barrier. -/
theorem texture_layout_transitions (p : Platform) (sp : StartupPlatform)
    (vk : VulkanContext) (hrun : (WinMain_startup p sp vk).2 = none) :
    ∃ (first second : VkImageMemoryBarrier) (region : VkBufferImageCopy)
      (writes : List VkWriteDescriptorSet),
      ([StartupCall.BeginCommandBuffer sp.texUpload.commandBuffer
          VK_COMMAND_BUFFER_USAGE_ONE_TIME_SUBMIT_BIT sp.texUpload.beginResult,
        .CmdPipelineBarrier sp.texUpload.commandBuffer VK_PIPELINE_STAGE_TOP_OF_PIPE_BIT
          VK_PIPELINE_STAGE_TRANSFER_BIT 0 [first],
        .CmdCopyBufferToImage sp.texUpload.commandBuffer sp.texStagingBuffer.buffer
          sp.vkCreateImage.2 first.newLayout [region],
        .CmdPipelineBarrier sp.texUpload.commandBuffer VK_PIPELINE_STAGE_TRANSFER_BIT
          VK_PIPELINE_STAGE_FRAGMENT_SHADER_BIT 0 [second],
        .EndCommandBuffer sp.texUpload.commandBuffer sp.texUpload.endResult] <:+:
          (WinMain_startup p sp vk).1) ∧
      (WinMain_startup p sp vk).1.filter (commandOnImage sp.vkCreateImage.2) =
        [.CmdPipelineBarrier sp.texUpload.commandBuffer VK_PIPELINE_STAGE_TOP_OF_PIPE_BIT
          VK_PIPELINE_STAGE_TRANSFER_BIT 0 [first],
        .CmdCopyBufferToImage sp.texUpload.commandBuffer sp.texStagingBuffer.buffer
          sp.vkCreateImage.2 first.newLayout [region],
        .CmdPipelineBarrier sp.texUpload.commandBuffer VK_PIPELINE_STAGE_TRANSFER_BIT
          VK_PIPELINE_STAGE_FRAGMENT_SHADER_BIT 0 [second]] ∧
      first = ⟨0, VK_ACCESS_TRANSFER_WRITE_BIT, VK_IMAGE_LAYOUT_UNDEFINED,
        VK_IMAGE_LAYOUT_TRANSFER_DST_OPTIMAL, VK_QUEUE_FAMILY_IGNORED, VK_QUEUE_FAMILY_IGNORED,
        sp.vkCreateImage.2, ⟨VK_IMAGE_ASPECT_COLOR_BIT, 0, 1, 0, 1⟩⟩ ∧
      second = ⟨VK_ACCESS_TRANSFER_WRITE_BIT, VK_ACCESS_SHADER_READ_BIT,
        VK_IMAGE_LAYOUT_TRANSFER_DST_OPTIMAL, VK_IMAGE_LAYOUT_SHADER_READ_ONLY_OPTIMAL,
        VK_QUEUE_FAMILY_IGNORED, VK_QUEUE_FAMILY_IGNORED, sp.vkCreateImage.2,
        ⟨VK_IMAGE_ASPECT_COLOR_BIT, 0, 1, 0, 1⟩⟩ ∧
      second.oldLayout = first.newLayout ∧
      region = ⟨0, 0, 0, ⟨VK_IMAGE_ASPECT_COLOR_BIT, 0, 0, 1⟩, ⟨0, 0, 0⟩, ⟨2, 2, 1⟩⟩ ∧
      imageLayouts sp.vkCreateImage.2 (WinMain_startup p sp vk).1 =
        [VK_IMAGE_LAYOUT_UNDEFINED, VK_IMAGE_LAYOUT_TRANSFER_DST_OPTIMAL,
          VK_IMAGE_LAYOUT_SHADER_READ_ONLY_OPTIMAL] ∧
      StartupCall.UpdateDescriptorSets vk.device writes ∈ (WinMain_startup p sp vk).1 ∧
      (writes.filterMap fun w => w.pImageInfo.map fun i => i.imageLayout) =
        [second.newLayout] := by
  obtain ⟨h1, h2, h3⟩ := image_commands_of_all_calls p sp vk
  rw [startup_trace_of_success hrun]
  refine ⟨_, _, _, writeDescSets p sp (contextWithPool sp vk), ?_, h1, rfl, rfl, rfl, rfl, h2,
    h3, rfl⟩
  have hsplit := startup_calls_split p sp vk
  have hpart : [StartupCall.BeginCommandBuffer sp.texUpload.commandBuffer
        VK_COMMAND_BUFFER_USAGE_ONE_TIME_SUBMIT_BIT sp.texUpload.beginResult] ++
      texture_commands sp sp.texUpload.commandBuffer ++
      [StartupCall.EndCommandBuffer sp.texUpload.commandBuffer sp.texUpload.endResult] =
      ((callsOf (upload_texture sp (contextWithPool sp vk))).drop 1).take 5 := by
    simp [callsOf, upload_texture, vk_begin_single_time_commands, vk_end_single_time_commands,
      texture_commands]
  have hin : callsOf (upload_texture sp (contextWithPool sp vk)) <:+:
      callsOf (WinMain_startup_steps p sp vk) := by
    rw [hsplit]
    refine List.IsInfix.trans ?_ (within_second _ _ _ _ rfl)
    rw [callsOf_append]
    exact (List.suffix_append _ _).isInfix
  have h5 := drop_take_within (callsOf (upload_texture sp (contextWithPool sp vk))) 1 5
  rw [← hpart] at h5
  exact h5.trans hin

/-- C15, a concrete instance: the layouts of the texture image `72` in the
start-up on `goodStartup`. -/
theorem texture_layout_transitions_witness :
    (WinMain_startup goodPlatform goodStartup goodContext).2 = none ∧
    imageLayouts 72 (WinMain_startup goodPlatform goodStartup goodContext).1 =
      [VK_IMAGE_LAYOUT_UNDEFINED, VK_IMAGE_LAYOUT_TRANSFER_DST_OPTIMAL,
        VK_IMAGE_LAYOUT_SHADER_READ_ONLY_OPTIMAL] := by
  obtain ⟨_, _, _, _, _, _, _, _, _, _, h, _⟩ :=
    texture_layout_transitions goodPlatform goodStartup goodContext rfl
  exact ⟨rfl, h⟩

/-! ### The bytes that reach the device -/

theorem gpuRun_append (s : GpuState) (a b : List StartupCall) :
    gpuRun s (a ++ b) = gpuRun (gpuRun s a) b := by
  simp [gpuRun]

/-- The vertex upload, whatever the device state before it. -/
theorem vertex_upload_bytes (sp : StartupPlatform) (vk : VulkanContext) (s : GpuState)
    (hne : sp.vertStagingBuffer.buffer ≠ sp.vertexBuffer.buffer)
    (h1 : sp.vertStagingBuffer.bindResult = VK_SUCCESS)
    (h2 : sp.vkMapMemory 2 = VK_SUCCESS)
    (h3 : sp.vertexBuffer.bindResult = VK_SUCCESS)
    (h4 : sp.vertUpload.beginResult = VK_SUCCESS)
    (h5 : sp.vertUpload.submitResult = VK_SUCCESS) :
    bufferBytes (gpuRun s (callsOf (create_vertex_staging sp vk ++
        create_vertex_buffer sp vk ++ upload_vertices sp vk)))
      sp.vertexBuffer.buffer vertBufferSize = some verticesBytes := by
  simp only [callsOf, create_vertex_staging, create_vertex_buffer, upload_vertices,
    vk_create_buffer, vk_begin_single_time_commands, vk_end_single_time_commands,
    vertex_commands, verticesBytes_take, h1, h2, h3, h4, h5,
    List.map_append, List.map_cons, List.map_nil, List.flatten_append, List.flatten_cons,
    List.flatten_nil, List.append_nil, List.cons_append, List.nil_append]
  simp only [gpuRun, List.foldl_cons, List.foldl_nil, gpuStep, record, if_true]
  simp [bufferBytes, executeCommand, copyBufferRegion, hne, Ne.symm hne]
  have hlen : verticesBytes.length = vertBufferSize := by decide
  have hclosed : (List.range vertBufferSize).map (fun k => verticesBytes[k]?.getD 0) =
      verticesBytes := by decide
  refine Eq.trans ?_ hclosed
  apply List.map_congr_left
  intro k hk
  have hk' : k < vertBufferSize := List.mem_range.mp hk
  simp [hk', hlen]

theorem imageBytes_congr (s : GpuState) (image width height : Nat) (g : Nat → Nat → Nat → Nat)
    (hg : ∀ x y b, x < width → y < height → b < 4 →
      s.texels image (x : Int) (y : Int) b = g x y b) :
    imageBytes s image width height =
      (List.range height).flatMap fun y =>
        (List.range width).flatMap fun x => (List.range 4).map fun b => g x y b := by
  unfold imageBytes
  apply List.flatMap_congr
  intro y hy
  apply List.flatMap_congr
  intro x hx
  apply List.map_congr_left
  intro b hb
  exact hg x y b (List.mem_range.mp hx) (List.mem_range.mp hy) (List.mem_range.mp hb)

/-- The texture upload, whatever the device state before it. -/
theorem texture_upload_bytes (sp : StartupPlatform) (vk : VulkanContext) (s : GpuState)
    (h1 : sp.texStagingBuffer.bindResult = VK_SUCCESS)
    (h2 : sp.vkMapMemory 0 = VK_SUCCESS)
    (h4 : sp.texUpload.beginResult = VK_SUCCESS)
    (h5 : sp.texUpload.submitResult = VK_SUCCESS) :
    imageBytes (gpuRun s (callsOf (create_texture_staging sp vk ++
        create_texture_image sp vk ++ upload_texture sp vk)))
      sp.vkCreateImage.2 2 2 = texDataBytes := by
  simp only [callsOf, create_texture_staging, create_texture_image, upload_texture,
    vk_create_buffer, vk_begin_single_time_commands, vk_end_single_time_commands,
    texture_commands, texDataBytes_take, h1, h2, h4, h5,
    List.map_append, List.map_cons, List.map_nil, List.flatten_append, List.flatten_cons,
    List.flatten_nil, List.append_nil, List.cons_append, List.nil_append]
  simp only [gpuRun, List.foldl_cons, List.foldl_nil, gpuStep, record, if_true]
  have hlen : texDataBytes.length = 16 := by decide
  have hclosed : ((List.range 2).flatMap fun y => (List.range 2).flatMap fun x =>
      (List.range 4).map fun b => texDataBytes[(y * 2 + x) * 4 + b]?.getD 0) =
      texDataBytes := by decide
  refine Eq.trans (imageBytes_congr _ _ _ _ _ ?_) hclosed
  intro x y b hx hy hb
  have hidx : (y * 2 + x) * 4 + b < 16 := by omega
  simp [executeCommand, copyBufferToImageRegion, imageExtent, hlen, hx, hy, hb, hidx]

/-- The calls between the two uploads leave the images as they are. -/
theorem texels_after_uniform (p : Platform) (sp : StartupPlatform) (vk : VulkanContext)
    (s : GpuState) :
    (gpuRun s (callsOf (create_texture_view_and_sampler p sp vk ++
        create_uniform_buffer sp vk ++ update_descriptor_set p sp vk))).texels = s.texels := by
  simp only [callsOf, create_texture_view_and_sampler, create_uniform_buffer,
    update_descriptor_set, vk_create_image_view_step,
    vk_create_buffer,
    List.map_append, List.map_cons, List.map_nil, List.flatten_append, List.flatten_cons,
    List.flatten_nil, List.append_nil, List.cons_append, List.nil_append]
  simp only [gpuRun, List.foldl_cons, List.foldl_nil, gpuStep]
  split_ifs <;> rfl

/-- The vertex upload leaves the images as they are. -/
theorem texels_after_vertex_upload (sp : StartupPlatform) (vk : VulkanContext) (s : GpuState)
    (h1 : sp.vertStagingBuffer.bindResult = VK_SUCCESS)
    (h2 : sp.vkMapMemory 2 = VK_SUCCESS)
    (h3 : sp.vertexBuffer.bindResult = VK_SUCCESS)
    (h4 : sp.vertUpload.beginResult = VK_SUCCESS)
    (h5 : sp.vertUpload.submitResult = VK_SUCCESS) :
    (gpuRun s (callsOf (create_vertex_staging sp vk ++
        create_vertex_buffer sp vk ++ upload_vertices sp vk))).texels = s.texels := by
  simp only [callsOf, create_vertex_staging, create_vertex_buffer, upload_vertices,
    vk_create_buffer, vk_begin_single_time_commands, vk_end_single_time_commands,
    vertex_commands, h1, h2, h3, h4, h5,
    List.map_append, List.map_cons, List.map_nil, List.flatten_append, List.flatten_cons,
    List.flatten_nil, List.append_nil, List.cons_append, List.nil_append]
  simp only [gpuRun, List.foldl_cons, List.foldl_nil, gpuStep, record, if_true]
  simp [executeCommand, copyBufferRegion]
  split <;> rfl

/-- The calls after the uploads leave the device as it is. -/
theorem gpuRun_pipeline (sp : StartupPlatform) (vk : VulkanContext) (s : GpuState) :
    gpuRun s (callsOf (create_pipeline_layout sp vk ++ create_graphics_pipeline sp vk ++
      create_frame_fence sp vk)) = s := by
  simp [callsOf, create_pipeline_layout, create_graphics_pipeline, create_frame_fence,
    gpuRun, gpuStep]

theorem imageBytes_of_texels (s t : GpuState) (h : s.texels = t.texels)
    (image width height : Nat) : imageBytes s image width height = imageBytes t image width height := by
  simp [imageBytes, h]

/-- What the success of every discarded result says about the uploads. -/
theorem upload_results_of_all_success (p : Platform) (sp : StartupPlatform) (vk : VulkanContext)
    (h : ∀ r ∈ (callsOf (WinMain_startup_steps p sp vk)).filterMap ignoredResult,
      r = VK_SUCCESS) :
    sp.texStagingBuffer.bindResult = VK_SUCCESS ∧ sp.vkMapMemory 0 = VK_SUCCESS ∧
    sp.texUpload.beginResult = VK_SUCCESS ∧ sp.texUpload.submitResult = VK_SUCCESS ∧
    sp.vertStagingBuffer.bindResult = VK_SUCCESS ∧ sp.vkMapMemory 2 = VK_SUCCESS ∧
    sp.vertexBuffer.bindResult = VK_SUCCESS ∧ sp.vertUpload.beginResult = VK_SUCCESS ∧
    sp.vertUpload.submitResult = VK_SUCCESS := by
  simp only [WinMain_startup_steps, callsOf, create_render_pass, create_framebuffers,
    create_semaphores, create_command_pool_and_buffer, create_shader_modules,
    load_entire_file, vk_create_shader_module, create_descriptor_set_layout,
    create_descriptor_pool, allocate_descriptor_set, create_texture_staging,
    vk_create_buffer, create_texture_image, upload_texture, vk_begin_single_time_commands,
    vk_end_single_time_commands, texture_commands, create_texture_view_and_sampler,
    vk_create_image_view_step, create_uniform_buffer, update_descriptor_set,
    create_vertex_staging, create_vertex_buffer, upload_vertices, vertex_commands,
    create_pipeline_layout, create_graphics_pipeline, create_frame_fence,
    List.range_succ, List.range_zero, List.map_append, List.map_cons, List.map_nil,
    List.flatten_append, List.flatten_cons, List.flatten_nil, List.append_nil,
    List.cons_append, List.nil_append] at h
  simp [ignoredResult] at h
  tauto

theorem startup_calls_mem (p : Platform) (sp : StartupPlatform) (vk : VulkanContext) :
    StartupCall.Memcpy texDataBytes ∈ callsOf (WinMain_startup_steps p sp vk) ∧
    StartupCall.Memcpy verticesBytes ∈ callsOf (WinMain_startup_steps p sp vk) ∧
    StartupCall.CmdCopyBufferToImage sp.texUpload.commandBuffer sp.texStagingBuffer.buffer
        sp.vkCreateImage.2 VK_IMAGE_LAYOUT_TRANSFER_DST_OPTIMAL
        [⟨0, 0, 0, ⟨VK_IMAGE_ASPECT_COLOR_BIT, 0, 0, 1⟩, ⟨0, 0, 0⟩, ⟨2, 2, 1⟩⟩] ∈
      callsOf (WinMain_startup_steps p sp vk) ∧
    StartupCall.CmdCopyBuffer sp.vertUpload.commandBuffer sp.vertStagingBuffer.buffer
        sp.vertexBuffer.buffer [⟨0, 0, verticesBytes.length⟩] ∈
      callsOf (WinMain_startup_steps p sp vk) := by
  have hv : verticesBytes.length = vertBufferSize := by decide
  rw [hv]
  simp only [WinMain_startup_steps, callsOf, create_render_pass, create_framebuffers,
    create_semaphores, create_command_pool_and_buffer, create_shader_modules,
    load_entire_file, vk_create_shader_module, create_descriptor_set_layout,
    create_descriptor_pool, allocate_descriptor_set, create_texture_staging,
    vk_create_buffer, create_texture_image, upload_texture, vk_begin_single_time_commands,
    vk_end_single_time_commands, texture_commands, create_texture_view_and_sampler,
    vk_create_image_view_step, create_uniform_buffer, update_descriptor_set,
    create_vertex_staging, create_vertex_buffer, upload_vertices, vertex_commands,
    create_pipeline_layout, create_graphics_pipeline, create_frame_fence,
    List.range_succ, List.range_zero, List.map_append, List.map_cons, List.map_nil,
    List.flatten_append, List.flatten_cons, List.flatten_nil, List.append_nil,
    List.cons_append, List.nil_append]
  simp [texDataBytes_take, verticesBytes_take, imageExtent]

/-- C17: round-trip upload.  In the model of the device memory in which a write
through a mapped pointer and an executed copy command move bytes exactly, if
the start-up reaches the main loop, every call whose result the source discards
returned `VK_SUCCESS`, and the vertex staging buffer and the vertex buffer are
different buffers, then after the start-up the first 96 bytes of the vertex
buffer are the bytes of the array `vertices` and the 2x2 texels of the texture
image, row by row, are the bytes of the array `texData`.  The bytes copied into
each staging buffer are the whole array (16 and 96 bytes), the vertex copy
region is offset 0 to offset 0 with the byte size of `vertices`, and the image
copy region is buffer offset 0, tightly packed, image offset (0,0,0), extent
2x2x1, which at 4 bytes per texel is the byte size of `texData`. -/
theorem uploads_round_trip (p : Platform) (sp : StartupPlatform) (vk : VulkanContext)
    (hrun : (WinMain_startup p sp vk).2 = none)
    (hresults : ∀ r ∈ (WinMain_startup p sp vk).1.filterMap ignoredResult, r = VK_SUCCESS)
    (hdistinct : sp.vertStagingBuffer.buffer ≠ sp.vertexBuffer.buffer) :
    bufferBytes (gpuRun GpuState.initial (WinMain_startup p sp vk).1) sp.vertexBuffer.buffer
      (4 * vertices.length) = some verticesBytes ∧
    imageBytes (gpuRun GpuState.initial (WinMain_startup p sp vk).1) sp.vkCreateImage.2 2 2 =
      texDataBytes ∧
    vertices.length = 6 * 4 ∧ verticesBytes.length = 4 * vertices.length ∧
    texData.length = 4 ∧ texDataBytes.length = 4 * texData.length ∧
    StartupCall.Memcpy texDataBytes ∈ (WinMain_startup p sp vk).1 ∧
    StartupCall.Memcpy verticesBytes ∈ (WinMain_startup p sp vk).1 ∧
    StartupCall.CmdCopyBufferToImage sp.texUpload.commandBuffer sp.texStagingBuffer.buffer
        sp.vkCreateImage.2 VK_IMAGE_LAYOUT_TRANSFER_DST_OPTIMAL
        [⟨0, 0, 0, ⟨VK_IMAGE_ASPECT_COLOR_BIT, 0, 0, 1⟩, ⟨0, 0, 0⟩, ⟨2, 2, 1⟩⟩] ∈
      (WinMain_startup p sp vk).1 ∧
    2 * 2 * 1 * 4 = texDataBytes.length ∧
    StartupCall.CmdCopyBuffer sp.vertUpload.commandBuffer sp.vertStagingBuffer.buffer
        sp.vertexBuffer.buffer [⟨0, 0, verticesBytes.length⟩] ∈ (WinMain_startup p sp vk).1 := by
  rw [startup_trace_of_success hrun] at hresults ⊢
  obtain ⟨t1, t2, t4, t5, v1, v2, v3, v4, v5⟩ := upload_results_of_all_success p sp vk hresults
  obtain ⟨m1, m2, m3, m4⟩ := startup_calls_mem p sp vk
  refine ⟨?_, ?_, by decide, by decide, by decide, by decide, m1, m2, m3, by decide, m4⟩
  · rw [startup_calls_split, gpuRun_append, gpuRun_append, gpuRun_append, gpuRun_append,
      gpuRun_pipeline]
    exact vertex_upload_bytes sp _ _ hdistinct v1 v2 v3 v4 v5
  · rw [startup_calls_split, gpuRun_append, gpuRun_append, gpuRun_append, gpuRun_append,
      gpuRun_pipeline,
      imageBytes_of_texels _ _ (texels_after_vertex_upload sp _ _ v1 v2 v3 v4 v5),
      imageBytes_of_texels _ _ (texels_after_uniform p sp _ _)]
    exact texture_upload_bytes sp _ _ t1 t2 t4 t5

/-- C17, a concrete instance: the vertex buffer `48` and the texture image `72`
after the start-up on `goodStartup`. -/
theorem uploads_round_trip_witness :
    (WinMain_startup goodPlatform goodStartup goodContext).2 = none ∧
    (∀ r ∈ (WinMain_startup goodPlatform goodStartup goodContext).1.filterMap ignoredResult,
      r = VK_SUCCESS) ∧
    goodStartup.vertStagingBuffer.buffer ≠ goodStartup.vertexBuffer.buffer ∧
    bufferBytes (gpuRun GpuState.initial (WinMain_startup goodPlatform goodStartup goodContext).1)
      48 96 = some verticesBytes ∧
    imageBytes (gpuRun GpuState.initial (WinMain_startup goodPlatform goodStartup goodContext).1)
      72 2 2 = texDataBytes :=
  ⟨rfl, by decide, by decide,
    (uploads_round_trip goodPlatform goodStartup goodContext rfl (by decide) (by decide)).1,
    (uploads_round_trip goodPlatform goodStartup goodContext rfl (by decide) (by decide)).2.1⟩

/-! ### The objects of the pipeline builder -/

theorem builder_objects_of_all_calls (p : Platform) (sp : StartupPlatform)
    (vk : VulkanContext) :
    (callsOf (WinMain_startup_steps p sp vk)).filterMap builderObjectOf =
      [.renderPass, .descriptorSetLayout, .descriptorPool, .descriptorSet, .pipelineLayout,
        .graphicsPipeline] := by
  simp only [WinMain_startup_steps, callsOf, create_render_pass, create_framebuffers,
    create_semaphores, create_command_pool_and_buffer, create_shader_modules,
    load_entire_file, vk_create_shader_module, create_descriptor_set_layout,
    create_descriptor_pool, allocate_descriptor_set, create_texture_staging,
    vk_create_buffer, create_texture_image, upload_texture, vk_begin_single_time_commands,
    vk_end_single_time_commands, texture_commands, create_texture_view_and_sampler,
    vk_create_image_view_step, create_uniform_buffer, update_descriptor_set,
    create_vertex_staging, create_vertex_buffer, upload_vertices, vertex_commands,
    create_pipeline_layout, create_graphics_pipeline, create_frame_fence,
    List.range_succ, List.range_zero, List.map_append, List.map_cons, List.map_nil,
    List.flatten_append, List.flatten_cons, List.flatten_nil, List.append_nil,
    List.cons_append, List.nil_append]
  simp [builderObjectOf]

/-- C18 as stated fails: on `goodStartup` the start-up runs to its end and the
render pass is the first object of the pipeline builder it creates, before the
descriptor-set layout, the descriptor pool and the descriptor set. -/
theorem render_pass_created_before_descriptor_objects :
    (WinMain_startup goodPlatform goodStartup goodContext).2 = none ∧
    (WinMain_startup goodPlatform goodStartup goodContext).1.filterMap builderObjectOf =
      [.renderPass, .descriptorSetLayout, .descriptorPool, .descriptorSet, .pipelineLayout,
        .graphicsPipeline] ∧
    (WinMain_startup goodPlatform goodStartup goodContext).1.filterMap builderObjectOf ≠
      [.descriptorSetLayout, .descriptorPool, .descriptorSet, .renderPass, .pipelineLayout,
        .graphicsPipeline] := by
  refine ⟨rfl, rfl, ?_⟩
  decide

/-- C18, amended: the objects of the pipeline builder are created in the order
render pass, descriptor-set layout, descriptor pool, descriptor set, pipeline
layout, graphics pipeline.  In every run of the start-up the creations made
are an initial stretch of this sequence, each object created at most once, and
a start-up that reaches the main loop has made all six. -/
theorem pipeline_builder_creation_order (p : Platform) (sp : StartupPlatform)
    (vk : VulkanContext) :
    (WinMain_startup p sp vk).1.filterMap builderObjectOf <+:
      [.renderPass, .descriptorSetLayout, .descriptorPool, .descriptorSet, .pipelineLayout,
        .graphicsPipeline] ∧
    ((WinMain_startup p sp vk).2 = none →
      (WinMain_startup p sp vk).1.filterMap builderObjectOf =
        [.renderPass, .descriptorSetLayout, .descriptorPool, .descriptorSet, .pipelineLayout,
          .graphicsPipeline]) := by
  constructor
  · rw [← builder_objects_of_all_calls p sp vk]
    exact (runSteps_initial_calls _).filterMap _
  · intro h
    rw [WinMain_startup, (runSteps_none _ h).1]
    exact builder_objects_of_all_calls p sp vk

/-- C18, amended, a concrete instance: the six creations of the start-up on
`goodStartup`. -/
theorem pipeline_builder_creation_order_witness :
    (WinMain_startup goodPlatform goodStartup goodContext).2 = none ∧
    (WinMain_startup goodPlatform goodStartup goodContext).1.filterMap builderObjectOf =
      [.renderPass, .descriptorSetLayout, .descriptorPool, .descriptorSet, .pipelineLayout,
        .graphicsPipeline] :=
  ⟨rfl, (pipeline_builder_creation_order goodPlatform goodStartup goodContext).2 rfl⟩

/-! ## Leaving the loop -/

theorem phasesOf_completed (o : FrameObjects) (pump : List Event)
    (hp : ∀ e ∈ pump, isMessageCall e = true) (framebuffer imageIndex : Nat) :
    phasesOf (waitFenceCalls o ++ acquireCalls o ++ pump ++ resetBeginCalls o ++
      renderCalls o framebuffer ++ submitCalls o ++ presentCalls o imageIndex) =
      [.WAIT_FENCE, .ACQUIRE_IMAGE, .RECORD, .SUBMIT, .PRESENT] := by
  unfold phasesOf
  simp only [List.filterMap_append, filterMap_phaseOf_of_isMessageCall _ hp, List.append_nil]
  rfl

theorem vulkan_window_proc_false (m : Nat) : vulkan_window_proc m false = false := by
  unfold vulkan_window_proc
  split_ifs <;> rfl

theorem vulkan_window_proc_close (m : Nat) (r : Bool) (h : m = WM_CLOSE ∨ m = WM_DESTROY) :
    vulkan_window_proc m r = false := by
  rcases h with h | h <;> subst h <;> rfl

theorem message_pump_false : ∀ (messages : List Nat), (message_pump messages false).2 = false := by
  intro messages
  induction messages with
  | nil => rfl
  | cons m rest ih =>
    simp only [message_pump, vulkan_window_proc_false]
    exact ih

theorem message_pump_close : ∀ (messages : List Nat) (r : Bool) (m : Nat),
    (m = WM_CLOSE ∨ m = WM_DESTROY) → m ∈ messages → (message_pump messages r).2 = false := by
  intro messages
  induction messages with
  | nil =>
    intro r m _ hm
    cases hm
  | cons a rest ih =>
    intro r m hclose hm
    simp only [message_pump]
    rcases List.mem_cons.mp hm with h | h
    · subst h
      rw [vulkan_window_proc_close m r hclose]
      exact message_pump_false rest
    · exact ih _ m hclose h

theorem mem_dispatchedMessages {l : List Event} {m : Nat}
    (h : Event.DispatchMessage m ∈ l) : m ∈ dispatchedMessages l := by
  unfold dispatchedMessages
  rw [List.mem_filterMap]
  exact ⟨_, h, rfl⟩

/-- A message dispatched in an iteration is one of its pending messages, and
the iteration has gone past the assertion on the image index. -/
theorem dispatched_in_iteration (o : FrameObjects) (inp : FrameInput) (r : Bool) (m : Nat)
    (h : Event.DispatchMessage m ∈ (main_loop_iteration o inp r).1.events) :
    m ∈ inp.messages ∧ (main_loop_iteration o inp r).2 = (message_pump inp.messages r).2 := by
  have hmem : Event.DispatchMessage m ∈ (message_pump inp.messages r).1 → m ∈ inp.messages := by
    intro hm
    have := mem_dispatchedMessages hm
    rwa [message_pump_dispatched] at this
  rcases main_loop_iteration_cases o inp r with ⟨_, hc⟩ | ⟨_, _, hc⟩ | ⟨_, _, hc⟩ | ⟨_, _, hc⟩
  · rw [hc] at h
    simp [waitFenceCalls, acquireCalls] at h
  · rw [hc] at h ⊢
    simp [waitFenceCalls, acquireCalls, resetBeginCalls] at h
    exact ⟨hmem h, rfl⟩
  · rw [hc] at h ⊢
    simp [waitFenceCalls, acquireCalls, resetBeginCalls, renderCalls, submitCalls] at h
    exact ⟨hmem h, rfl⟩
  · rw [hc] at h ⊢
    simp [waitFenceCalls, acquireCalls, resetBeginCalls, renderCalls, submitCalls,
      presentCalls] at h
    exact ⟨hmem h, rfl⟩

theorem message_pump_calls_flag : ∀ (messages : List Nat) (r r' : Bool),
    (message_pump messages r).1 = (message_pump messages r').1 := by
  intro messages
  induction messages with
  | nil => intro r r'; rfl
  | cons m rest ih =>
    intro r r'
    simp only [message_pump]
    rw [ih (vulkan_window_proc m r) (vulkan_window_proc m r')]

/-- The outcome of an iteration and its calls other than those of the message
pump depend neither on `globalRunning` nor on the pending messages. -/
theorem main_loop_iteration_without_pump (o : FrameObjects) (inp inp' : FrameInput)
    (r r' : Bool) (hidx : inp'.acquiredImageIndex = inp.acquiredImageIndex)
    (hsub : inp'.submitResult = inp.submitResult) :
    (main_loop_iteration o inp r).1.outcome = (main_loop_iteration o inp' r').1.outcome ∧
    (main_loop_iteration o inp r).1.events.filter (fun e => !isMessageCall e) =
      (main_loop_iteration o inp' r').1.events.filter (fun e => !isMessageCall e) := by
  have hp := filter_not_isMessageCall_pump _ (message_pump_isMessageCall inp.messages r)
  have hp' := filter_not_isMessageCall_pump _ (message_pump_isMessageCall inp'.messages r')
  have hi : imageIndexAfterAcquire inp' = imageIndexAfterAcquire inp := by
    unfold imageIndexAfterAcquire
    rw [hidx]
  by_cases h1 : imageIndexAfterAcquire inp = UINT32_MAX
  · simp [main_loop_iteration, hi, h1, outOfDateBody]
  · by_cases h2 : imageIndexAfterAcquire inp < 2
    · by_cases h3 : inp.submitResult = VK_SUCCESS
      · simp [main_loop_iteration, hi, hsub, h1, h2, h3, outOfDateBody, List.filter_append,
          hp, hp']
      · simp [main_loop_iteration, hi, hsub, h1, h2, h3, outOfDateBody, List.filter_append,
          hp, hp']
    · simp [main_loop_iteration, hi, h1, h2, outOfDateBody, List.filter_append, hp, hp']

/-- C19: the loop reads `globalRunning` at its head only: with the flag false
no iteration is run, and the frame of an iteration does not depend on the flag.
The outcome of an iteration and its calls outside the message pump are the same
with and without pending messages.  When a `WM_CLOSE` or `WM_DESTROY` message is
dispatched in an iteration, the flag is false at the end of that iteration, the
iteration is the last one of the run, and if it runs to completion it has gone
through WAIT_FENCE, ACQUIRE_IMAGE, RECORD, SUBMIT, PRESENT and the loop exits at
the next test of the flag. -/
theorem cancellation_is_cooperative (o : FrameObjects) :
    (∀ inputs, main_loop o inputs false = ([], .exited)) ∧
    (∀ inp r r', (main_loop_iteration o inp r).1 = (main_loop_iteration o inp r').1) ∧
    (∀ inp r,
      (main_loop_iteration o inp r).1.outcome =
        (main_loop_iteration o { inp with messages := [] } r).1.outcome ∧
      (main_loop_iteration o inp r).1.events.filter (fun e => !isMessageCall e) =
        (main_loop_iteration o { inp with messages := [] } r).1.events.filter
          (fun e => !isMessageCall e)) ∧
    (∀ inp rest m, (m = WM_CLOSE ∨ m = WM_DESTROY) →
      Event.DispatchMessage m ∈ (main_loop_iteration o inp true).1.events →
      (main_loop_iteration o inp true).2 = false ∧
      (main_loop o (inp :: rest) true).1 = [(main_loop_iteration o inp true).1] ∧
      ((main_loop_iteration o inp true).1.outcome = .completed →
        phasesOf (main_loop_iteration o inp true).1.events =
          [.WAIT_FENCE, .ACQUIRE_IMAGE, .RECORD, .SUBMIT, .PRESENT] ∧
        (main_loop o (inp :: rest) true).2 = .exited)) := by
  refine ⟨main_loop_false o, ?_, ?_, ?_⟩
  · intro inp r r'
    have hp := message_pump_calls_flag inp.messages r r'
    by_cases h1 : imageIndexAfterAcquire inp = UINT32_MAX
    · simp [main_loop_iteration, h1, outOfDateBody]
    · by_cases h2 : imageIndexAfterAcquire inp < 2
      · by_cases h3 : inp.submitResult = VK_SUCCESS
        · simp [main_loop_iteration, h1, h2, h3, outOfDateBody, hp]
        · simp [main_loop_iteration, h1, h2, h3, outOfDateBody, hp]
      · simp [main_loop_iteration, h1, h2, outOfDateBody, hp]
  · intro inp r
    exact main_loop_iteration_without_pump o inp _ r r rfl rfl
  · intro inp rest m hclose hdisp
    obtain ⟨hm, hflag⟩ := dispatched_in_iteration o inp true m hdisp
    have hfalse : (main_loop_iteration o inp true).2 = false := by
      rw [hflag]
      exact message_pump_close _ _ m hclose hm
    refine ⟨hfalse, ?_, ?_⟩
    · simp only [main_loop, if_true]
      split_ifs with hc
      · rw [hfalse, main_loop_false]
      · rfl
    · intro hdone
      refine ⟨?_, ?_⟩
      · have hp := message_pump_isMessageCall inp.messages true
        rcases main_loop_iteration_cases o inp true with
          ⟨_, h⟩ | ⟨_, _, h⟩ | ⟨_, _, h⟩ | ⟨_, _, h⟩
        · rw [h] at hdone; cases hdone
        · rw [h] at hdone; cases hdone
        · rw [h] at hdone; cases hdone
        · rw [h]
          exact phasesOf_completed o _ hp _ _
      · simp only [main_loop, if_true]
        rw [if_pos hdone, hfalse, main_loop_false]

/-- C19, a concrete instance: the second iteration of the run over
`exampleInputs` dispatches `WM_CLOSE`; a third iteration is given but not run. -/
theorem cancellation_is_cooperative_witness :
    (main_loop_iteration exampleObjects
      ⟨VK_SUCCESS, some 1, [WM_CLOSE], VK_SUCCESS, VK_SUCCESS⟩ true).2 = false ∧
    (main_loop exampleObjects
      [⟨VK_SUCCESS, some 1, [WM_CLOSE], VK_SUCCESS, VK_SUCCESS⟩,
       ⟨VK_SUCCESS, some 0, [], VK_SUCCESS, VK_SUCCESS⟩] true).1 =
      [(main_loop_iteration exampleObjects
        ⟨VK_SUCCESS, some 1, [WM_CLOSE], VK_SUCCESS, VK_SUCCESS⟩ true).1] ∧
    (main_loop exampleObjects
      [⟨VK_SUCCESS, some 1, [WM_CLOSE], VK_SUCCESS, VK_SUCCESS⟩,
       ⟨VK_SUCCESS, some 0, [], VK_SUCCESS, VK_SUCCESS⟩] true).2 = .exited :=
  ⟨((cancellation_is_cooperative exampleObjects).2.2.2
      ⟨VK_SUCCESS, some 1, [WM_CLOSE], VK_SUCCESS, VK_SUCCESS⟩
      [⟨VK_SUCCESS, some 0, [], VK_SUCCESS, VK_SUCCESS⟩] WM_CLOSE (Or.inl rfl)
      (by decide)).1,
    ((cancellation_is_cooperative exampleObjects).2.2.2
      ⟨VK_SUCCESS, some 1, [WM_CLOSE], VK_SUCCESS, VK_SUCCESS⟩
      [⟨VK_SUCCESS, some 0, [], VK_SUCCESS, VK_SUCCESS⟩] WM_CLOSE (Or.inl rfl)
      (by decide)).2.1,
    (((cancellation_is_cooperative exampleObjects).2.2.2
      ⟨VK_SUCCESS, some 1, [WM_CLOSE], VK_SUCCESS, VK_SUCCESS⟩
      [⟨VK_SUCCESS, some 0, [], VK_SUCCESS, VK_SUCCESS⟩] WM_CLOSE (Or.inl rfl)
      (by decide)).2.2 rfl).2⟩

/-! ## Sampling of the quad -/

theorem floor_two_uv_low {K : Type} [LinearOrderedField K] [FloorRing K] (x : K)
    (h0 : 0 ≤ x) (h1 : x < 50) : ⌊2 * (x / 100)⌋ = 0 := by
  rw [Int.floor_eq_iff]
  constructor
  · simp only [Int.cast_zero]
    positivity
  · simp only [Int.cast_zero, zero_add]
    linarith

theorem floor_two_uv_high {K : Type} [LinearOrderedField K] [FloorRing K] (x : K)
    (h0 : 50 ≤ x) (h1 : x < 100) : ⌊2 * (x / 100)⌋ = 1 := by
  rw [Int.floor_eq_iff]
  constructor
  · simp only [Int.cast_one]
    linarith
  · simp only [Int.cast_one]
    linarith

theorem sampledTexel_eq {K : Type} [LinearOrderedField K] [FloorRing K] (x y : K) (i j : Int)
    (hi : ⌊2 * (x / 100)⌋ = i) (hj : ⌊2 * (y / 100)⌋ = j) :
    sampledTexel x y = texelAt (i, j) := by
  unfold sampledTexel nearestTexel fragmentUV
  simp only [hi, hj]

/-- C20 as stated fails: the point `(100, 75)` of the quad has `x > 50` and
`y > 50`, its texture coordinate is `(1, 3/4)`, the column `floor (2 u)` is `2`,
outside the 2x2 texture, and with the repeat address mode of the sampler the
texel sampled is the one of column `0` and row `1`, which is `B`, not `A`. -/
theorem right_edge_samples_B :
    ((0 : ℚ) ≤ 100 ∧ (100 : ℚ) ≤ 100 ∧ (0 : ℚ) ≤ 75 ∧ (75 : ℚ) ≤ 100) ∧
    ((100 : ℚ) > 50 ∧ (75 : ℚ) > 50) ∧
    nearestTexel (fragmentUV (100 : ℚ) 75) = (2, 1) ∧
    sampledTexel (100 : ℚ) 75 = 0xFF0000FF ∧
    sampledTexel (100 : ℚ) 75 ≠ 0xCC000000 := by
  have h100 : ⌊2 * ((100 : ℚ) / 100)⌋ = 2 := by
    rw [Int.floor_eq_iff]
    norm_num
  have h75 : ⌊2 * ((75 : ℚ) / 100)⌋ = 1 := by
    rw [Int.floor_eq_iff]
    norm_num
  have hs : sampledTexel (100 : ℚ) 75 = 0xFF0000FF := by
    rw [sampledTexel_eq _ _ 2 1 h100 h75]
    rfl
  refine ⟨by norm_num, by norm_num, ?_, hs, ?_⟩
  · unfold nearestTexel fragmentUV
    simp only [h100, h75]
  · rw [hs]
    decide

/-- C20 amended: `texData` is `[A, B, B, A]` with `A = 0xCC000000` and
`B = 0xFF0000FF`; every vertex of `vertices` has its position equal to 100 times
its texture coordinate, and the vertices at `(0, 0)` and `(100, 100)` have the
texture coordinates `(0, 0)` and `(1, 1)`; under the nearest-filter model every
point `(x, y)` with `0 <= x < 100` and `0 <= y < 100` samples a texel inside the
texture, which is `A` when `x < 50` and `y < 50` or `x > 50` and `y > 50`, and
`B` when `x < 50` and `y > 50` or `x > 50` and `y < 50`. -/
theorem quad_quadrants_sample_texData {K : Type} [LinearOrderedField K] [FloorRing K] :
    texData = [0xCC000000, 0xFF0000FF, 0xFF0000FF, 0xCC000000] ∧
    (∀ k, k < 6 → vertexPosition k = (100 * (vertexUV k).1, 100 * (vertexUV k).2)) ∧
    (vertexPosition 0 = (0, 0) ∧ vertexUV 0 = (0, 0) ∧
      vertexPosition 2 = (100, 100) ∧ vertexUV 2 = (1, 1)) ∧
    (samplerInfo.magFilter = VK_FILTER_NEAREST ∧ samplerInfo.minFilter = VK_FILTER_NEAREST) ∧
    ∀ x y : K, 0 ≤ x → x < 100 → 0 ≤ y → y < 100 →
      (0 ≤ (nearestTexel (fragmentUV x y)).1 ∧ (nearestTexel (fragmentUV x y)).1 < 2 ∧
        0 ≤ (nearestTexel (fragmentUV x y)).2 ∧ (nearestTexel (fragmentUV x y)).2 < 2) ∧
      ((x < 50 ∧ y < 50) ∨ (x > 50 ∧ y > 50) → sampledTexel x y = 0xCC000000) ∧
      ((x < 50 ∧ y > 50) ∨ (x > 50 ∧ y < 50) → sampledTexel x y = 0xFF0000FF) := by
  refine ⟨rfl, by decide, by decide, by decide, ?_⟩
  intro x y hx0 hx1 hy0 hy1
  have hfx : ⌊2 * (x / 100)⌋ = 0 ∨ ⌊2 * (x / 100)⌋ = 1 := by
    rcases lt_or_le x 50 with h | h
    · exact Or.inl (floor_two_uv_low x hx0 h)
    · exact Or.inr (floor_two_uv_high x h hx1)
  have hfy : ⌊2 * (y / 100)⌋ = 0 ∨ ⌊2 * (y / 100)⌋ = 1 := by
    rcases lt_or_le y 50 with h | h
    · exact Or.inl (floor_two_uv_low y hy0 h)
    · exact Or.inr (floor_two_uv_high y h hy1)
  refine ⟨?_, ?_, ?_⟩
  · unfold nearestTexel fragmentUV
    simp only
    rcases hfx with h | h <;> rcases hfy with g | g <;> rw [h, g] <;> decide
  · rintro (⟨h1, h2⟩ | ⟨h1, h2⟩)
    · rw [sampledTexel_eq x y 0 0 (floor_two_uv_low x hx0 h1) (floor_two_uv_low y hy0 h2)]
      rfl
    · rw [sampledTexel_eq x y 1 1 (floor_two_uv_high x (le_of_lt h1) hx1)
        (floor_two_uv_high y (le_of_lt h2) hy1)]
      rfl
  · rintro (⟨h1, h2⟩ | ⟨h1, h2⟩)
    · rw [sampledTexel_eq x y 0 1 (floor_two_uv_low x hx0 h1)
        (floor_two_uv_high y (le_of_lt h2) hy1)]
      rfl
    · rw [sampledTexel_eq x y 1 0 (floor_two_uv_high x (le_of_lt h1) hx1)
        (floor_two_uv_low y hy0 h2)]
      rfl

/-- C20 amended, concrete instances over the rationals: the points `(25, 25)`
and `(75, 25)`. -/
theorem quad_quadrants_sample_texData_witness :
    sampledTexel (25 : ℚ) 25 = 0xCC000000 ∧ sampledTexel (75 : ℚ) 25 = 0xFF0000FF :=
  ⟨((quad_quadrants_sample_texData (K := ℚ)).2.2.2.2 25 25 (by norm_num) (by norm_num)
      (by norm_num) (by norm_num)).2.1 (Or.inl ⟨by norm_num, by norm_num⟩),
    ((quad_quadrants_sample_texData (K := ℚ)).2.2.2.2 75 25 (by norm_num) (by norm_num)
      (by norm_num) (by norm_num)).2.2 (Or.inr ⟨by norm_num, by norm_num⟩)⟩

/-! ## The recorded commands -/

theorem recordsInto_of_isMessageCall (commandBuffer : Nat) (e : Event)
    (h : isMessageCall e = true) :
    recordsInto commandBuffer e = false ∧ e ≠ .ResetCommandBuffer commandBuffer 0 := by
  cases e
  case ResetCommandBuffer => exact absurd h (by simp [isMessageCall])
  all_goals first
    | exact ⟨rfl, nofun⟩
    | exact absurd h (by simp [isMessageCall])

theorem filter_recordsInto_pump (commandBuffer : Nat) (pump : List Event)
    (h : ∀ e ∈ pump, isMessageCall e = true) : pump.filter (recordsInto commandBuffer) = [] := by
  rw [List.filter_eq_nil_iff]
  intro e he
  rw [(recordsInto_of_isMessageCall commandBuffer e (h e he)).1]
  exact Bool.false_ne_true

/-- The calls of an iteration that record into the graphics command buffer
are determined by the value of `imageIndex` after the acquire. -/
theorem filter_recordsInto_iteration (o : FrameObjects) (inp : FrameInput) (r : Bool) :
    (main_loop_iteration o inp r).1.events.filter (recordsInto o.graphicsCommandBuffer) =
      if h : imageIndexAfterAcquire inp < 2 then
        .BeginCommandBuffer o.graphicsCommandBuffer 0 ::
          renderCalls o (o.swapchainFramebuffers ⟨imageIndexAfterAcquire inp, h⟩)
      else if imageIndexAfterAcquire inp = UINT32_MAX then []
      else [.BeginCommandBuffer o.graphicsCommandBuffer 0] := by
  have hp := filter_recordsInto_pump o.graphicsCommandBuffer _
    (message_pump_isMessageCall inp.messages r)
  rcases main_loop_iteration_cases o inp r with ⟨h1, h⟩ | ⟨h1, h2, h⟩ | ⟨hi, _, h⟩ | ⟨hi, _, h⟩
  · have h2 : ¬ imageIndexAfterAcquire inp < 2 := by rw [h1]; decide
    rw [h, dif_neg h2, if_pos h1]
    simp [waitFenceCalls, acquireCalls, recordsInto]
  · rw [h, dif_neg h2, if_neg h1]
    simp only [List.filter_append, hp]
    simp [waitFenceCalls, acquireCalls, resetBeginCalls, recordsInto]
  · rw [h, dif_pos hi]
    simp only [List.filter_append, hp]
    simp [waitFenceCalls, acquireCalls, resetBeginCalls, renderCalls, submitCalls, recordsInto]
  · rw [h, dif_pos hi]
    simp only [List.filter_append, hp]
    simp [waitFenceCalls, acquireCalls, resetBeginCalls, renderCalls, submitCalls,
      presentCalls, recordsInto]

/-- C21: every frame of a run is an iteration of the loop body on one of the
inputs.  If the image index after the acquire is outside the framebuffer
array, the iteration ends before the render pass and at most the begin of the
command buffer is recorded.  Otherwise the calls of the iteration are, for some
calls `before` and `after` none of which resets, begins, ends or records into
the graphics command buffer: `before`, the reset of the graphics command
buffer, then exactly begin command buffer; begin render pass on the
framebuffer of the acquired image index with the render area at offset (0,0)
of the swapchain extent and the one clear colour (1,1,0,1); bind the graphics
pipeline; bind the one descriptor set at set index 0; bind the one vertex
buffer at binding 0 with offset 0; draw 6 vertices, 1 instance, first vertex 0,
first instance 0; end render pass; end command buffer; then `after`.  What an
iteration records depends on the image index only, not on the iteration. -/
theorem recorded_commands_fixed (o : FrameObjects) (inputs : List FrameInput) :
    (∀ frame ∈ (WinMain_main_loop o inputs).1, ∃ inp ∈ inputs, ∃ r,
      frame = (main_loop_iteration o inp r).1 ∧
      (¬ imageIndexAfterAcquire inp < 2 →
        frame.events.filter (recordsInto o.graphicsCommandBuffer) <+:
          [.BeginCommandBuffer o.graphicsCommandBuffer 0]) ∧
      ∀ h : imageIndexAfterAcquire inp < 2, ∃ before after,
        frame.events = before ++
          [.ResetCommandBuffer o.graphicsCommandBuffer 0,
           .BeginCommandBuffer o.graphicsCommandBuffer 0,
           .CmdBeginRenderPass o.graphicsCommandBuffer o.renderPass
              (o.swapchainFramebuffers ⟨imageIndexAfterAcquire inp, h⟩)
              ⟨⟨0, 0⟩, o.vk.swapchainExtents⟩ [[1, 1, 0, 1]] VK_SUBPASS_CONTENTS_INLINE,
           .CmdBindPipeline o.graphicsCommandBuffer VK_PIPELINE_BIND_POINT_GRAPHICS
              o.graphicsPipeline,
           .CmdBindDescriptorSets o.graphicsCommandBuffer VK_PIPELINE_BIND_POINT_GRAPHICS
              o.pipelineLayout 0 [o.descSet] [],
           .CmdBindVertexBuffers o.graphicsCommandBuffer 0 [o.vertexBuffer] [0],
           .CmdDraw o.graphicsCommandBuffer 6 1 0 0,
           .CmdEndRenderPass o.graphicsCommandBuffer,
           .EndCommandBuffer o.graphicsCommandBuffer] ++ after ∧
        (∀ e ∈ before ++ after, recordsInto o.graphicsCommandBuffer e = false ∧
          e ≠ .ResetCommandBuffer o.graphicsCommandBuffer 0)) ∧
    (∀ (inp inp' : FrameInput) (r r' : Bool),
      imageIndexAfterAcquire inp = imageIndexAfterAcquire inp' →
      (main_loop_iteration o inp r).1.events.filter (recordsInto o.graphicsCommandBuffer) =
        (main_loop_iteration o inp' r').1.events.filter
          (recordsInto o.graphicsCommandBuffer)) := by
  constructor
  · intro frame hframe
    obtain ⟨inp, hinp, r, hf⟩ := main_loop_frames o inputs true frame hframe
    refine ⟨inp, hinp, r, hf, ?_, ?_⟩
    · intro hidx
      rw [hf, filter_recordsInto_iteration, dif_neg hidx]
      split_ifs
      · exact List.nil_prefix
      · exact List.prefix_refl _
    intro hidx
    have hp : ∀ e ∈ (message_pump inp.messages r).1,
        recordsInto o.graphicsCommandBuffer e = false ∧
          e ≠ .ResetCommandBuffer o.graphicsCommandBuffer 0 :=
      fun e he => recordsInto_of_isMessageCall _ e (message_pump_isMessageCall inp.messages r e he)
    have hpre : ∀ e ∈ waitFenceCalls o ++ acquireCalls o ++ (message_pump inp.messages r).1,
        recordsInto o.graphicsCommandBuffer e = false ∧
          e ≠ .ResetCommandBuffer o.graphicsCommandBuffer 0 := by
      intro e he
      rcases List.mem_append.mp he with he | he
      · simp only [waitFenceCalls, acquireCalls, List.cons_append, List.nil_append,
          List.mem_cons, List.mem_singleton, List.mem_nil_iff, or_false] at he
        rcases he with rfl | rfl | rfl <;> exact ⟨rfl, fun hc => by cases hc⟩
      · exact hp e he
    rw [hf]
    rcases main_loop_iteration_cases o inp r with ⟨h1, _⟩ | ⟨_, h2, _⟩ | ⟨_, _, h⟩ | ⟨_, _, h⟩
    · rw [h1] at hidx
      exact absurd hidx (by decide)
    · exact absurd hidx h2
    · rw [h]
      refine ⟨waitFenceCalls o ++ acquireCalls o ++ (message_pump inp.messages r).1,
        submitCalls o, ?_, ?_⟩
      · simp only [resetBeginCalls, renderCalls, List.append_assoc, List.cons_append,
          List.nil_append]
      · intro e he
        rcases List.mem_append.mp he with he | he
        · exact hpre e he
        · simp only [submitCalls, List.mem_singleton] at he
          subst he
          exact ⟨rfl, fun hc => by cases hc⟩
    · rw [h]
      refine ⟨waitFenceCalls o ++ acquireCalls o ++ (message_pump inp.messages r).1,
        submitCalls o ++ presentCalls o (imageIndexAfterAcquire inp), ?_, ?_⟩
      · simp only [resetBeginCalls, renderCalls, List.append_assoc, List.cons_append,
          List.nil_append]
      · intro e he
        rcases List.mem_append.mp he with he | he
        · exact hpre e he
        · simp only [submitCalls, presentCalls, List.cons_append, List.nil_append,
            List.mem_cons, List.mem_singleton, List.mem_nil_iff, or_false] at he
          rcases he with rfl | rfl <;> exact ⟨rfl, fun hc => by cases hc⟩
  · intro inp inp' r r' hidx
    rw [filter_recordsInto_iteration, filter_recordsInto_iteration]
    simp only [hidx]

/-- C21, concrete instances: the second iteration of the run over
`exampleInputs` records on framebuffer `31`, and the two iterations of a run
that acquires image `0` twice record the same commands. -/
theorem recorded_commands_fixed_witness :
    (main_loop_iteration exampleObjects
        ⟨VK_SUCCESS, some 1, [WM_CLOSE], VK_SUCCESS, VK_SUCCESS⟩ true).1.events.filter
        (recordsInto 46) =
      [.BeginCommandBuffer 46 0,
       .CmdBeginRenderPass 46 40 31 ⟨⟨0, 0⟩, ⟨800, 600⟩⟩ [[1, 1, 0, 1]] 0,
       .CmdBindPipeline 46 0 44,
       .CmdBindDescriptorSets 46 0 43 0 [47] [],
       .CmdBindVertexBuffers 46 0 [48] [0],
       .CmdDraw 46 6 1 0 0,
       .CmdEndRenderPass 46,
       .EndCommandBuffer 46] ∧
    (main_loop_iteration exampleObjects
        ⟨VK_SUCCESS, some 0, [WM_SIZE], VK_SUCCESS, VK_SUCCESS⟩ true).1.events.filter
        (recordsInto exampleObjects.graphicsCommandBuffer) =
      (main_loop_iteration exampleObjects
        ⟨VK_SUCCESS, some 0, [], VK_SUCCESS, VK_ERROR_OUT_OF_DATE_KHR⟩ true).1.events.filter
        (recordsInto exampleObjects.graphicsCommandBuffer) :=
  ⟨rfl, (recorded_commands_fixed exampleObjects exampleInputs).2 _ _ true true rfl⟩

/-! ## The one-shot helpers -/

theorem runSteps_two_uses (A U M V P : List Step) :
    ∃ before between after, before <+: callsOf A ∧ between <+: callsOf M ∧
      after <+: callsOf P ∧
      ((runSteps (A ++ (U ++ (M ++ (V ++ P))))).1 = before ∨
        ((runSteps A).2 = none ∧ before = callsOf A ∧
          (((runSteps U).2 ≠ none ∧
              (runSteps (A ++ (U ++ (M ++ (V ++ P))))).1 = before ++ (runSteps U).1) ∨
            ((runSteps U).2 = none ∧
              ((runSteps (A ++ (U ++ (M ++ (V ++ P))))).1 = before ++ callsOf U ++ between ∨
               ((runSteps V).2 ≠ none ∧
                  (runSteps (A ++ (U ++ (M ++ (V ++ P))))).1 =
                    before ++ callsOf U ++ between ++ (runSteps V).1) ∨
               ((runSteps V).2 = none ∧
                  (runSteps (A ++ (U ++ (M ++ (V ++ P))))).1 =
                    before ++ callsOf U ++ between ++ callsOf V ++ after)))))) := by
  cases hA : (runSteps A).2 with
  | some e =>
    refine ⟨(runSteps A).1, [], [], runSteps_initial_calls A, List.nil_prefix,
      List.nil_prefix, Or.inl ?_⟩
    rw [runSteps_append, hA]
  | none =>
    have hA1 := (runSteps_none A hA).1
    cases hU : (runSteps U).2 with
    | some e =>
      refine ⟨callsOf A, [], [], List.prefix_refl _, List.nil_prefix, List.nil_prefix,
        Or.inr ⟨rfl, rfl, Or.inl ⟨(fun h => by cases h), ?_⟩⟩⟩
      rw [runSteps_append, hA, runSteps_append, hU, hA1]
    | none =>
      have hU1 := (runSteps_none U hU).1
      cases hM : (runSteps M).2 with
      | some e =>
        refine ⟨callsOf A, (runSteps M).1, [], List.prefix_refl _, runSteps_initial_calls M,
          List.nil_prefix, Or.inr ⟨rfl, rfl, Or.inr ⟨rfl, Or.inl ?_⟩⟩⟩
        rw [runSteps_append, hA, runSteps_append, hU, runSteps_append, hM, hA1, hU1]
        simp only [List.append_assoc]
      | none =>
        have hM1 := (runSteps_none M hM).1
        cases hV : (runSteps V).2 with
        | some e =>
          refine ⟨callsOf A, callsOf M, [], List.prefix_refl _, List.prefix_refl _,
            List.nil_prefix,
            Or.inr ⟨rfl, rfl, Or.inr ⟨rfl, Or.inr (Or.inl ⟨(fun h => by cases h), ?_⟩)⟩⟩⟩
          rw [runSteps_append, hA, runSteps_append, hU, runSteps_append, hM, runSteps_append,
            hV, hA1, hU1, hM1]
          simp only [List.append_assoc]
        | none =>
          have hV1 := (runSteps_none V hV).1
          refine ⟨callsOf A, callsOf M, (runSteps P).1, List.prefix_refl _,
            List.prefix_refl _, runSteps_initial_calls P,
            Or.inr ⟨rfl, rfl, Or.inr ⟨rfl, Or.inr (Or.inr ⟨rfl, ?_⟩)⟩⟩⟩
          rw [runSteps_append, hA, runSteps_append, hU, runSteps_append, hM, runSteps_append,
            hV, hA1, hU1, hM1, hV1]
          simp only [List.append_assoc]

theorem startup_steps_around_uses (p : Platform) (sp : StartupPlatform) (vk : VulkanContext) :
    WinMain_startup_steps p sp vk =
      (create_render_pass sp vk ++ create_framebuffers sp vk ++ create_semaphores sp vk ++
        create_command_pool_and_buffer sp vk ++
        create_shader_modules sp (contextWithPool sp vk) ++
        create_descriptor_set_layout sp (contextWithPool sp vk) ++
        create_descriptor_pool sp (contextWithPool sp vk) ++
        allocate_descriptor_set sp (contextWithPool sp vk) ++
        create_texture_staging sp (contextWithPool sp vk) ++
        create_texture_image sp (contextWithPool sp vk)) ++
      ((vk_begin_single_time_commands (contextWithPool sp vk) sp.texUpload ++
          [⟨texture_commands sp sp.texUpload.commandBuffer, none⟩] ++
          vk_end_single_time_commands (contextWithPool sp vk) sp.texUpload) ++
        (([⟨[.DestroyBuffer (contextWithPool sp vk).device sp.texStagingBuffer.buffer,
              .FreeMemory (contextWithPool sp vk).device sp.texStagingBuffer.memory], none⟩] ++
            create_texture_view_and_sampler p sp (contextWithPool sp vk) ++
            create_uniform_buffer sp (contextWithPool sp vk) ++
            update_descriptor_set p sp (contextWithPool sp vk) ++
            create_vertex_staging sp (contextWithPool sp vk) ++
            create_vertex_buffer sp (contextWithPool sp vk)) ++
          ((vk_begin_single_time_commands (contextWithPool sp vk) sp.vertUpload ++
              [⟨vertex_commands sp sp.vertUpload.commandBuffer, none⟩] ++
              vk_end_single_time_commands (contextWithPool sp vk) sp.vertUpload) ++
            ([⟨[.DestroyBuffer (contextWithPool sp vk).device sp.vertStagingBuffer.buffer,
                .FreeMemory (contextWithPool sp vk).device sp.vertStagingBuffer.memory],
                none⟩] ++
              create_pipeline_layout sp (contextWithPool sp vk) ++
              create_graphics_pipeline sp (contextWithPool sp vk) ++
              create_frame_fence sp (contextWithPool sp vk))))) := by
  simp only [WinMain_startup_steps, upload_texture, upload_vertices, List.append_assoc]

/-- One use of the one-shot helpers runs to its end when the allocation of
the command buffer succeeds, and ends after the allocation when it fails. -/
theorem runSteps_single_time (vk : VulkanContext) (a : SingleTimeAnswers)
    (commands : List StartupCall) :
    (a.allocateResult = VK_SUCCESS →
      runSteps (vk_begin_single_time_commands vk a ++ [⟨commands, none⟩] ++
        vk_end_single_time_commands vk a) = (single_time_calls vk a commands, none)) ∧
    (a.allocateResult ≠ VK_SUCCESS →
      runSteps (vk_begin_single_time_commands vk a ++ [⟨commands, none⟩] ++
        vk_end_single_time_commands vk a) =
        ([.AllocateCommandBuffers vk.device
            ⟨vk.graphicsCommandPool, VK_COMMAND_BUFFER_LEVEL_PRIMARY, 1⟩ a.allocateResult
            a.commandBuffer], some .commandBufferNotAllocated)) := by
  constructor
  · intro h
    apply runSteps_of_all_none
    simp [vk_begin_single_time_commands, vk_end_single_time_commands, h]
  · intro h
    simp [runSteps, vk_begin_single_time_commands, h]

theorem no_single_time_calls_around (p : Platform) (sp : StartupPlatform)
    (vk : VulkanContext) :
    (∀ c ∈ callsOf (create_render_pass sp vk ++ create_framebuffers sp vk ++
        create_semaphores sp vk ++ create_command_pool_and_buffer sp vk ++
        create_shader_modules sp (contextWithPool sp vk) ++
        create_descriptor_set_layout sp (contextWithPool sp vk) ++
        create_descriptor_pool sp (contextWithPool sp vk) ++
        allocate_descriptor_set sp (contextWithPool sp vk) ++
        create_texture_staging sp (contextWithPool sp vk) ++
        create_texture_image sp (contextWithPool sp vk)), isSingleTimeCall c = false) ∧
    (∀ c ∈ callsOf ([⟨[.DestroyBuffer (contextWithPool sp vk).device sp.texStagingBuffer.buffer,
          .FreeMemory (contextWithPool sp vk).device sp.texStagingBuffer.memory], none⟩] ++
        create_texture_view_and_sampler p sp (contextWithPool sp vk) ++
        create_uniform_buffer sp (contextWithPool sp vk) ++
        update_descriptor_set p sp (contextWithPool sp vk) ++
        create_vertex_staging sp (contextWithPool sp vk) ++
        create_vertex_buffer sp (contextWithPool sp vk)), isSingleTimeCall c = false) ∧
    (∀ c ∈ callsOf ([⟨[.DestroyBuffer (contextWithPool sp vk).device
            sp.vertStagingBuffer.buffer,
          .FreeMemory (contextWithPool sp vk).device sp.vertStagingBuffer.memory], none⟩] ++
        create_pipeline_layout sp (contextWithPool sp vk) ++
        create_graphics_pipeline sp (contextWithPool sp vk) ++
        create_frame_fence sp (contextWithPool sp vk)), isSingleTimeCall c = false) := by
  simp only [callsOf, create_render_pass, create_framebuffers,
    create_semaphores, create_command_pool_and_buffer, create_shader_modules,
    load_entire_file, vk_create_shader_module, create_descriptor_set_layout,
    create_descriptor_pool, allocate_descriptor_set, create_texture_staging,
    vk_create_buffer, create_texture_image, create_texture_view_and_sampler,
    vk_create_image_view_step, create_uniform_buffer, update_descriptor_set,
    create_vertex_staging, create_vertex_buffer,
    create_pipeline_layout, create_graphics_pipeline, create_frame_fence,
    List.range_succ, List.range_zero, List.map_append, List.map_cons, List.map_nil,
    List.flatten_append, List.flatten_cons, List.flatten_nil, List.append_nil,
    List.cons_append, List.nil_append]
  simp [isSingleTimeCall]

/-- C22: one use of the one-shot helpers around any recorded `commands` whose
allocation succeeds runs to its end and makes exactly these calls: allocate one
primary command buffer from `vk.graphicsCommandPool`, begin it with the
one-time-submit flag, the commands, end it, submit it alone with no wait
semaphores, no signal semaphores and no fence, wait for the queue to idle, free
that command buffer to the same pool.  A use whose allocation fails has no
command buffer and the run ends after the allocation.  The calls of every
start-up are `before`; or `before` and the failed allocation of the use for the
texture; or `before`, the use for the texture and `between`; or these and the
failed allocation of the use for the vertices; or `before`, the use for the
texture, `between`, the use for the vertices and `after`; where `before`,
`between` and `after` contain no begin, end, submit, wait-idle or free call.
Where a use is begun, `before` contains the successful creation of the pool
that the uses allocate from. -/
theorem one_shot_helper_call_sequence (p : Platform) (sp : StartupPlatform)
    (vk : VulkanContext) :
    (∀ (vk' : VulkanContext) (a : SingleTimeAnswers) (commands : List StartupCall),
      (a.allocateResult = VK_SUCCESS →
        runSteps (vk_begin_single_time_commands vk' a ++ [⟨commands, none⟩] ++
          vk_end_single_time_commands vk' a) = (single_time_calls vk' a commands, none)) ∧
      (a.allocateResult ≠ VK_SUCCESS →
        runSteps (vk_begin_single_time_commands vk' a ++ [⟨commands, none⟩] ++
          vk_end_single_time_commands vk' a) =
          ([.AllocateCommandBuffers vk'.device
              ⟨vk'.graphicsCommandPool, VK_COMMAND_BUFFER_LEVEL_PRIMARY, 1⟩ a.allocateResult
              a.commandBuffer], some .commandBufferNotAllocated)) ∧
      single_time_calls vk' a commands =
        [.AllocateCommandBuffers vk'.device
            ⟨vk'.graphicsCommandPool, VK_COMMAND_BUFFER_LEVEL_PRIMARY, 1⟩ a.allocateResult
            a.commandBuffer,
         .BeginCommandBuffer a.commandBuffer VK_COMMAND_BUFFER_USAGE_ONE_TIME_SUBMIT_BIT
            a.beginResult] ++ commands ++
        [.EndCommandBuffer a.commandBuffer a.endResult,
         .QueueSubmit vk'.graphicsAndPresentQueue
            [{ waitSemaphores := [], waitDstStageMask := [],
               commandBuffers := [a.commandBuffer], signalSemaphores := [] }] 0
            a.submitResult,
         .QueueWaitIdle vk'.graphicsAndPresentQueue a.waitIdleResult,
         .FreeCommandBuffers vk'.device vk'.graphicsCommandPool [a.commandBuffer]]) ∧
    ∃ before between after,
      (∀ c ∈ before ++ between ++ after, isSingleTimeCall c = false) ∧
      ((WinMain_startup p sp vk).1 = before ∨
        (((sp.texUpload.allocateResult ≠ VK_SUCCESS ∧
            (WinMain_startup p sp vk).1 =
              before ++
                [.AllocateCommandBuffers (contextWithPool sp vk).device
                  ⟨(contextWithPool sp vk).graphicsCommandPool,
                    VK_COMMAND_BUFFER_LEVEL_PRIMARY, 1⟩ sp.texUpload.allocateResult
                  sp.texUpload.commandBuffer]) ∨
          (sp.texUpload.allocateResult = VK_SUCCESS ∧
            ((WinMain_startup p sp vk).1 =
              before ++
                single_time_calls (contextWithPool sp vk) sp.texUpload
                  (texture_commands sp sp.texUpload.commandBuffer) ++ between ∨
            (sp.vertUpload.allocateResult ≠ VK_SUCCESS ∧
              (WinMain_startup p sp vk).1 =
                before ++
                  single_time_calls (contextWithPool sp vk) sp.texUpload
                    (texture_commands sp sp.texUpload.commandBuffer) ++ between ++
                  [.AllocateCommandBuffers (contextWithPool sp vk).device
                    ⟨(contextWithPool sp vk).graphicsCommandPool,
                      VK_COMMAND_BUFFER_LEVEL_PRIMARY, 1⟩ sp.vertUpload.allocateResult
                    sp.vertUpload.commandBuffer]) ∨
            (sp.vertUpload.allocateResult = VK_SUCCESS ∧
              (WinMain_startup p sp vk).1 =
                before ++
                  single_time_calls (contextWithPool sp vk) sp.texUpload
                    (texture_commands sp sp.texUpload.commandBuffer) ++ between ++
                  single_time_calls (contextWithPool sp vk) sp.vertUpload
                    (vertex_commands sp sp.vertUpload.commandBuffer) ++ after)))) ∧
          StartupCall.CreateCommandPool vk.device
            VK_COMMAND_POOL_CREATE_RESET_COMMAND_BUFFER_BIT vk.graphicsAndPresentQueueFamily
            VK_SUCCESS (contextWithPool sp vk).graphicsCommandPool ∈ before)) := by
  constructor
  · intro vk' a commands
    refine ⟨(runSteps_single_time vk' a commands).1, (runSteps_single_time vk' a commands).2,
      ?_⟩
    simp [single_time_calls, callsOf, vk_begin_single_time_commands,
      vk_end_single_time_commands]
  · obtain ⟨hA, hM, hP⟩ := no_single_time_calls_around p sp vk
    have hT := runSteps_single_time (contextWithPool sp vk) sp.texUpload
      (texture_commands sp sp.texUpload.commandBuffer)
    have hV := runSteps_single_time (contextWithPool sp vk) sp.vertUpload
      (vertex_commands sp sp.vertUpload.commandBuffer)
    obtain ⟨before, between, after, hb, hm, ha, h⟩ :=
      runSteps_two_uses
        (create_render_pass sp vk ++ create_framebuffers sp vk ++ create_semaphores sp vk ++
          create_command_pool_and_buffer sp vk ++
          create_shader_modules sp (contextWithPool sp vk) ++
          create_descriptor_set_layout sp (contextWithPool sp vk) ++
          create_descriptor_pool sp (contextWithPool sp vk) ++
          allocate_descriptor_set sp (contextWithPool sp vk) ++
          create_texture_staging sp (contextWithPool sp vk) ++
          create_texture_image sp (contextWithPool sp vk))
        (vk_begin_single_time_commands (contextWithPool sp vk) sp.texUpload ++
          [⟨texture_commands sp sp.texUpload.commandBuffer, none⟩] ++
          vk_end_single_time_commands (contextWithPool sp vk) sp.texUpload)
        ([⟨[.DestroyBuffer (contextWithPool sp vk).device sp.texStagingBuffer.buffer,
            .FreeMemory (contextWithPool sp vk).device sp.texStagingBuffer.memory], none⟩] ++
          create_texture_view_and_sampler p sp (contextWithPool sp vk) ++
          create_uniform_buffer sp (contextWithPool sp vk) ++
          update_descriptor_set p sp (contextWithPool sp vk) ++
          create_vertex_staging sp (contextWithPool sp vk) ++
          create_vertex_buffer sp (contextWithPool sp vk))
        (vk_begin_single_time_commands (contextWithPool sp vk) sp.vertUpload ++
          [⟨vertex_commands sp sp.vertUpload.commandBuffer, none⟩] ++
          vk_end_single_time_commands (contextWithPool sp vk) sp.vertUpload)
        ([⟨[.DestroyBuffer (contextWithPool sp vk).device sp.vertStagingBuffer.buffer,
            .FreeMemory (contextWithPool sp vk).device sp.vertStagingBuffer.memory],
            none⟩] ++
          create_pipeline_layout sp (contextWithPool sp vk) ++
          create_graphics_pipeline sp (contextWithPool sp vk) ++
          create_frame_fence sp (contextWithPool sp vk))
    rw [← startup_steps_around_uses p sp vk] at h
    change _ ∨ _ at h
    refine ⟨before, between, after, ?_, ?_⟩
    · intro c hc
      rcases List.mem_append.mp hc with hc | hc
      · rcases List.mem_append.mp hc with hc | hc
        · exact hA c (hb.subset hc)
        · exact hM c (hm.subset hc)
      · exact hP c (ha.subset hc)
    · rcases h with h | ⟨hrun, hbefore, h⟩
      · exact Or.inl h
      · have hpool : StartupCall.CreateCommandPool vk.device
            VK_COMMAND_POOL_CREATE_RESET_COMMAND_BUFFER_BIT vk.graphicsAndPresentQueueFamily
            VK_SUCCESS (contextWithPool sp vk).graphicsCommandPool ∈ before := by
          have hres : sp.vkCreateCommandPool.1 = VK_SUCCESS := by
            have hall := (runSteps_none _ hrun).2
            have h1 := hall ⟨[.CreateCommandPool vk.device
              VK_COMMAND_POOL_CREATE_RESET_COMMAND_BUFFER_BIT vk.graphicsAndPresentQueueFamily
              sp.vkCreateCommandPool.1 sp.vkCreateCommandPool.2],
              if sp.vkCreateCommandPool.1 != VK_SUCCESS then some .createCommandPool else none⟩
              (by simp [create_command_pool_and_buffer])
            simpa using h1
          rw [hbefore]
          simp only [callsOf_append, List.mem_append]
          refine Or.inl (Or.inl (Or.inl (Or.inl (Or.inl (Or.inl (Or.inr ?_))))))
          simp [callsOf, create_command_pool_and_buffer, contextWithPool, hres]
        refine Or.inr ⟨?_, hpool⟩
        by_cases hta : sp.texUpload.allocateResult = VK_SUCCESS
        · have hTrun := hT.1 hta
          rcases h with ⟨hne, _⟩ | ⟨_, h⟩
          · exact absurd (by rw [hTrun]) hne
          · refine Or.inr ⟨hta, ?_⟩
            by_cases hva : sp.vertUpload.allocateResult = VK_SUCCESS
            · have hVrun := hV.1 hva
              rcases h with h | ⟨hne, _⟩ | ⟨_, h⟩
              · exact Or.inl h
              · exact absurd (by rw [hVrun]) hne
              · exact Or.inr (Or.inr ⟨hva, h⟩)
            · have hVrun := hV.2 hva
              rcases h with h | ⟨_, h⟩ | ⟨hnone, _⟩
              · exact Or.inl h
              · rw [hVrun] at h
                exact Or.inr (Or.inl ⟨hva, h⟩)
              · rw [hVrun] at hnone
                cases hnone
        · have hTrun := hT.2 hta
          rcases h with ⟨_, h⟩ | ⟨hnone, _⟩
          · rw [hTrun] at h
            exact Or.inl ⟨hta, h⟩
          · rw [hTrun] at hnone
            cases hnone

/-- C22 on `goodStartup`: the allocation of the one-shot command buffer of the
texture upload succeeds, and the use runs to its end with the seven calls
around the three texture commands. -/
theorem one_shot_helper_call_sequence_witness :
    goodStartup.texUpload.allocateResult = VK_SUCCESS ∧
    runSteps (vk_begin_single_time_commands goodContext goodStartup.texUpload ++
        [⟨texture_commands goodStartup 74, none⟩] ++
        vk_end_single_time_commands goodContext goodStartup.texUpload) =
      (single_time_calls goodContext goodStartup.texUpload (texture_commands goodStartup 74),
        none) ∧
    (single_time_calls goodContext goodStartup.texUpload
      (texture_commands goodStartup 74)).length = 9 :=
  ⟨rfl,
    ((one_shot_helper_call_sequence goodPlatform goodStartup goodContext).1 goodContext
      goodStartup.texUpload (texture_commands goodStartup 74)).1 rfl,
    rfl⟩

/-! ## The descriptors -/

/-- C23: in a start-up that reaches the main loop, the calls that create the
descriptor-set layout or the descriptor pool, allocate descriptor sets or write
descriptors are exactly four.  The layout has the two bindings: binding 0, one
combined image sampler with the fragment stage as its only stage, and binding
1, one uniform buffer with the vertex stage as its only stage.  The pool has
`maxSets` 1 and one descriptor of each of the two types.  One set is allocated
from that pool with that one layout.  The one update has two writes, each to
that set, with binding number, descriptor type and count of a binding of the
layout, and the range of the write of the uniform buffer is the size the
uniform buffer was created with. -/
theorem descriptor_configuration_consistent {p : Platform} {sp : StartupPlatform}
    {vk : VulkanContext} (hrun : (WinMain_startup p sp vk).2 = none) :
    ∃ layout pool set uniformBuffer size writes,
      (WinMain_startup p sp vk).1.filter isDescriptorCall =
        [.CreateDescriptorSetLayout vk.device
            [⟨0, VK_DESCRIPTOR_TYPE_COMBINED_IMAGE_SAMPLER, 1, VK_SHADER_STAGE_FRAGMENT_BIT⟩,
             ⟨1, VK_DESCRIPTOR_TYPE_UNIFORM_BUFFER, 1, VK_SHADER_STAGE_VERTEX_BIT⟩]
            VK_SUCCESS layout,
         .CreateDescriptorPool vk.device
            ⟨0, 1, [⟨VK_DESCRIPTOR_TYPE_COMBINED_IMAGE_SAMPLER, 1⟩,
                    ⟨VK_DESCRIPTOR_TYPE_UNIFORM_BUFFER, 1⟩]⟩ VK_SUCCESS pool,
         .AllocateDescriptorSets vk.device pool [layout] VK_SUCCESS set,
         .UpdateDescriptorSets vk.device writes] ∧
      writes.length = 2 ∧
      writes.map VkWriteDescriptorSet.dstBinding = [0, 1] ∧
      (∀ w ∈ writes, w.dstSet = set ∧ w.dstArrayElement = 0 ∧
        ∃ b ∈ descSetLayoutBindings, b.binding = w.dstBinding ∧
          b.descriptorType = w.descriptorType ∧ b.descriptorCount = w.descriptorCount) ∧
      StartupCall.CreateBuffer vk.device
          ⟨size, VK_BUFFER_USAGE_UNIFORM_BUFFER_BIT, VK_SHARING_MODE_EXCLUSIVE⟩ VK_SUCCESS
          uniformBuffer ∈ (WinMain_startup p sp vk).1 ∧
      (∀ w ∈ writes, w.descriptorType = VK_DESCRIPTOR_TYPE_UNIFORM_BUFFER →
        w.pBufferInfo = some ⟨uniformBuffer, 0, size⟩) := by
  have hchecks := ((startup_runs_iff_checks_pass p sp vk).mp hrun).1
  obtain ⟨-, -, -, -, -, -, -, -, hlayout, hpool, hset, -, -, -, -, -, -, ⟨huni, -, -⟩, -⟩ :=
    hchecks
  refine ⟨sp.vkCreateDescriptorSetLayout.2, sp.vkCreateDescriptorPool.2,
    sp.vkAllocateDescriptorSets.2, sp.uniformBuffer.buffer, uniBufferSize,
    writeDescSets p sp (contextWithPool sp vk), ?_, rfl, rfl, ?_, ?_, ?_⟩
  · rw [startup_trace_of_success hrun]
    simp only [WinMain_startup_steps, callsOf, create_render_pass, create_framebuffers,
      create_semaphores, create_command_pool_and_buffer, create_shader_modules,
      load_entire_file, vk_create_shader_module, create_descriptor_set_layout,
      create_descriptor_pool, allocate_descriptor_set, create_texture_staging,
      vk_create_buffer, create_texture_image, upload_texture, vk_begin_single_time_commands,
      vk_end_single_time_commands, texture_commands, create_texture_view_and_sampler,
      vk_create_image_view_step, create_uniform_buffer, update_descriptor_set,
      create_vertex_staging, create_vertex_buffer, upload_vertices, vertex_commands,
      create_pipeline_layout, create_graphics_pipeline, create_frame_fence,
      List.range_succ, List.range_zero, List.map_append, List.map_cons, List.map_nil,
      List.flatten_append, List.flatten_cons, List.flatten_nil, List.append_nil,
      List.cons_append, List.nil_append]
    simp [isDescriptorCall, hlayout, hpool, hset, descSetLayoutBindings, descPoolInfo,
      contextWithPool]
  · intro w hw
    simp only [writeDescSets, List.mem_cons, List.mem_singleton, List.mem_nil_iff,
      or_false] at hw
    rcases hw with rfl | rfl
    · exact ⟨rfl, rfl, _, List.mem_cons_self _ _, rfl, rfl, rfl⟩
    · exact ⟨rfl, rfl, _, List.mem_cons_of_mem _ (List.mem_cons_self _ _), rfl, rfl, rfl⟩
  · rw [startup_trace_of_success hrun]
    simp only [WinMain_startup_steps, callsOf_append, List.mem_append]
    refine Or.inl (Or.inl (Or.inl (Or.inl (Or.inl (Or.inl (Or.inl (Or.inr ?_)))))))
    simp [callsOf, create_uniform_buffer, vk_create_buffer, contextWithPool, huni]
  · intro w hw htype
    simp only [writeDescSets, List.mem_cons, List.mem_singleton, List.mem_nil_iff,
      or_false] at hw
    rcases hw with rfl | rfl
    · exact absurd htype
        (show ¬ VK_DESCRIPTOR_TYPE_COMBINED_IMAGE_SAMPLER = VK_DESCRIPTOR_TYPE_UNIFORM_BUFFER
          by decide)
    · rfl

/-- C23 on `goodStartup`: the start-up runs to the main loop, so the
descriptor calls are the four of the theorem. -/
theorem descriptor_configuration_consistent_witness :
    (WinMain_startup goodPlatform goodStartup goodContext).2 = none ∧
    ∃ layout pool set uniformBuffer size writes,
      (WinMain_startup goodPlatform goodStartup goodContext).1.filter isDescriptorCall =
        [.CreateDescriptorSetLayout goodContext.device
            [⟨0, VK_DESCRIPTOR_TYPE_COMBINED_IMAGE_SAMPLER, 1, VK_SHADER_STAGE_FRAGMENT_BIT⟩,
             ⟨1, VK_DESCRIPTOR_TYPE_UNIFORM_BUFFER, 1, VK_SHADER_STAGE_VERTEX_BIT⟩]
            VK_SUCCESS layout,
         .CreateDescriptorPool goodContext.device
            ⟨0, 1, [⟨VK_DESCRIPTOR_TYPE_COMBINED_IMAGE_SAMPLER, 1⟩,
                    ⟨VK_DESCRIPTOR_TYPE_UNIFORM_BUFFER, 1⟩]⟩ VK_SUCCESS pool,
         .AllocateDescriptorSets goodContext.device pool [layout] VK_SUCCESS set,
         .UpdateDescriptorSets goodContext.device writes] ∧
      writes.length = 2 ∧
      writes.map VkWriteDescriptorSet.dstBinding = [0, 1] ∧
      (∀ w ∈ writes, w.dstSet = set ∧ w.dstArrayElement = 0 ∧
        ∃ b ∈ descSetLayoutBindings, b.binding = w.dstBinding ∧
          b.descriptorType = w.descriptorType ∧ b.descriptorCount = w.descriptorCount) ∧
      StartupCall.CreateBuffer goodContext.device
          ⟨size, VK_BUFFER_USAGE_UNIFORM_BUFFER_BIT, VK_SHARING_MODE_EXCLUSIVE⟩ VK_SUCCESS
          uniformBuffer ∈ (WinMain_startup goodPlatform goodStartup goodContext).1 ∧
      (∀ w ∈ writes, w.descriptorType = VK_DESCRIPTOR_TYPE_UNIFORM_BUFFER →
        w.pBufferInfo = some ⟨uniformBuffer, 0, size⟩) :=
  ⟨goodStartup_runs, descriptor_configuration_consistent goodStartup_runs⟩

/-! ## The vertex input -/

/-- C24: the pipeline has one vertex binding, number 0, with stride 16 at
per-vertex rate, and two attributes of that binding of the two-float format,
which takes 8 bytes: location 0 at offset 0 and location 1 at offset 8.  The
first attribute ends where the second starts and both end within the stride.
Six times the stride is 96, the size in bytes of `vertices`, the size the
vertex buffer is created with and the size of the copy into it.  Each
iteration binds that buffer at binding 0 with offset 0 and draws 6 vertices
from vertex 0, and every range of bytes this draw fetches is a range of 8
bytes that ends within the 96 bytes of the buffer. -/
theorem vertex_layout_matches_draw (sp : StartupPlatform) (vk : VulkanContext)
    (o : FrameObjects) (framebuffer : Nat) :
    (pipelineInfo sp).vertexBindingDescriptions = [⟨0, 16, VK_VERTEX_INPUT_RATE_VERTEX⟩] ∧
    (pipelineInfo sp).vertexAttributeDescriptions =
      [⟨0, 0, VK_FORMAT_R32G32_SFLOAT, 0⟩, ⟨1, 0, VK_FORMAT_R32G32_SFLOAT, 8⟩] ∧
    formatSize VK_FORMAT_R32G32_SFLOAT = 2 * 4 ∧
    (∀ a ∈ (pipelineInfo sp).vertexAttributeDescriptions,
      a.offset + formatSize a.format ≤ 16) ∧
    (∀ a ∈ (pipelineInfo sp).vertexAttributeDescriptions,
      ∀ b ∈ (pipelineInfo sp).vertexAttributeDescriptions, a.location < b.location →
        a.offset + formatSize a.format ≤ b.offset) ∧
    6 * 16 = vertBufferSize ∧ vertBufferSize = 96 ∧ verticesBytes.length = 96 ∧
    StartupCall.CreateBuffer vk.device
        ⟨96, VK_BUFFER_USAGE_VERTEX_BUFFER_BIT ||| VK_BUFFER_USAGE_TRANSFER_DST_BIT,
          VK_SHARING_MODE_EXCLUSIVE⟩ sp.vertexBuffer.createResult
        (startupObjects sp vk).vertexBuffer ∈ callsOf (create_vertex_buffer sp vk) ∧
    vertex_commands sp sp.vertUpload.commandBuffer =
      [.CmdCopyBuffer sp.vertUpload.commandBuffer sp.vertStagingBuffer.buffer
        (startupObjects sp vk).vertexBuffer [⟨0, 0, 96⟩]] ∧
    Event.CmdBindVertexBuffers o.graphicsCommandBuffer 0 [o.vertexBuffer] [0] ∈
      renderCalls o framebuffer ∧
    Event.CmdDraw o.graphicsCommandBuffer 6 1 0 0 ∈ renderCalls o framebuffer ∧
    (drawReads (pipelineInfo sp) 0 6 0).length = 12 ∧
    (∀ r ∈ drawReads (pipelineInfo sp) 0 6 0, r.1 + 8 = r.2 ∧ r.2 ≤ vertBufferSize) := by
  have hattrs : ∀ a ∈ ([⟨0, 0, VK_FORMAT_R32G32_SFLOAT, 0⟩,
      ⟨1, 0, VK_FORMAT_R32G32_SFLOAT, 8⟩] : List VkVertexInputAttributeDescription),
      a.offset + formatSize a.format ≤ 16 := by decide
  have hapart : ∀ a ∈ ([⟨0, 0, VK_FORMAT_R32G32_SFLOAT, 0⟩,
      ⟨1, 0, VK_FORMAT_R32G32_SFLOAT, 8⟩] : List VkVertexInputAttributeDescription),
      ∀ b ∈ ([⟨0, 0, VK_FORMAT_R32G32_SFLOAT, 0⟩,
        ⟨1, 0, VK_FORMAT_R32G32_SFLOAT, 8⟩] : List VkVertexInputAttributeDescription),
      a.location < b.location → a.offset + formatSize a.format ≤ b.offset := by decide
  have hreads : ∀ r ∈ ([(0, 8), (8, 16), (16, 24), (24, 32), (32, 40), (40, 48), (48, 56),
      (56, 64), (64, 72), (72, 80), (80, 88), (88, 96)] : List (Nat × Nat)),
      r.1 + 8 = r.2 ∧ r.2 ≤ vertBufferSize := by decide
  refine ⟨rfl, rfl, rfl, hattrs, hapart, rfl, rfl, by decide, ?_, rfl, ?_, ?_, rfl, hreads⟩
  · simp [callsOf, create_vertex_buffer, vk_create_buffer, startupObjects, vertBufferSize,
      vertices]
  · simp [renderCalls]
  · simp [renderCalls]

/-! ## The scratch arrays -/

theorem win32_init_vulkan_layers {p : Platform} {vk' : VulkanContext}
    (h : win32_init_vulkan p = .ok vk') : p.instanceLayers.length ≤ 32 := by
  rw [win32_init_vulkan, bind_eq_ok] at h
  obtain ⟨vk1, -, h⟩ := h
  rw [bind_eq_ok] at h
  obtain ⟨vk2, h2, -⟩ := h
  simp only [init_enabled_layers] at h2
  split_ifs at h2 with h1
  simpa using h1

theorem enumerationWrites_index (array : ScratchArray) (count : Nat) :
    ∀ a ∈ enumerationWrites array count, a.array = array ∧ a.index < count := by
  intro a ha
  simp only [enumerationWrites, List.mem_map, List.mem_range] at ha
  obtain ⟨i, hi, rfl⟩ := ha
  exact ⟨rfl, hi⟩

theorem validation_layer_loop_accesses_index (layerProperties : List String) :
    ∀ n i, ∀ a ∈ validation_layer_loop_accesses layerProperties n i,
      a.array = .layerProperties ∧ a.index < i + n := by
  intro n
  induction n with
  | zero =>
    intro i a ha
    simp [validation_layer_loop_accesses] at ha
  | succ n ih =>
    intro i a ha
    simp only [validation_layer_loop_accesses, List.mem_cons] at ha
    rcases ha with rfl | ha
    · exact ⟨rfl, by simp⟩
    · split_ifs at ha
      · simp at ha
      · obtain ⟨h1, h2⟩ := ih (i + 1) a ha
        exact ⟨h1, by omega⟩

theorem discrete_gpu_loop_accesses_index (p : Platform) (devices : List Nat) :
    ∀ n i, ∀ a ∈ discrete_gpu_loop_accesses p devices n i,
      a.array = .devices ∧ a.index < i + n := by
  intro n
  induction n with
  | zero =>
    intro i a ha
    simp [discrete_gpu_loop_accesses] at ha
  | succ n ih =>
    intro i a ha
    simp only [discrete_gpu_loop_accesses, List.mem_cons] at ha
    rcases ha with rfl | ha
    · exact ⟨rfl, by simp⟩
    · split_ifs at ha
      · simp only [List.mem_singleton] at ha
        subst ha
        exact ⟨rfl, by simp⟩
      · obtain ⟨h1, h2⟩ := ih (i + 1) a ha
        exact ⟨h1, by omega⟩

/-- C25: each of the three enumerations of `win32_init_vulkan` ends in its
count assertion when the reported count is above the length of its array (32
layers, 8 physical devices, 3 queue families), so a `win32_init_vulkan` that
returns has met counts within the three lengths; and for every platform, every
write and every read of `layerProperties`, `devices` and
`queueFamilyProperties` has an index below the length of the array, also when
a reported count is `0`. -/
theorem scratch_arrays_within_bounds (p : Platform) (vk : VulkanContext) :
    (32 < p.instanceLayers.length →
      init_enabled_layers p vk = .error .layerCountExceedsArray) ∧
    (8 < p.physicalDevices.length →
      init_pick_physical_device p vk = .error .deviceCountExceedsArray) ∧
    (3 < (p.queueFamilies vk.physicalDevice).length →
      init_pick_queue_family p vk = .error .queueFamilyCountExceedsArray) ∧
    (∀ vk', win32_init_vulkan p = .ok vk' →
      p.instanceLayers.length ≤ 32 ∧ p.physicalDevices.length ≤ 8 ∧
        (p.queueFamilies vk'.physicalDevice).length ≤ 3) ∧
    (∀ a ∈ init_enabled_layers_accesses p ++ init_pick_physical_device_accesses p ++
        init_pick_queue_family_accesses p vk, a.index < a.array.length) := by
  refine ⟨?_, ?_, ?_, ?_, ?_⟩
  · intro h
    simp only [init_enabled_layers]
    rw [if_pos (by omega)]
  · intro h
    simp only [init_pick_physical_device]
    rw [if_pos (by omega)]
  · intro h
    simp only [init_pick_queue_family]
    rw [if_pos (by omega)]
  · intro vk' h
    obtain ⟨h1, -, -, h2, -⟩ := win32_init_vulkan_ok h
    exact ⟨win32_init_vulkan_layers h, h1, h2⟩
  · intro a ha
    rcases List.mem_append.mp ha with ha | ha
    · rcases List.mem_append.mp ha with ha | ha
      · simp only [init_enabled_layers_accesses] at ha
        split_ifs at ha with hc
        · simp only [List.mem_append, List.mem_singleton] at ha
          rcases ha with ha | ha
          · obtain ⟨h1, h2⟩ := enumerationWrites_index _ _ a ha
            rw [h1]
            exact lt_of_lt_of_le h2 hc
          · obtain ⟨h1, h2⟩ := validation_layer_loop_accesses_index _ _ _ a ha
            rw [h1]
            exact lt_of_lt_of_le h2 (by simpa using hc)
        · simp at ha
      · simp only [init_pick_physical_device_accesses] at ha
        split_ifs at ha with hc
        · simp only [List.mem_append, List.mem_singleton] at ha
          rcases ha with (ha | ha) | ha
          · obtain ⟨h1, h2⟩ := enumerationWrites_index _ _ a ha
            rw [h1]
            exact lt_of_lt_of_le h2 hc
          · subst ha
            decide
          · obtain ⟨h1, h2⟩ := discrete_gpu_loop_accesses_index _ _ _ _ a ha
            rw [h1]
            exact lt_of_lt_of_le h2 (by simpa using hc)
        · simp at ha
    · simp only [init_pick_queue_family_accesses] at ha
      split_ifs at ha with hc
      · simp only [List.mem_append, List.mem_singleton] at ha
        rcases ha with ha | ha
        · obtain ⟨h1, h2⟩ := enumerationWrites_index _ _ a ha
          rw [h1]
          exact lt_of_lt_of_le h2 hc
        · subst ha
          decide
      · simp at ha

/-- C25 on concrete platforms: `goodPlatform` returns a context, and its
accesses are the writes of two layers, two devices and one queue family and
the reads of the loops; on `noDevicePlatform`, which reports no device, the
one access of `devices` is the read of `devices[0]`. -/
theorem scratch_arrays_within_bounds_witness :
    (∃ vk', win32_init_vulkan goodPlatform = .ok vk') ∧
    init_enabled_layers_accesses goodPlatform =
      [⟨.layerProperties, 0, true⟩, ⟨.layerProperties, 1, true⟩,
       ⟨.layerProperties, 0, false⟩, ⟨.layerProperties, 1, false⟩] ∧
    init_pick_physical_device_accesses goodPlatform =
      [⟨.devices, 0, true⟩, ⟨.devices, 1, true⟩, ⟨.devices, 0, false⟩,
       ⟨.devices, 0, false⟩, ⟨.devices, 1, false⟩, ⟨.devices, 1, false⟩] ∧
    init_pick_queue_family_accesses goodPlatform goodContext =
      [⟨.queueFamilyProperties, 0, true⟩, ⟨.queueFamilyProperties, 0, false⟩] ∧
    init_pick_physical_device_accesses noDevicePlatform = [⟨.devices, 0, false⟩] ∧
    (∀ a ∈ init_enabled_layers_accesses goodPlatform ++
        init_pick_physical_device_accesses goodPlatform ++
        init_pick_queue_family_accesses goodPlatform goodContext,
      a.index < a.array.length) :=
  ⟨⟨_, rfl⟩, by decide, by decide, by decide, by decide,
    (scratch_arrays_within_bounds goodPlatform goodContext).2.2.2.2⟩

/-! ## The frame fence -/

theorem fenceAfterStartup_frame_fence (p : Platform) (sp : StartupPlatform)
    (vk : VulkanContext) :
    fenceAfterStartup sp.vkCreateFence.2 (callsOf (WinMain_startup_steps p sp vk)) =
      .unsignaled := by
  have h : ∃ before, callsOf (WinMain_startup_steps p sp vk) =
      before ++ [.CreateFence (contextWithPool sp vk).device 0 sp.vkCreateFence.1
        sp.vkCreateFence.2] := by
    refine ⟨callsOf (create_render_pass sp vk ++ create_framebuffers sp vk ++
        create_semaphores sp vk ++ create_command_pool_and_buffer sp vk ++
        create_shader_modules sp (contextWithPool sp vk) ++
        create_descriptor_set_layout sp (contextWithPool sp vk) ++
        create_descriptor_pool sp (contextWithPool sp vk) ++
        allocate_descriptor_set sp (contextWithPool sp vk) ++
        create_texture_staging sp (contextWithPool sp vk) ++
        create_texture_image sp (contextWithPool sp vk) ++
        upload_texture sp (contextWithPool sp vk) ++
        create_texture_view_and_sampler p sp (contextWithPool sp vk) ++
        create_uniform_buffer sp (contextWithPool sp vk) ++
        update_descriptor_set p sp (contextWithPool sp vk) ++
        create_vertex_staging sp (contextWithPool sp vk) ++
        create_vertex_buffer sp (contextWithPool sp vk) ++
        upload_vertices sp (contextWithPool sp vk) ++
        create_pipeline_layout sp (contextWithPool sp vk) ++
        create_graphics_pipeline sp (contextWithPool sp vk)) ++
      [.DestroyShaderModule (contextWithPool sp vk).device (sp.vkCreateShaderModule 0).2,
       .DestroyShaderModule (contextWithPool sp vk).device (sp.vkCreateShaderModule 1).2], ?_⟩
    simp only [WinMain_startup_steps, callsOf_append, create_frame_fence, List.append_assoc]
    simp [callsOf]
  obtain ⟨before, h⟩ := h
  rw [h, fenceAfterStartup, List.foldl_append]
  simp [fenceAfterStartupCall, VK_FENCE_CREATE_SIGNALED_BIT]

/-- In every run that enters the loop body at least once, the first wait on
the frame fence, with the timeout `UINT64_MAX`, finds the fence unsignaled and
with no submission pending that would signal it. -/
theorem first_wait_finds_fence_unsignaled {p : Platform} {sp : StartupPlatform}
    {vk : VulkanContext} (hrun : (WinMain_startup p sp vk).2 = none) (inp : FrameInput)
    (rest : List FrameInput) :
    ∃ later,
      fenceWaits (startupObjects sp vk).frameFence
        (fenceAfterStartup (startupObjects sp vk).frameFence (WinMain_startup p sp vk).1)
        (callTrace (WinMain_main_loop (startupObjects sp vk) (inp :: rest)).1) =
      (.unsignaled, UINT64_MAX) :: later := by
  rw [startup_trace_of_success hrun]
  have hfence : (startupObjects sp vk).frameFence = sp.vkCreateFence.2 := rfl
  rw [hfence, fenceAfterStartup_frame_fence]
  obtain ⟨later, h⟩ := main_loop_iteration_starts_with_wait (startupObjects sp vk) inp true
  have htrace : ∃ more, callTrace (WinMain_main_loop (startupObjects sp vk) (inp :: rest)).1 =
      .WaitForFences (startupObjects sp vk).vk.device [sp.vkCreateFence.2] VK_TRUE
        UINT64_MAX :: more := by
    simp only [WinMain_main_loop, main_loop, if_true]
    split_ifs <;> simp [callTrace, h, waitFenceCalls, hfence]
  obtain ⟨more, hmore⟩ := htrace
  rw [hmore]
  refine ⟨fenceWaits sp.vkCreateFence.2
    (fenceAfterCall sp.vkCreateFence.2 .unsignaled
      (.WaitForFences (startupObjects sp vk).vk.device [sp.vkCreateFence.2] VK_TRUE
        UINT64_MAX)) more, ?_⟩
  simp [fenceWaits]

/-- C26, evaluated: on `goodPlatform` and `goodStartup` the fence `45` is
created with flags `0` and no call of the start-up submits with it, and in the
run over `exampleInputs` the two waits on it have the timeout `UINT64_MAX`; the
first finds the fence unsignaled with no submission pending, the second finds
the submission of the first iteration pending. -/
theorem first_wait_on_unsignaled_fence :
    (WinMain_startup goodPlatform goodStartup goodContext).2 = none ∧
    (startupObjects goodStartup goodContext).frameFence = 45 ∧
    fenceWaits 45
        (fenceAfterStartup 45 (WinMain_startup goodPlatform goodStartup goodContext).1)
        (callTrace
          (WinMain_main_loop (startupObjects goodStartup goodContext) exampleInputs).1) =
      [(.unsignaled, UINT64_MAX), (.pending, UINT64_MAX)] :=
  ⟨rfl, rfl, rfl⟩

/-! ## The two triangles -/

theorem vertexPoint_values (K : Type) [LinearOrderedField K] :
    vertexPoint K 0 = (0, 0) ∧ vertexPoint K 1 = (100, 0) ∧ vertexPoint K 2 = (100, 100) ∧
    vertexPoint K 3 = (0, 0) ∧ vertexPoint K 4 = (100, 100) ∧ vertexPoint K 5 = (0, 100) := by
  have h0 : vertexPosition 0 = (0, 0) := rfl
  have h1 : vertexPosition 1 = (100, 0) := rfl
  have h2 : vertexPosition 2 = (100, 100) := rfl
  have h3 : vertexPosition 3 = (0, 0) := rfl
  have h4 : vertexPosition 4 = (100, 100) := rfl
  have h5 : vertexPosition 5 = (0, 100) := rfl
  simp [vertexPoint, h0, h1, h2, h3, h4, h5]

theorem triangleArea_values (K : Type) [LinearOrderedField K] :
    triangleArea K 0 = -5000 ∧ triangleArea K 1 = -5000 := by
  obtain ⟨h0, h1, h2, h3, h4, h5⟩ := vertexPoint_values K
  constructor
  · simp only [triangleArea, signedArea, h0, h1, h2]
    norm_num
  · simp only [triangleArea, signedArea, h3, h4, h5]
    norm_num

theorem inTriangle_zero_iff (K : Type) [LinearOrderedField K] (q : K × K) :
    InTriangle K 0 q ↔ 0 ≤ q.2 ∧ q.1 ≤ 100 ∧ q.2 ≤ q.1 := by
  obtain ⟨h0, h1, h2, -, -, -⟩ := vertexPoint_values K
  simp only [InTriangle, edgeFunction, h0, h1, h2]
  constructor
  · rintro (⟨a, b, c⟩ | ⟨a, b, c⟩)
    · refine ⟨?_, ?_, ?_⟩ <;> linarith
    · exfalso
      linarith
  · rintro ⟨a, b, c⟩
    refine Or.inl ⟨?_, ?_, ?_⟩ <;> linarith

theorem inTriangle_one_iff (K : Type) [LinearOrderedField K] (q : K × K) :
    InTriangle K 1 q ↔ 0 ≤ q.1 ∧ q.2 ≤ 100 ∧ q.1 ≤ q.2 := by
  obtain ⟨-, -, -, h3, h4, h5⟩ := vertexPoint_values K
  simp only [InTriangle, edgeFunction, h3, h4, h5]
  constructor
  · rintro (⟨a, b, c⟩ | ⟨a, b, c⟩)
    · refine ⟨?_, ?_, ?_⟩ <;> linarith
    · exfalso
      linarith
  · rintro ⟨a, b, c⟩
    refine Or.inl ⟨?_, ?_, ?_⟩ <;> linarith

theorem inTriangleInterior_apart (K : Type) [LinearOrderedField K] (q : K × K) :
    ¬ (InTriangleInterior K 0 q ∧ InTriangleInterior K 1 q) := by
  obtain ⟨h0, h1, h2, h3, h4, h5⟩ := vertexPoint_values K
  simp only [InTriangleInterior, edgeFunction, h0, h1, h2, h3, h4, h5]
  rintro ⟨⟨a, b, c⟩ | ⟨a, b, c⟩, ⟨d, e, f⟩ | ⟨d, e, f⟩⟩ <;> linarith

/-- C27: over any ordered field, each of the two triangles of `vertices`
(vertices 0, 1, 2 and 3, 4, 5 of the triangle list) has the signed area
`-1/2 * sum (x_i * y_(i+1) - x_(i+1) * y_i) = -5000`, which is negative; the
rasterisation state of the pipeline has clockwise front faces and culls back
faces, so both triangles are front-facing and neither is culled; a point lies
in the square from (0,0) to (100,100) exactly if it lies in one of the two
triangles, no point lies in the interior of both, and the two areas add up to
the area of the square. -/
theorem quad_triangles_front_facing (K : Type) [LinearOrderedField K] (sp : StartupPlatform) :
    (pipelineInfo sp).topology = VK_PRIMITIVE_TOPOLOGY_TRIANGLE_LIST ∧
    (pipelineInfo sp).rasterizationState.frontFace = VK_FRONT_FACE_CLOCKWISE ∧
    (pipelineInfo sp).rasterizationState.cullMode = VK_CULL_MODE_BACK_BIT ∧
    (∀ t < 2, triangleArea K t = -5000 ∧ triangleArea K t < 0 ∧
      isFrontFacing (pipelineInfo sp).rasterizationState.frontFace (triangleArea K t) = true ∧
      isCulled (pipelineInfo sp).rasterizationState (triangleArea K t) = false) ∧
    (∀ q : K × K, (0 ≤ q.1 ∧ q.1 ≤ 100 ∧ 0 ≤ q.2 ∧ q.2 ≤ 100) ↔
      (InTriangle K 0 q ∨ InTriangle K 1 q)) ∧
    (∀ q : K × K, ¬ (InTriangleInterior K 0 q ∧ InTriangleInterior K 1 q)) ∧
    -triangleArea K 0 + -triangleArea K 1 = 100 * 100 := by
  obtain ⟨ha0, ha1⟩ := triangleArea_values K
  have hneg : (-5000 : K) < 0 := by norm_num
  have hfront : isFrontFacing (pipelineInfo sp).rasterizationState.frontFace (-5000 : K) =
      true := by
    simp [isFrontFacing, pipelineInfo]
  have hcull : isCulled (pipelineInfo sp).rasterizationState (-5000 : K) = false := by
    rw [isCulled, hfront]
    simp only [if_true]
    show (VK_CULL_MODE_BACK_BIT &&& VK_CULL_MODE_FRONT_BIT != 0) = false
    decide
  refine ⟨rfl, rfl, rfl, ?_, ?_, inTriangleInterior_apart K, ?_⟩
  · intro t ht
    have ht' : t = 0 ∨ t = 1 := by omega
    rcases ht' with rfl | rfl
    · rw [ha0]
      exact ⟨rfl, hneg, hfront, hcull⟩
    · rw [ha1]
      exact ⟨rfl, hneg, hfront, hcull⟩
  · intro q
    rw [inTriangle_zero_iff, inTriangle_one_iff]
    constructor
    · rintro ⟨a, b, c, d⟩
      rcases le_total q.2 q.1 with h | h
      · exact Or.inl ⟨c, b, h⟩
      · exact Or.inr ⟨a, d, h⟩
    · rintro (⟨a, b, c⟩ | ⟨a, b, c⟩)
      · exact ⟨le_trans a c, b, a, le_trans c b⟩
      · exact ⟨a, le_trans c b, le_trans a c, b⟩
  · rw [ha0, ha1]
    norm_num

/-- C27 over the rationals at the centre of the square, which lies on the
shared edge of the two triangles and inside neither. -/
theorem quad_triangles_front_facing_witness :
    (∀ t < 2, triangleArea ℚ t = -5000 ∧ triangleArea ℚ t < 0 ∧
      isFrontFacing (pipelineInfo goodStartup).rasterizationState.frontFace
        (triangleArea ℚ t) = true ∧
      isCulled (pipelineInfo goodStartup).rasterizationState (triangleArea ℚ t) = false) ∧
    (InTriangle ℚ 0 (50, 50) ∨ InTriangle ℚ 1 (50, 50)) ∧
    ¬ (InTriangleInterior ℚ 0 (50, 50) ∧ InTriangleInterior ℚ 1 (50, 50)) :=
  ⟨(quad_triangles_front_facing ℚ goodStartup).2.2.2.1,
    ((quad_triangles_front_facing ℚ goodStartup).2.2.2.2.1 (50, 50)).mp (by norm_num),
    (quad_triangles_front_facing ℚ goodStartup).2.2.2.2.2.1 (50, 50)⟩

end MinimalVulkan
